import Mathlib

/-!
# Falcor render passes `RTPM` and `VBufferSC`

A shallow embedding of the two render passes under
`Source/RenderPasses/RTPM` and `Source/RenderPasses/VbufferSC`, together with
the hash-grid photon map, the photon collector and the progressive radius
controller that `RTPM` drives.  `RTPM::execute` is an empty body in the
sources and the two shaders the pass names (`PMGenerate.rt.slang`,
`PMCollect.cs.slang`) are not among them, so the grid, the collector and the
radius controller are modelled from the specification; every such definition
says so in its doc comment.  The same holds for the code that serves the
buffer requests of the configuration UI, for the widgets of `Gui::Widgets` and
for the helpers of `RenderPassHelpers.h` the passes call.  Everything else is
translated from the C++; `RTPM::renderUI` takes what the user did to each
widget in the frame as an input, and `VBufferSC::execute` the outcome of the
device code it reaches.

Conventions: `uint` fields are `Nat`, `float`/`double` fields of the passes are
modelled by exact rationals (no rounding, no NaN), the radii of the radius
controller are non-negative reals, `FALCOR_THROW` raises, and what the
environment supplies (clock, file system, device, render data, random draws)
is an explicit argument.
-/

namespace Falcor

/-! ## Hash grid (modelled from the specification, sections 3 and 4.1) -/

/-- The three hash options of `RTPM.h:114-116`, with their defaults. -/
structure HashConfig where
  /-- `2^mNumBucketBits` is the number of buckets. -/
  mNumBucketBits : Nat := 20
  /-- Bucket capacity `K`. -/
  mNumPhotonsPerBucket : Nat := 12
  /-- Bound on the number of quadratic probe steps. -/
  mQuadraticProbeIterations : Nat := 10
deriving DecidableEq, Repr

/-- Number of buckets of the grid, `2^numBucketBits`. -/
def HashConfig.gridSize (cfg : HashConfig) : Nat := 2 ^ cfg.mNumBucketBits

/-- Modelled from the spec: the hash grid of section 3; the shaders that own it
(`PMGenerate.rt.slang`, `PMCollect.cs.slang`) are not among the sources.  Bucket `b` has the fill counter `counters b` and
the photon slots `slots b s`; `overflow` counts the photons that were dropped
after their probe steps were exhausted. -/
structure HashGrid (P : Type) where
  counters : Nat → Nat
  slots : Nat → Nat → Option P
  overflow : Nat

/-- Modelled from the spec: the grid at iteration start, all fill counters
reset to zero and no photon stored. -/
def HashGrid.empty (P : Type) : HashGrid P :=
  { counters := fun _ => 0, slots := fun _ _ => none, overflow := 0 }

/-- Modelled from the spec: the atomic fetch-and-increment on the fill counter
of bucket `b`; returns the pre-increment value. -/
def HashGrid.fetchInc {P : Type} (g : HashGrid P) (b : Nat) : Nat × HashGrid P :=
  (g.counters b, { g with counters := Function.update g.counters b (g.counters b + 1) })

/-- Modelled from the spec: write photon `p` into slot `s` of bucket `b`. -/
def HashGrid.writeSlot {P : Type} (g : HashGrid P) (b s : Nat) (p : P) : HashGrid P :=
  { g with slots := Function.update g.slots b (Function.update (g.slots b) s (some p)) }

/-- Modelled from the spec: record one dropped photon. -/
def HashGrid.countOverflow {P : Type} (g : HashGrid P) : HashGrid P :=
  { g with overflow := g.overflow + 1 }

/-- Modelled from the spec: bucket visited at probe step `i`,
`(baseHash + i*i) mod gridSize`. -/
def probeBucket (cfg : HashConfig) (baseHash i : Nat) : Nat :=
  (baseHash + i * i) % cfg.gridSize

/-- Result of one insertion. -/
inductive InsertOutcome where
  /-- The photon was written into slot `slot` of bucket `bucket`. -/
  | stored (bucket slot : Nat)
  /-- All probe steps were exhausted; the photon was dropped. -/
  | dropped
deriving DecidableEq, Repr

/-- Modelled from the spec: the probe loop of `insertPhoton` (section 4.1; the
generation shader that holds it is not among the sources),
`n` steps remaining and `i` the current probe step: fetch-and-increment the
counter of bucket `(baseHash + i*i) mod gridSize`; a pre-increment value below
`K` wins that slot, otherwise probing continues; with no step left the photon
is dropped and counted as overflow. -/
def insertLoop {P : Type} (cfg : HashConfig) (baseHash : Nat) (p : P) :
    Nat → Nat → HashGrid P → InsertOutcome × HashGrid P
  | 0, _, g => (InsertOutcome.dropped, g.countOverflow)
  | n + 1, i, g =>
    let b := probeBucket cfg baseHash i
    let r := g.fetchInc b
    if r.1 < cfg.mNumPhotonsPerBucket then
      (InsertOutcome.stored b r.1, r.2.writeSlot b r.1 p)
    else
      insertLoop cfg baseHash p n (i + 1) r.2

/-- Modelled from the spec: `insertPhoton` for a photon whose cell hashes to
`baseHash`: probe steps `i = 0, 1, ...` while `i < maxProbeIterations`. -/
def insertAt {P : Type} (cfg : HashConfig) (baseHash : Nat) (p : P) (g : HashGrid P) :
    InsertOutcome × HashGrid P :=
  insertLoop cfg baseHash p cfg.mQuadraticProbeIterations 0 g

/-- Number of probe steps `j` in `[i, i + n)` that visit bucket `b`. -/
def visits (cfg : HashConfig) (baseHash b : Nat) : Nat → Nat → Nat
  | 0, _ => 0
  | n + 1, i => (if probeBucket cfg baseHash i = b then 1 else 0) + visits cfg baseHash b n (i + 1)

/-- A point or vector with three coordinates (the `float3` of the photon
record, as exact rationals). -/
structure Vec3 where
  x : ℚ
  y : ℚ
  z : ℚ
deriving DecidableEq

/-- Path-type tag of a photon. -/
inductive PathType where
  | caustic
  | global
deriving DecidableEq, Repr

/-- Modelled from the spec: the photon record of section 3 (its declaration is
in the shaders, not among the sources): position, incoming
direction, flux, the encoded surface identifier used for rejection tests, and
the path-type tag. -/
structure Photon where
  position : Vec3
  direction : Vec3
  flux : Vec3
  surface : Nat
  pathType : PathType
deriving DecidableEq

/-- A grid cell coordinate. -/
abbrev Cell : Type := Int × Int × Int

/-- Modelled from the spec: the cell of a position, `floor(position / cellSize)`
per coordinate. -/
def cellOf (cellSize : ℚ) (pos : Vec3) : Cell :=
  (⌊pos.x / cellSize⌋, ⌊pos.y / cellSize⌋, ⌊pos.z / cellSize⌋)

/-- Modelled from the spec: `insertPhoton(photon, cellSize)` of section 4.1,
with `baseHash = hash(floor(photon.position / cellSize))`.  The spatial hash
function is left open by the spec and is the argument `hash`. -/
def insertPhoton (cfg : HashConfig) (hash : Cell → Nat) (cellSize : ℚ) (photon : Photon)
    (g : HashGrid Photon) : InsertOutcome × HashGrid Photon :=
  insertAt cfg (hash (cellOf cellSize photon.position)) photon g

/-- A photon at the origin with the given surface identifier; used to name the
photons of concrete scenarios. -/
def Photon.tagged (n : Nat) : Photon :=
  { position := ⟨0, 0, 0⟩, direction := ⟨0, 0, 1⟩, flux := ⟨1, 1, 1⟩,
    surface := n, pathType := PathType.global }

/-- Modelled from the spec: photons inserted one after the other (one of the
interleavings of the insertion phase), threading the grid. -/
def insertAll (cfg : HashConfig) (hash : Cell → Nat) (cellSize : ℚ) :
    List Photon → HashGrid Photon → HashGrid Photon
  | [], g => g
  | p :: ps, g => insertAll cfg hash cellSize ps (insertPhoton cfg hash cellSize p g).2

/-- The grid of the spec's scenario: 2 buckets (1 bucket bit) of capacity 2,
two probe steps. -/
def scenarioConfig : HashConfig :=
  { mNumBucketBits := 1, mNumPhotonsPerBucket := 2, mQuadraticProbeIterations := 2 }

/-- A hash that sends every cell to `n`. -/
def constHash (n : Nat) : Cell → Nat := fun _ => n

/-! ## Concurrent insertion (modelled from the specification, sections 4.1 and 5) -/

/-- Modelled from the spec: where one insertion task of the generation shader
(not among the sources) stands.  The atomic actions of a task are the
fetch-and-increment of one bucket counter, the write of its photon into the
slot it was assigned, and the count of an overflow. -/
inductive TaskPhase where
  /-- About to run probe step `i`. -/
  | probing (i : Nat)
  /-- The fetch-and-increment on `bucket` returned `slot < K`; the write is pending. -/
  | claimed (bucket slot : Nat)
  /-- Finished: the photon is written in `slot` of `bucket`. -/
  | stored (bucket slot : Nat)
  /-- Finished: the probe steps were exhausted and the photon was dropped. -/
  | dropped
deriving DecidableEq, Repr

/-- Modelled from the spec: one logical task of the insertion phase, inserting
`photon` whose cell hashes to `baseHash`. -/
structure InsertTask (P : Type) where
  photon : P
  baseHash : Nat
  phase : TaskPhase

/-- The task moved to phase `ph`. -/
def InsertTask.setPhase {P : Type} (t : InsertTask P) (ph : TaskPhase) : InsertTask P :=
  { t with phase := ph }

/-- Modelled from the spec: the shared grid and the insertion tasks running on it. -/
structure InsertSystem (P : Type) where
  grid : HashGrid P
  tasks : List (InsertTask P)

/-- Modelled from the spec: the next atomic action of one task (section 4.1).
A probing task with steps left fetch-and-increments the counter of its next
bucket and either claims the slot it was handed (pre-increment value below `K`)
or moves to the next probe step; with no step left it counts an overflow; a
task holding a claim writes its photon into the claimed slot. -/
def stepTask {P : Type} (cfg : HashConfig) (g : HashGrid P) (t : InsertTask P) :
    HashGrid P × InsertTask P :=
  match t.phase with
  | TaskPhase.probing i =>
    if i < cfg.mQuadraticProbeIterations then
      if (g.fetchInc (probeBucket cfg t.baseHash i)).1 < cfg.mNumPhotonsPerBucket then
        ((g.fetchInc (probeBucket cfg t.baseHash i)).2,
          t.setPhase (TaskPhase.claimed (probeBucket cfg t.baseHash i)
            (g.fetchInc (probeBucket cfg t.baseHash i)).1))
      else
        ((g.fetchInc (probeBucket cfg t.baseHash i)).2, t.setPhase (TaskPhase.probing (i + 1)))
    else
      (g.countOverflow, t.setPhase TaskPhase.dropped)
  | TaskPhase.claimed b s => (g.writeSlot b s t.photon, t.setPhase (TaskPhase.stored b s))
  | TaskPhase.stored _ _ => (g, t)
  | TaskPhase.dropped => (g, t)

/-- Modelled from the spec: task number `t` performs its next atomic action (no
such task: nothing happens); section 5 fixes no order between the tasks. -/
def InsertSystem.step {P : Type} (cfg : HashConfig) (st : InsertSystem P) (t : Nat) :
    InsertSystem P :=
  match st.tasks[t]? with
  | none => st
  | some task =>
    { grid := (stepTask cfg st.grid task).1, tasks := st.tasks.set t (stepTask cfg st.grid task).2 }

/-- Modelled from the spec: an interleaving of the insertion phase is the list
of task numbers in the order in which the tasks perform their atomic actions. -/
def InsertSystem.run {P : Type} (cfg : HashConfig) (st : InsertSystem P) (sched : List Nat) :
    InsertSystem P :=
  sched.foldl (InsertSystem.step cfg) st

/-- Modelled from the spec: start of the insertion phase: the grid is empty
(counters reset) and every photon, given with its base hash, has a task about
to run probe step 0. -/
def InsertSystem.init {P : Type} (photons : List (P × Nat)) : InsertSystem P :=
  { grid := HashGrid.empty P,
    tasks := photons.map fun ph => { photon := ph.1, baseHash := ph.2, phase := TaskPhase.probing 0 } }

/-- Whether the task has finished (stored its photon or dropped it). -/
def InsertTask.finished {P : Type} (t : InsertTask P) : Bool :=
  match t.phase with
  | TaskPhase.stored _ _ => true
  | TaskPhase.dropped => true
  | _ => false

/-- Whether the task dropped its photon. -/
def InsertTask.isDropped {P : Type} (t : InsertTask P) : Bool :=
  match t.phase with
  | TaskPhase.dropped => true
  | _ => false

/-- The slot of bucket `b` the task has been assigned (written or not yet). -/
def InsertTask.claimOf {P : Type} (b : Nat) (t : InsertTask P) : Option Nat :=
  match t.phase with
  | TaskPhase.claimed b' s => if b' = b then some s else none
  | TaskPhase.stored b' s => if b' = b then some s else none
  | _ => none

/-- The slot of bucket `b` the task has written its photon to. -/
def InsertTask.storedAt {P : Type} (b : Nat) (t : InsertTask P) : Option Nat :=
  match t.phase with
  | TaskPhase.stored b' s => if b' = b then some s else none
  | _ => none

/-- Slots of bucket `b` assigned to the tasks, in task order. -/
def claimSlots {P : Type} (b : Nat) (ts : List (InsertTask P)) : List Nat :=
  ts.filterMap (InsertTask.claimOf b)

/-- Slots of bucket `b` into which the tasks have written, in task order. -/
def storedSlots {P : Type} (b : Nat) (ts : List (InsertTask P)) : List Nat :=
  ts.filterMap (InsertTask.storedAt b)

/-- Upper bound on the atomic actions the task still has to perform. -/
def InsertTask.remaining {P : Type} (cfg : HashConfig) (t : InsertTask P) : Nat :=
  match t.phase with
  | TaskPhase.probing i => (cfg.mQuadraticProbeIterations - i) + 2
  | TaskPhase.claimed _ _ => 1
  | TaskPhase.stored _ _ => 0
  | TaskPhase.dropped => 0

/-- Sum of `remaining` over the tasks. -/
def totalRemaining {P : Type} (cfg : HashConfig) (ts : List (InsertTask P)) : Nat :=
  (ts.map (InsertTask.remaining cfg)).sum

/-- The invariant of the insertion phase. -/
structure GridInv {P : Type} (cfg : HashConfig) (st : InsertSystem P) : Prop where
  /-- The slots handed out in bucket `b` are exactly `0 .. min(counter, K) - 1`,
  each to one task. -/
  claims : ∀ b, (claimSlots b st.tasks).Perm
    (List.range (min (st.grid.counters b) cfg.mNumPhotonsPerBucket))
  /-- A slot holds a photon exactly when a task has written it there. -/
  slots_iff : ∀ b s p, st.grid.slots b s = some p ↔
    ∃ t ∈ st.tasks, t.phase = TaskPhase.stored b s ∧ t.photon = p
  /-- The overflow count is the number of tasks that dropped their photon. -/
  overflow_eq : st.grid.overflow = st.tasks.countP InsertTask.isDropped
  /-- Every bucket a task has probed and left was full. -/
  probed_full : ∀ t ∈ st.tasks, ∀ i, t.phase = TaskPhase.probing i →
    ∀ j, j < i → cfg.mNumPhotonsPerBucket ≤ st.grid.counters (probeBucket cfg t.baseHash j)
  /-- A dropped photon found every bucket of its probe sequence full. -/
  dropped_full : ∀ t ∈ st.tasks, t.phase = TaskPhase.dropped →
    ∀ j, j < cfg.mQuadraticProbeIterations →
      cfg.mNumPhotonsPerBucket ≤ st.grid.counters (probeBucket cfg t.baseHash j)
  /-- A claimed or written slot lies in a bucket of the task's probe sequence. -/
  on_sequence : ∀ t ∈ st.tasks, ∀ b s,
    (t.phase = TaskPhase.claimed b s ∨ t.phase = TaskPhase.stored b s) →
    ∃ i, i < cfg.mQuadraticProbeIterations ∧ b = probeBucket cfg t.baseHash i

/-- A grid with one probe step: 2 buckets of capacity 2. -/
def oneProbeConfig : HashConfig :=
  { mNumBucketBits := 1, mNumPhotonsPerBucket := 2, mQuadraticProbeIterations := 1 }

/-! ## Photon collector (modelled from the specification, section 4.2) -/

/-- Modelled from the spec: the per-map radius state of section 3 (the radius
update is not among the sources), the current radius and the accumulated
effective photon count `N`.  A radius is a length
and a photon count is a count: both are non-negative reals. -/
structure RadiusState where
  radius : NNReal
  N : NNReal

/-- Modelled from the spec: one application of the SPPM recurrence of section
4.3, `r_next = r * sqrt((N + alpha*M) / (N + M))`, `N_next = N + alpha*M`, for
`M` photons accepted in the iteration.  The spec leaves the quotient at
`N + M = 0` open; here it is `0` (division by zero yields zero). -/
noncomputable def sppmStep (alpha M : NNReal) (s : RadiusState) : RadiusState :=
  { radius := s.radius * NNReal.sqrt ((s.N + alpha * M) / (s.N + M)),
    N := s.N + alpha * M }

/-- Modelled from the spec: the radius states the recurrence produces from the
start radius `r0` and `N = 0`, `M n` being the accepted count of iteration `n`. -/
noncomputable def radiusSeq (alpha r0 : NNReal) (M : Nat → NNReal) : Nat → RadiusState
  | 0 => { radius := r0, N := 0 }
  | n + 1 => sppmStep alpha (M n) (radiusSeq alpha r0 M n)

/-- Modelled from the spec: the states of the radius controller's state machine
(section 4.3; the code that runs it is not among the sources). -/
inductive ControllerPhase where
  | Uninitialized
  | Active
  | Reset
deriving DecidableEq, Repr

/-- Modelled from the spec: what the controller reacts to: a completed
iteration with the accepted counts of the two maps, and the three reset
triggers of section 4.3. -/
inductive ControllerEvent where
  /-- An iteration completed; `Mglobal`, `Mcaustic` are the accepted counts. -/
  | iterate (Mglobal Mcaustic : NNReal)
  /-- An explicit user reset request (the "Reset Iterations" button). -/
  | resetRequest
  /-- A change to buffer sizing. -/
  | bufferResize
  /-- A change to bucket or format configuration. -/
  | configChange

/-- Whether the event is one of the reset triggers. -/
def ControllerEvent.isTrigger : ControllerEvent → Bool
  | ControllerEvent.iterate _ _ => false
  | _ => true

/-- Modelled from the spec: the state the progressive radius controller keeps
for the pass: the machine state, and per map the alpha, the configured start
radius, the current radius (the fields of `RTPM.h:94-101`) and the accumulated
effective photon count; `mFrameCount` is the iteration counter
(`RTPM.h:143`, "Frame count since last Reset"). -/
structure RadiusController where
  phase : ControllerPhase
  mSPPMAlphaGlobal : NNReal
  mSPPMAlphaCaustic : NNReal
  mCausticRadiusStart : NNReal
  mGlobalRadiusStart : NNReal
  mCausticRadius : NNReal
  mGlobalRadius : NNReal
  accumGlobal : NNReal
  accumCaustic : NNReal
  mFrameCount : Nat

/-- Modelled from the spec: the transitions of section 4.3.  A reset trigger
moves any state to `Reset`.  An iteration moves `Uninitialized` to `Active`
with the radii set to their start values, applies the SPPM recurrence to both
maps in `Active`, and moves `Reset` to `Active` re-seeding
`radius := start value`, `N := 0`, iteration counter `:= 0`. -/
noncomputable def RadiusController.step (c : RadiusController) :
    ControllerEvent → RadiusController
  | ControllerEvent.iterate Mg Mc =>
    match c.phase with
    | ControllerPhase.Uninitialized =>
      { c with phase := ControllerPhase.Active,
               mGlobalRadius := c.mGlobalRadiusStart,
               mCausticRadius := c.mCausticRadiusStart }
    | ControllerPhase.Active =>
      { c with mGlobalRadius := (sppmStep c.mSPPMAlphaGlobal Mg ⟨c.mGlobalRadius, c.accumGlobal⟩).radius,
               accumGlobal := (sppmStep c.mSPPMAlphaGlobal Mg ⟨c.mGlobalRadius, c.accumGlobal⟩).N,
               mCausticRadius :=
                 (sppmStep c.mSPPMAlphaCaustic Mc ⟨c.mCausticRadius, c.accumCaustic⟩).radius,
               accumCaustic := (sppmStep c.mSPPMAlphaCaustic Mc ⟨c.mCausticRadius, c.accumCaustic⟩).N,
               mFrameCount := c.mFrameCount + 1 }
    | ControllerPhase.Reset =>
      { c with phase := ControllerPhase.Active,
               mGlobalRadius := c.mGlobalRadiusStart,
               mCausticRadius := c.mCausticRadiusStart,
               accumGlobal := 0,
               accumCaustic := 0,
               mFrameCount := 0 }
  | ControllerEvent.resetRequest => { c with phase := ControllerPhase.Reset }
  | ControllerEvent.bufferResize => { c with phase := ControllerPhase.Reset }
  | ControllerEvent.configChange => { c with phase := ControllerPhase.Reset }

/-- The controller after a list of events, oldest first. -/
noncomputable def RadiusController.run (c : RadiusController) (events : List ControllerEvent) :
    RadiusController :=
  events.foldl RadiusController.step c

/-- A controller with the defaults of `RTPM.h` (alpha 0.7, start radii 0.01 and
0.05, current radii 1) that has not run yet. -/
noncomputable def RadiusController.initial : RadiusController :=
  { phase := ControllerPhase.Uninitialized,
    mSPPMAlphaGlobal := 7 / 10, mSPPMAlphaCaustic := 7 / 10,
    mCausticRadiusStart := 1 / 100, mGlobalRadiusStart := 1 / 20,
    mCausticRadius := 1, mGlobalRadius := 1,
    accumGlobal := 0, accumCaustic := 0, mFrameCount := 0 }

/-! ## The `RTPM` pass (translated from `RTPM.h` and `RTPM.cpp`) -/

/-- `RTPM::LightTexMode` (`RTPM.h:62-66`). -/
inductive LightTexMode where
  | power
  | area
deriving DecidableEq, Repr

/-- The data members of `RTPM` (`RTPM.h:94-176`, `203-226`) with their default
member initialisers; device objects (buffers, textures, programs) are left out.
`float` and `double` members are rationals, `uint` members naturals below
`2^32`, and `mTimerStartTime` is the clock reading in seconds. -/
structure RTPM where
  mUseStatisticProgressivePM : Bool := true
  mSPPMAlphaGlobal : ℚ := 7 / 10
  mSPPMAlphaCaustic : ℚ := 7 / 10
  mCausticRadiusStart : ℚ := 1 / 100
  mGlobalRadiusStart : ℚ := 1 / 20
  mCausticRadius : ℚ := 1
  mGlobalRadius : ℚ := 1
  mSpecRoughCutoff : ℚ := 1 / 2
  mResetIterations : Bool := false
  mAlwaysResetIterations : Bool := false
  mNumPhotonsChanged : Bool := false
  mFitBuffersToPhotonShot : Bool := false
  mUseAlphaTest : Bool := true
  mAdjustShadingNormals : Bool := true
  mNumBucketBits : Nat := 20
  mNumPhotonsPerBucket : Nat := 12
  mQuadraticProbeIterations : Nat := 10
  mEnableFaceNormalRejection : Bool := false
  mMaxBounces : Nat := 10
  mRussianRoulette : ℚ := 3 / 10
  mNumPhotons : Nat := 2000000
  mNumPhotonsUI : Nat := mNumPhotons
  mGlobalBufferSizeUI : Nat := mNumPhotons / 2
  mCausticBufferSizeUI : Nat := mNumPhotons / 4
  mCausticMapMultipleDiffuseHits : Nat := 0
  mIntensityScalar : ℚ := 1
  mDisableGlobalCollection : Bool := false
  mDisableCausticCollection : Bool := false
  mEnableStochasticCollection : Bool := true
  mStochasticCollectProbability : ℚ := 33 / 100
  mFrameCount : Nat := 0
  mPhotonCount : List Nat := [0, 0]
  mOptionsChanged : Bool := false
  mResetCS : Bool := true
  mSetConstantBuffers : Bool := true
  mResizePhotonBuffers : Bool := true
  mPhotonInfoFormatChanged : Bool := false
  mRebuildAS : Bool := false
  mInfoTexFormat : Nat := 1
  mNumBuckets : Nat := 0
  mRebuildLightTex : Bool := false
  mLightTexMode : LightTexMode := LightTexMode.power
  mPGDispatchX : Nat := 0
  mAnalyticEndIndex : Nat := 0
  mNumLights : Nat := 0
  mAnalyticInvPdf : ℚ := 0
  mUseTimer : Bool := false
  mResetTimer : Bool := false
  mTimerStopRenderer : Bool := false
  mTimerDurationSec : ℚ := 60
  mTimerMaxIterations : Nat := 0
  mCurrentElapsedTime : ℚ := 0
  mTimerStartTime : ℚ := 0
  mTimerRecordTimes : Bool := false
  mTimesList : List ℚ := []
  mTimesOutputFilePath : String := ""
  mPhotonBuffersReady : Bool := false
  mTestInit : Bool := false
  mCausticBuffersMaxSize : Nat := 0
  mGlobalBuffersMaxSize : Nat := 0
deriving DecidableEq

/-- The hash options of the pass as a grid configuration. -/
def RTPM.hashConfig (s : RTPM) : HashConfig :=
  { mNumBucketBits := s.mNumBucketBits,
    mNumPhotonsPerBucket := s.mNumPhotonsPerBucket,
    mQuadraticProbeIterations := s.mQuadraticProbeIterations }

/-- The block `// reset timer` of `RTPM::checkTimer` (`RTPM.cpp:293-305`);
`mTimesList.reserve(10000)` changes no value and is left out. -/
def RTPM.resetTimer (now : ℚ) (s : RTPM) : RTPM :=
  { s with mCurrentElapsedTime := 0,
           mTimerStartTime := now,
           mTimerStopRenderer := false,
           mResetTimer := false,
           mTimesList := if s.mTimerRecordTimes = true then [] else s.mTimesList }

/-- The block `// check time` of `RTPM::checkTimer` (`RTPM.cpp:310-321`). -/
def RTPM.checkTime (now : ℚ) (s : RTPM) : RTPM :=
  if s.mTimerDurationSec ≠ 0 then
    { s with mCurrentElapsedTime := now - s.mTimerStartTime,
             mTimerStopRenderer :=
               if s.mTimerDurationSec ≤ now - s.mTimerStartTime then true
               else s.mTimerStopRenderer }
  else s

/-- The block `// check iterations` of `RTPM::checkTimer` (`RTPM.cpp:323-330`). -/
def RTPM.checkIterations (s : RTPM) : RTPM :=
  if s.mTimerMaxIterations ≠ 0 then
    if s.mTimerMaxIterations ≤ s.mFrameCount then { s with mTimerStopRenderer := true }
    else s
  else s

/-- The block `// Add to times list` of `RTPM::checkTimer` (`RTPM.cpp:332-336`). -/
def RTPM.recordTime (s : RTPM) : RTPM :=
  if s.mTimerRecordTimes = true then
    { s with mTimesList := s.mTimesList ++ [s.mCurrentElapsedTime] }
  else s

/-- `RTPM::checkTimer` (`RTPM.cpp:287-337`).  `now` is what
`std::chrono::steady_clock::now()` returns in this call, in seconds. -/
def RTPM.checkTimer (now : ℚ) (s : RTPM) : RTPM :=
  if s.mUseTimer = false then s
  else if s.mResetTimer = true then s.resetTimer now
  else if s.mTimerStopRenderer = true then s
  else ((s.checkTime now).checkIterations).recordTime

/-- The files the pass can see: the content of each path (`none`: no such
file), whether opening the path for output succeeds, and the paths the pass
has tried to open so far, oldest first. -/
structure FileSystem where
  content : String → Option String
  canOpen : String → Bool
  opened : List String

/-- Round to the nearest integer, ties to the even one. -/
def roundHalfEven (q : ℚ) : Int :=
  if q - ⌊q⌋ < 1 / 2 then ⌊q⌋
  else if 1 / 2 < q - ⌊q⌋ then ⌊q⌋ + 1
  else if ⌊q⌋ % 2 = 0 then ⌊q⌋ else ⌊q⌋ + 1

/-- The decimal digits of `n`, padded with zeros on the left to 16 characters. -/
def pad16 (n : Nat) : String :=
  String.mk (List.replicate (16 - (toString n).length) '0') ++ toString n

/-- What `file << std::fixed << std::setprecision(16) << x` writes for the
double `x` (a rational here): sign, integer part, point, 16 decimals. -/
def formatFixed16 (x : ℚ) : String :=
  (if x < 0 then "-" else "")
    ++ toString ((roundHalfEven (|x| * 10 ^ 16)).toNat / 10 ^ 16)
    ++ "." ++ pad16 ((roundHalfEven (|x| * 10 ^ 16)).toNat % 10 ^ 16)

/-- The text `RTPM::outputTimes` writes: the header line `Hash_Times`, then one
line per recorded time (`RTPM.cpp:353-360`). -/
def timesText (times : List ℚ) : String :=
  "Hash_Times\n" ++ String.join (times.map fun t => formatFixed16 t ++ "\n")

/-- Outcome of `RTPM::outputTimes`: the pass and the files afterwards, and the
message of the exception when one was raised. -/
structure OutputTimesResult where
  pass : RTPM
  fs : FileSystem
  raised : Option String

/-- `RTPM::outputTimes` (`RTPM.cpp:339-362`).  The file is opened with
`std::ios::trunc`, so what it held is discarded.  When the open fails
`FALCOR_THROW` raises, and the two statements after it
(`mTimesOutputFilePath.clear(); return;`) are never reached. -/
def RTPM.outputTimes (fs : FileSystem) (s : RTPM) : OutputTimesResult :=
  if s.mTimesOutputFilePath.isEmpty || s.mTimesList.isEmpty then
    { pass := s, fs := fs, raised := none }
  else if fs.canOpen s.mTimesOutputFilePath = false then
    { pass := s,
      fs := { fs with opened := fs.opened ++ [s.mTimesOutputFilePath] },
      raised := some ("Failed to open file '" ++ s.mTimesOutputFilePath ++ "'.") }
  else
    { pass := s,
      fs := { fs with
        opened := fs.opened ++ [s.mTimesOutputFilePath],
        content := Function.update fs.content s.mTimesOutputFilePath (some (timesText s.mTimesList)) },
      raised := none }

/-- The pass with the three members `checkTimer` reports through (elapsed
time, stop flag, recorded times) blanked: two passes agree on every other
member exactly when their images agree. -/
def RTPM.withoutTimerReadings (s : RTPM) : RTPM :=
  { s with mCurrentElapsedTime := 0, mTimerStopRenderer := false, mTimesList := [] }

/-- A pass with the timer running since clock reading 10 and a one-minute limit. -/
def timedPass : RTPM :=
  { mUseTimer := true, mTimerDurationSec := 60, mTimerStartTime := 10, mFrameCount := 7 }

/-- A pass asked to export one recorded time to `times.csv`. -/
def exportingPass : RTPM :=
  { mTimesOutputFilePath := "times.csv", mTimesList := [3 / 2] }

/-- Files among which nothing can be opened for output. -/
def readOnlyFiles : FileSystem :=
  { content := fun _ => none, canOpen := fun _ => false, opened := [] }

/-- Files where `times.csv` exists with the text of an earlier run and can be
opened for output. -/
def earlierRunFiles : FileSystem :=
  { content := fun path => if path = "times.csv" then some "old\n" else none,
    canOpen := fun _ => true,
    opened := [] }

/-! ## The `VBufferSC` pass (translated from `VbufferSC.h` and `VbufferSC.cpp`) -/

/-- `VBufferSC::SamplePattern` (`VbufferSC.h:39-45`). -/
inductive SamplePattern where
  | Center
  | DirectX
  | Halton
  | Stratified
deriving DecidableEq, Repr

/-- `RenderPassHelpers::IOSize`.  The sources name the members `Default` and
`Fixed`; any further member is `other`. -/
inductive IOSize where
  | Default
  | Fixed
  | other (code : Nat)
deriving DecidableEq, Repr

/-- `RasterizerState::CullMode`. -/
inductive CullMode where
  | None
  | Front
  | Back
deriving DecidableEq, Repr

/-- A `uint2`. -/
structure UInt2 where
  x : Nat
  y : Nat
deriving DecidableEq, Repr

/-- What the constructor asks of the device: the answers of
`isShaderModelSupported(ShaderModel::SM6_5)` and of
`isFeatureSupported(Device::SupportedFeatures::RaytracingTier1_1)`. -/
structure Device where
  supportsSM6_5 : Bool
  supportsRaytracingTier1_1 : Bool
deriving DecidableEq, Repr

/-- One entry of a `Properties` dictionary: a scripting option of
`VbufferSC.cpp:44-63` with a value of the type its member has, or an entry
under a key the pass does not know. -/
inductive Property where
  | outputSize (v : IOSize)
  | fixedOutputSize (v : UInt2)
  | samplePattern (v : SamplePattern)
  | sampleCount (v : Nat)
  | useAlphaTest (v : Bool)
  | disableAlphaTest (v : Bool)
  | adjustShadingNormals (v : Bool)
  | forceCullMode (v : Bool)
  | cull (v : CullMode)
  | useTraceRayInline (v : Bool)
  | useDOF (v : Bool)
  | unknown (key : String)
deriving DecidableEq, Repr

/-- A `Properties` dictionary as the list of its entries in iteration order. -/
abbrev Properties : Type := List Property

/-- The data members of `VBufferSC` (`VbufferSC.h:86-131`) with their default
member initialisers.  `mHasScene` stands for `mpScene != nullptr` and
`mHasSampleGenerator` for `mpSampleGenerator != nullptr`; programs and the
V-buffer format are left out. -/
structure VBufferSC where
  mpDevice : Device
  mHasScene : Bool := false
  mFrameCount : Nat := 0
  mFrameDim : UInt2 := ⟨0, 0⟩
  mInvFrameDim : ℚ × ℚ := (0, 0)
  mOutputSizeSelection : IOSize := IOSize.Default
  mFixedOutputSize : UInt2 := ⟨512, 512⟩
  mSamplePattern : SamplePattern := SamplePattern.Center
  mSampleCount : Nat := 16
  mUseAlphaTest : Bool := true
  mAdjustShadingNormals : Bool := true
  mForceCullMode : Bool := false
  mCullMode : CullMode := CullMode.Back
  mOptionsChanged : Bool := false
  mComputeDOF : Bool := false
  mHasSampleGenerator : Bool := false
  mUseTraceRayInline : Bool := false
  mUseDOF : Bool := true
deriving DecidableEq

/-- `props.has(kUseAlphaTest)`. -/
def hasUseAlphaTest (props : Properties) : Bool :=
  props.any fun e => match e with
    | Property.useAlphaTest _ => true
    | _ => false

/-- `props[kDisableAlphaTest]` when `props.has(kDisableAlphaTest)`. -/
def findDisableAlphaTest (props : Properties) : Option Bool :=
  props.findSome? fun e => match e with
    | Property.disableAlphaTest v => some v
    | _ => none

/-- Body of the first loop of `VBufferSC::parseProperties` (`VbufferSC.cpp:279-298`). -/
def parseBaseEntry (s : VBufferSC) (e : Property) : VBufferSC :=
  match e with
  | Property.outputSize v => { s with mOutputSizeSelection := v }
  | Property.fixedOutputSize v => { s with mFixedOutputSize := v }
  | Property.samplePattern v => { s with mSamplePattern := v }
  | Property.sampleCount v => { s with mSampleCount := v }
  | Property.useAlphaTest v => { s with mUseAlphaTest := v }
  | Property.adjustShadingNormals v => { s with mAdjustShadingNormals := v }
  | Property.forceCullMode v => { s with mForceCullMode := v }
  | Property.cull v => { s with mCullMode := v }
  | _ => s

/-- Body of the second loop of `VBufferSC::parseProperties` (`VbufferSC.cpp:304-311`). -/
def parseTracingEntry (s : VBufferSC) (e : Property) : VBufferSC :=
  match e with
  | Property.useTraceRayInline v => { s with mUseTraceRayInline := v }
  | Property.useDOF v => { s with mUseDOF := v }
  | _ => s

/-- The deprecated `disableAlphaTest` handling between the two loops
(`VbufferSC.cpp:300-302`). -/
def parseDeprecated (props : Properties) (s : VBufferSC) : VBufferSC :=
  match findDisableAlphaTest props with
  | some v => if hasUseAlphaTest props = false then { s with mUseAlphaTest := !v } else s
  | none => s

/-- `VBufferSC::parseProperties` (`VbufferSC.cpp:277-312`). -/
def VBufferSC.parseProperties (props : Properties) (s : VBufferSC) : VBufferSC :=
  props.foldl parseTracingEntry (parseDeprecated props (props.foldl parseBaseEntry s))

/-- An error raised by the pass: a failed `FALCOR_ASSERT` or a `FALCOR_THROW`. -/
inductive PassError where
  | assertion (condition : String)
  | runtime (message : String)
deriving DecidableEq, Repr

/-- A call the constructor makes after its device checks. -/
inductive CtorCall where
  | parseProperties (props : Properties)
  | createSampleGenerator
deriving DecidableEq, Repr

/-- Outcome of constructing a pass: the pass or the error raised, and the calls
the constructor made, in order. -/
structure Construction where
  result : Except PassError VBufferSC
  calls : List CtorCall

/-- `VBufferSC::VBufferSC` (`VbufferSC.cpp:87-98`): the two device checks, then
`parseProperties(props)`, then the creation of the sample generator. -/
def VBufferSC.new (pDevice : Device) (props : Properties) : Construction :=
  if pDevice.supportsSM6_5 = false then
    { result := Except.error (PassError.runtime "VBufferSC requires Shader Model 6.5 support."),
      calls := [] }
  else if pDevice.supportsRaytracingTier1_1 = false then
    { result := Except.error (PassError.runtime "VBufferSC requires Raytracing Tier 1.1 support."),
      calls := [] }
  else
    { result := Except.ok
        { VBufferSC.parseProperties props { mpDevice := pDevice } with mHasSampleGenerator := true },
      calls := [CtorCall.parseProperties props, CtorCall.createSampleGenerator] }

/-- A texture: an identity and its size. -/
structure Texture where
  id : Nat
  width : Nat
  height : Nat
deriving DecidableEq, Repr

/-- The part of `RenderData` the pass reads: `getTexture(name)`, `none` for a
null reference. -/
structure RenderData where
  getTexture : String → Option Texture

/-- `VBufferSC::getOutput` (`VbufferSC.cpp:493-503`).  `assertsEnabled` says
whether `FALCOR_ASSERT` is compiled in. -/
def VBufferSC.getOutput (assertsEnabled : Bool) (s : VBufferSC) (renderData : RenderData)
    (name : String) : Except PassError (Option Texture) :=
  if assertsEnabled = true ∧ ¬ (0 < s.mFrameDim.x ∧ 0 < s.mFrameDim.y) then
    Except.error (PassError.assertion "mFrameDim.x > 0 && mFrameDim.y > 0")
  else
    match renderData.getTexture name with
    | some pTex =>
      if pTex.width ≠ s.mFrameDim.x ∨ pTex.height ≠ s.mFrameDim.y then
        Except.error (PassError.runtime ("GBufferBase: Pass output '" ++ name
          ++ "' has mismatching size. All outputs must be of the same size."))
      else Except.ok (some pTex)
    | none => Except.ok none

/-- A pass whose frame dimensions are 640 by 480. -/
def framedPass : VBufferSC :=
  { mpDevice := ⟨true, true⟩, mFrameDim := ⟨640, 480⟩ }

/-- Render data with a matching `vbuffer` and a `depth` texture of another size. -/
def mixedRenderData : RenderData :=
  { getTexture := fun name =>
      if name = "vbuffer" then some ⟨1, 640, 480⟩
      else if name = "depth" then some ⟨2, 320, 240⟩
      else none }

/-! ## Lines of an exported text -/

/-- The lines of a text read left to right, `cur` holding the characters of
the line being read in reverse: every end-of-line character closes a line, and
characters after the last one form a line of their own only when there are
some. -/
def linesAux : List Char → List Char → List String
  | [], cur => if cur.isEmpty then [] else [String.mk cur.reverse]
  | c :: cs, cur =>
    if c = '\n' then String.mk cur.reverse :: linesAux cs []
    else linesAux cs (c :: cur)

/-- The lines of a text file's content. -/
def textLines (text : String) : List String := linesAux text.data []

/-- The characters `Nat.digitChar` can return. -/
def digitChars : List Char := "0123456789abcdef*".data

/-- The characters a number written by `formatFixed16` is made of. -/
def numberChars : List Char := '-' :: '.' :: digitChars

/-! ## `RTPM::renderUI` (translated from `RTPM.cpp:116-285`) -/

/-- `UINT_MAX` of the 32-bit `uint`. -/
def UINT_MAX : Nat := 2 ^ 32 - 1

/-- `FLT_MAX`, the largest finite single-precision value. -/
def FLT_MAX : ℚ := (2 ^ 24 - 1) * 2 ^ 104

/-- `RTPM::kMinPhotonRadius` (`RTPM.h:85`). -/
def kMinPhotonRadius : ℚ := 1 / 10000

/-- The values of `kCausticMapModes` (`RTPM.cpp:74`). -/
def kCausticMapModes : List Nat := [0, 1]

/-- The values of `kInfoTexDropdownList` (`RTPM.cpp:68-70`): `TextureFormat::_16Bit`
and `TextureFormat::_32Bit`. -/
def kInfoTexDropdownList : List Nat := [1, 2]

/-- The values of `kLightTexModeList` (`RTPM.cpp:72`). -/
def kLightTexModeList : List LightTexMode := [LightTexMode.power, LightTexMode.area]

/-- Modelled from the spec: the widgets of the configuration surface
(`Gui::Widgets`) are not among the sources.  `Gui::Widgets::var` and
`Gui::Widgets::slider` with the bounds `minVal` and `maxVal`: `input` is what
the user did to the widget in this frame; `none` leaves the variable as it is
and reports no change, `some v` stores `v` brought into `[minVal, maxVal]` and
reports a change.  Returns the variable afterwards and the reported change. -/
def Gui.var {α : Type} [LinearOrder α] (input : Option α) (cur minVal maxVal : α) : α × Bool :=
  match input with
  | none => (cur, false)
  | some v => (max minVal (min v maxVal), true)

/-- Modelled from the spec: `Gui::Widgets::checkbox`; `some v` is a click that
leaves the box at `v`. -/
def Gui.checkbox (input : Option Bool) (cur : Bool) : Bool × Bool :=
  match input with
  | none => (cur, false)
  | some v => (v, true)

/-- Modelled from the spec: `Gui::Widgets::dropdown` over the values of a
dropdown list; only a value of the list can be selected. -/
def Gui.dropdown {α : Type} [DecidableEq α] (values : List α) (input : Option α) (cur : α) :
    α × Bool :=
  match input with
  | none => (cur, false)
  | some v => if v ∈ values then (v, true) else (cur, false)

/-- What the user does to the widgets of `RTPM::renderUI` in one frame, in the
order of the calls: an edit of a variable (`none`: untouched), a button press,
whether a group is unfolded, and what `saveFileDialog` returns (`none`: the
dialog was cancelled). -/
structure UIInput where
  numPhotons : Option Nat := none
  causticBufferSize : Option Nat := none
  globalBufferSize : Option Nat := none
  apply : Bool := false
  fitBuffers : Bool := false
  useSPPM : Option Bool := none
  globalAlpha : Option ℚ := none
  causticAlpha : Option ℚ := none
  maxBounces : Option Nat := none
  faceNormalRejection : Option Bool := none
  causticMapMode : Option Nat := none
  timerGroup : Bool := false
  enableTimer : Option Bool := none
  timerSeconds : Option Nat := none
  maxIterations : Option Nat := none
  recordTimes : Option Bool := none
  resetTimer : Bool := false
  storeTimes : Bool := false
  saveFileDialog : Option String := none
  radiusGroup : Bool := false
  causticRadiusStart : Option ℚ := none
  globalRadiusStart : Option ℚ := none
  russianRoulette : Option ℚ := none
  materialGroup : Bool := false
  emissiveScalar : Option ℚ := none
  specRoughCutoff : Option ℚ := none
  alphaTest : Option Bool := none
  adjustShadingNormals : Option Bool := none
  hashGroup : Bool := false
  probeIterations : Option Nat := none
  photonsPerBucket : Option Nat := none
  bucketBits : Option Nat := none
  lightGroup : Bool := false
  lightTexMode : Option LightTexMode := none
  rebuildLightTex : Bool := false
  infoTexFormat : Option Nat := none
  collectGroup : Bool := false
  disableGlobal : Option Bool := none
  disableCaustic : Option Bool := none
  stochasticCollection : Option Bool := none
  stochasticProbability : Option ℚ := none
  alwaysReset : Option Bool := none
  resetIterations : Bool := false

/-- The pass and the local `dirty` of `RTPM::renderUI` between two blocks. -/
structure UIStep where
  pass : RTPM
  dirty : Bool

/-- The photon number and buffer size widgets with the buttons "Apply" and
"Fit Buffers" (`RTPM.cpp:132-143`). -/
def uiBuffers (ui : UIInput) (s : RTPM) : RTPM :=
  { s with
    mNumPhotonsUI := (Gui.var ui.numPhotons s.mNumPhotonsUI 1000 UINT_MAX).1,
    mCausticBufferSizeUI := (Gui.var ui.causticBufferSize s.mCausticBufferSizeUI 1000 UINT_MAX).1,
    mGlobalBufferSizeUI := (Gui.var ui.globalBufferSize s.mGlobalBufferSizeUI 1000 UINT_MAX).1,
    mFitBuffersToPhotonShot := s.mFitBuffersToPhotonShot || ui.fitBuffers,
    mNumPhotonsChanged :=
      (s.mNumPhotonsChanged || ui.apply) || (s.mFitBuffersToPhotonShot || ui.fitBuffers) }

/-- The block `// Progressive PM` (`RTPM.cpp:146-155`): the alpha widgets are
shown only while "Use SPPM" is ticked. -/
def uiProgressive (ui : UIInput) (u : UIStep) : UIStep :=
  if (Gui.checkbox ui.useSPPM u.pass.mUseStatisticProgressivePM).1 = true then
    { pass := { u.pass with
        mUseStatisticProgressivePM := (Gui.checkbox ui.useSPPM u.pass.mUseStatisticProgressivePM).1,
        mSPPMAlphaGlobal := (Gui.var ui.globalAlpha u.pass.mSPPMAlphaGlobal (1 / 10) 1).1,
        mSPPMAlphaCaustic := (Gui.var ui.causticAlpha u.pass.mSPPMAlphaCaustic (1 / 10) 1).1 },
      dirty := ((u.dirty || (Gui.checkbox ui.useSPPM u.pass.mUseStatisticProgressivePM).2)
        || (Gui.var ui.globalAlpha u.pass.mSPPMAlphaGlobal (1 / 10) 1).2)
        || (Gui.var ui.causticAlpha u.pass.mSPPMAlphaCaustic (1 / 10) 1).2 }
  else
    { pass := { u.pass with
        mUseStatisticProgressivePM := (Gui.checkbox ui.useSPPM u.pass.mUseStatisticProgressivePM).1 },
      dirty := u.dirty || (Gui.checkbox ui.useSPPM u.pass.mUseStatisticProgressivePM).2 }

/-- The block `// miscellaneous` (`RTPM.cpp:159-164`). -/
def uiMisc (ui : UIInput) (u : UIStep) : UIStep :=
  { pass := { u.pass with
      mMaxBounces := (Gui.var ui.maxBounces u.pass.mMaxBounces 1 32).1,
      mEnableFaceNormalRejection :=
        (Gui.checkbox ui.faceNormalRejection u.pass.mEnableFaceNormalRejection).1,
      mResetCS := u.pass.mResetCS
        || (Gui.checkbox ui.faceNormalRejection u.pass.mEnableFaceNormalRejection).2,
      mCausticMapMultipleDiffuseHits :=
        (Gui.dropdown kCausticMapModes ui.causticMapMode u.pass.mCausticMapMultipleDiffuseHits).1 },
    dirty := ((u.dirty || (Gui.var ui.maxBounces u.pass.mMaxBounces 1 32).2)
      || (u.pass.mResetCS
        || (Gui.checkbox ui.faceNormalRejection u.pass.mEnableFaceNormalRejection).2))
      || (Gui.dropdown kCausticMapModes ui.causticMapMode u.pass.mCausticMapMultipleDiffuseHits).2 }

/-- The conversion `static_cast<uint>` of a non-negative `double`: the
fraction is dropped. -/
def uintOfDouble (d : ℚ) : Nat := (Int.toNat ⌊d⌋) % 2 ^ 32

/-- The widgets shown while the timer is enabled, up to the button "Reset
Timer" (`RTPM.cpp:180-191`): the pass afterwards and whether one of them
reported a change. -/
def uiTimerSettings (ui : UIInput) (s : RTPM) : RTPM × Bool :=
  ({ s with
      mTimerMaxIterations := (Gui.var ui.maxIterations s.mTimerMaxIterations 0 UINT_MAX).1,
      mTimerDurationSec :=
        ((Gui.var ui.timerSeconds (uintOfDouble s.mTimerDurationSec) 0 UINT_MAX).1 : ℚ),
      mTimerRecordTimes := (Gui.checkbox ui.recordTimes s.mTimerRecordTimes).1 },
   (((Gui.var ui.timerSeconds (uintOfDouble s.mTimerDurationSec) 0 UINT_MAX).2
      || (Gui.var ui.maxIterations s.mTimerMaxIterations 0 UINT_MAX).2)
      || (Gui.checkbox ui.recordTimes s.mTimerRecordTimes).2)
      || ui.resetTimer)

/-- The button "Store Times" (`RTPM.cpp:192-205`), shown while times are
recorded: a confirmed file dialog sets the output path and calls
`outputTimes`. -/
def uiStoreTimes (ui : UIInput) (fs : FileSystem) (s : RTPM) : OutputTimesResult :=
  if s.mTimerRecordTimes = true then
    if ui.storeTimes = true then
      match ui.saveFileDialog with
      | some path => ({ s with mTimesOutputFilePath := path }).outputTimes fs
      | none => { pass := s, fs := fs, raised := none }
    else { pass := s, fs := fs, raised := none }
  else { pass := s, fs := fs, raised := none }

/-- Outcome of the group "Timer": pass and `dirty`, the files, and the message
of the exception when `outputTimes` raised one. -/
structure TimerStep where
  step : UIStep
  fs : FileSystem
  raised : Option String

/-- The pass with `mResetTimer |= resetTimer`. -/
def RTPM.orResetTimer (s : RTPM) (resetTimer : Bool) : RTPM :=
  { s with mResetTimer := s.mResetTimer || resetTimer }

/-- The pass with the "Enable Timer" checkbox applied. -/
def RTPM.setUseTimer (s : RTPM) (v : Bool) : RTPM :=
  { s with mUseTimer := v }

/-- The end of the group "Timer" (`RTPM.cpp:207-208`) after the widgets of
the group, `o` being the outcome of the "Store Times" button: an exception of
`outputTimes` leaves `renderUI` at once, so that `mResetTimer |= resetTimer`
and `dirty |= resetTimer` are not reached. -/
def uiTimerClose (resetTimer dirty : Bool) (o : OutputTimesResult) : TimerStep :=
  match o.raised with
  | some e => { step := { pass := o.pass, dirty := dirty }, fs := o.fs, raised := some e }
  | none =>
    { step := { pass := o.pass.orResetTimer resetTimer, dirty := dirty || resetTimer },
      fs := o.fs, raised := none }

/-- The group "Timer" (`RTPM.cpp:173-209`). -/
def uiTimer (ui : UIInput) (fs : FileSystem) (u : UIStep) : TimerStep :=
  if ui.timerGroup = true then
    if (Gui.checkbox ui.enableTimer u.pass.mUseTimer).1 = true then
      uiTimerClose
        ((Gui.checkbox ui.enableTimer u.pass.mUseTimer).2
          || (uiTimerSettings ui
              (u.pass.setUseTimer (Gui.checkbox ui.enableTimer u.pass.mUseTimer).1)).2)
        u.dirty
        (uiStoreTimes ui fs (uiTimerSettings ui
          (u.pass.setUseTimer (Gui.checkbox ui.enableTimer u.pass.mUseTimer).1)).1)
    else
      uiTimerClose (Gui.checkbox ui.enableTimer u.pass.mUseTimer).2 u.dirty
        { pass := u.pass.setUseTimer (Gui.checkbox ui.enableTimer u.pass.mUseTimer).1,
          fs := fs, raised := none }
  else { step := u, fs := fs, raised := none }

/-- The group "Radius Options" (`RTPM.cpp:212-220`). -/
def uiRadius (ui : UIInput) (u : UIStep) : UIStep :=
  if ui.radiusGroup = true then
    { pass := { u.pass with
        mCausticRadiusStart :=
          (Gui.var ui.causticRadiusStart u.pass.mCausticRadiusStart kMinPhotonRadius FLT_MAX).1,
        mGlobalRadiusStart :=
          (Gui.var ui.globalRadiusStart u.pass.mGlobalRadiusStart kMinPhotonRadius FLT_MAX).1,
        mRussianRoulette := (Gui.var ui.russianRoulette u.pass.mRussianRoulette (1 / 1000) 1).1 },
      dirty := ((u.dirty
        || (Gui.var ui.causticRadiusStart u.pass.mCausticRadiusStart kMinPhotonRadius FLT_MAX).2)
        || (Gui.var ui.globalRadiusStart u.pass.mGlobalRadiusStart kMinPhotonRadius FLT_MAX).2)
        || (Gui.var ui.russianRoulette u.pass.mRussianRoulette (1 / 1000) 1).2 }
  else u

/-- The group "Material Options" (`RTPM.cpp:222-232`). -/
def uiMaterial (ui : UIInput) (u : UIStep) : UIStep :=
  if ui.materialGroup = true then
    { pass := { u.pass with
        mIntensityScalar := (Gui.var ui.emissiveScalar u.pass.mIntensityScalar 0 FLT_MAX).1,
        mSpecRoughCutoff := (Gui.var ui.specRoughCutoff u.pass.mSpecRoughCutoff 0 1).1,
        mUseAlphaTest := (Gui.checkbox ui.alphaTest u.pass.mUseAlphaTest).1,
        mAdjustShadingNormals :=
          (Gui.checkbox ui.adjustShadingNormals u.pass.mAdjustShadingNormals).1 },
      dirty := (((u.dirty
        || (Gui.var ui.emissiveScalar u.pass.mIntensityScalar 0 FLT_MAX).2)
        || (Gui.var ui.specRoughCutoff u.pass.mSpecRoughCutoff 0 1).2)
        || (Gui.checkbox ui.alphaTest u.pass.mUseAlphaTest).2)
        || (Gui.checkbox ui.adjustShadingNormals u.pass.mAdjustShadingNormals).2 }
  else u

/-- The group "Hash Options" (`RTPM.cpp:234-244`): the probe iteration widget
feeds `dirty`, the two sliders feed `mResetCS`, and `mResetCS` feeds `dirty`. -/
def uiHash (ui : UIInput) (u : UIStep) : UIStep :=
  if ui.hashGroup = true then
    { pass := { u.pass with
        mQuadraticProbeIterations :=
          (Gui.var ui.probeIterations u.pass.mQuadraticProbeIterations 0 100).1,
        mNumPhotonsPerBucket := (Gui.var ui.photonsPerBucket u.pass.mNumPhotonsPerBucket 2 32).1,
        mNumBucketBits := (Gui.var ui.bucketBits u.pass.mNumBucketBits 2 32).1,
        mResetCS := (u.pass.mResetCS
          || (Gui.var ui.photonsPerBucket u.pass.mNumPhotonsPerBucket 2 32).2)
          || (Gui.var ui.bucketBits u.pass.mNumBucketBits 2 32).2 },
      dirty := (u.dirty || (Gui.var ui.probeIterations u.pass.mQuadraticProbeIterations 0 100).2)
        || ((u.pass.mResetCS
          || (Gui.var ui.photonsPerBucket u.pass.mNumPhotonsPerBucket 2 32).2)
          || (Gui.var ui.bucketBits u.pass.mNumBucketBits 2 32).2) }
  else u

/-- The group "Light Sample Tex" (`RTPM.cpp:246-252`). -/
def uiLight (ui : UIInput) (u : UIStep) : UIStep :=
  if ui.lightGroup = true then
    { pass := { u.pass with
        mLightTexMode := (Gui.dropdown kLightTexModeList ui.lightTexMode u.pass.mLightTexMode).1,
        mRebuildLightTex := (u.pass.mRebuildLightTex
          || (Gui.dropdown kLightTexModeList ui.lightTexMode u.pass.mLightTexMode).2)
          || ui.rebuildLightTex },
      dirty := u.dirty || ((u.pass.mRebuildLightTex
          || (Gui.dropdown kLightTexModeList ui.lightTexMode u.pass.mLightTexMode).2)
          || ui.rebuildLightTex) }
  else u

/-- The dropdown "Photon Info size" (`RTPM.cpp:254-257`). -/
def uiInfoFormat (ui : UIInput) (u : UIStep) : UIStep :=
  { pass := { u.pass with
      mInfoTexFormat := (Gui.dropdown kInfoTexDropdownList ui.infoTexFormat u.pass.mInfoTexFormat).1,
      mPhotonInfoFormatChanged := u.pass.mPhotonInfoFormatChanged
        || (Gui.dropdown kInfoTexDropdownList ui.infoTexFormat u.pass.mInfoTexFormat).2 },
    dirty := u.dirty || (u.pass.mPhotonInfoFormatChanged
        || (Gui.dropdown kInfoTexDropdownList ui.infoTexFormat u.pass.mInfoTexFormat).2) }

/-- The group "Collect Options" (`RTPM.cpp:260-273`): the probability slider
is shown only while "Stochastic Collection" is ticked. -/
def uiCollect (ui : UIInput) (u : UIStep) : UIStep :=
  if ui.collectGroup = true then
    if (Gui.checkbox ui.stochasticCollection u.pass.mEnableStochasticCollection).1 = true then
      { pass := { u.pass with
          mDisableGlobalCollection :=
            (Gui.checkbox ui.disableGlobal u.pass.mDisableGlobalCollection).1,
          mDisableCausticCollection :=
            (Gui.checkbox ui.disableCaustic u.pass.mDisableCausticCollection).1,
          mEnableStochasticCollection :=
            (Gui.checkbox ui.stochasticCollection u.pass.mEnableStochasticCollection).1,
          mStochasticCollectProbability := (Gui.var ui.stochasticProbability
            u.pass.mStochasticCollectProbability (1 / 10000) 1).1 },
        dirty := (((u.dirty
          || (Gui.checkbox ui.disableGlobal u.pass.mDisableGlobalCollection).2)
          || (Gui.checkbox ui.disableCaustic u.pass.mDisableCausticCollection).2)
          || (Gui.checkbox ui.stochasticCollection u.pass.mEnableStochasticCollection).2)
          || (Gui.var ui.stochasticProbability
            u.pass.mStochasticCollectProbability (1 / 10000) 1).2 }
    else
      { pass := { u.pass with
          mDisableGlobalCollection :=
            (Gui.checkbox ui.disableGlobal u.pass.mDisableGlobalCollection).1,
          mDisableCausticCollection :=
            (Gui.checkbox ui.disableCaustic u.pass.mDisableCausticCollection).1,
          mEnableStochasticCollection :=
            (Gui.checkbox ui.stochasticCollection u.pass.mEnableStochasticCollection).1 },
        dirty := ((u.dirty
          || (Gui.checkbox ui.disableGlobal u.pass.mDisableGlobalCollection).2)
          || (Gui.checkbox ui.disableCaustic u.pass.mDisableCausticCollection).2)
          || (Gui.checkbox ui.stochasticCollection u.pass.mEnableStochasticCollection).2 }
  else u

/-- The block `// Reset Iterations` (`RTPM.cpp:276-280`); what the checkbox
"Always Reset Iterations" reports is not used. -/
def uiReset (ui : UIInput) (u : UIStep) : UIStep :=
  { pass := { u.pass with
      mAlwaysResetIterations := (Gui.checkbox ui.alwaysReset u.pass.mAlwaysResetIterations).1,
      mResetIterations := u.pass.mResetIterations || ui.resetIterations },
    dirty := u.dirty || (u.pass.mResetIterations || ui.resetIterations) }

/-- The last statement (`RTPM.cpp:283-284`): `if (dirty) mOptionsChanged = true;`. -/
def uiFinish (u : UIStep) : RTPM :=
  if u.dirty = true then { u.pass with mOptionsChanged := true } else u.pass

/-- The blocks of `renderUI` up to the group "Timer" (`RTPM.cpp:119-170`);
`dirty` starts as `false`. -/
def uiBeforeTimer (ui : UIInput) (s : RTPM) : UIStep :=
  uiMisc ui (uiProgressive ui { pass := uiBuffers ui s, dirty := false })

/-- The blocks of `renderUI` after the group "Timer" (`RTPM.cpp:211-284`). -/
def uiAfterTimer (ui : UIInput) (u : UIStep) : RTPM :=
  uiFinish (uiReset ui (uiCollect ui (uiInfoFormat ui (uiLight ui (uiHash ui
    (uiMaterial ui (uiRadius ui u)))))))

/-- Outcome of `RTPM::renderUI`: the pass and the files afterwards, and the
message of the exception when the call ended by one. -/
structure RenderUIResult where
  pass : RTPM
  fs : FileSystem
  raised : Option String

/-- `RTPM::renderUI` (`RTPM.cpp:116-285`).  The text, tooltip and dummy
widgets only read the pass and are left out. -/
def RTPM.renderUI (ui : UIInput) (fs : FileSystem) (s : RTPM) : RenderUIResult :=
  match (uiTimer ui fs (uiBeforeTimer ui s)).raised with
  | some e =>
    { pass := (uiTimer ui fs (uiBeforeTimer ui s)).step.pass,
      fs := (uiTimer ui fs (uiBeforeTimer ui s)).fs,
      raised := some e }
  | none =>
    { pass := uiAfterTimer ui (uiTimer ui fs (uiBeforeTimer ui s)).step,
      fs := (uiTimer ui fs (uiBeforeTimer ui s)).fs,
      raised := none }

/-- What a step of `renderUI` keeps of the pass `s` in the pass `s'` it
leaves: the photon counts of the last iteration, the runtime photon count and
the sizes of the two photon buffers are unchanged, and a request flag that is
raised stays raised. -/
structure Kept (s s' : RTPM) : Prop where
  photonCount : s'.mPhotonCount = s.mPhotonCount
  numPhotons : s'.mNumPhotons = s.mNumPhotons
  causticMax : s'.mCausticBuffersMaxSize = s.mCausticBuffersMaxSize
  globalMax : s'.mGlobalBuffersMaxSize = s.mGlobalBuffersMaxSize
  photonsChanged : s.mNumPhotonsChanged = true → s'.mNumPhotonsChanged = true
  fitBuffers : s.mFitBuffersToPhotonShot = true → s'.mFitBuffersToPhotonShot = true
  resetCS : s.mResetCS = true → s'.mResetCS = true
  resetTimer : s.mResetTimer = true → s'.mResetTimer = true
  rebuildLightTex : s.mRebuildLightTex = true → s'.mRebuildLightTex = true
  infoFormat : s.mPhotonInfoFormatChanged = true → s'.mPhotonInfoFormatChanged = true
  resetIterations : s.mResetIterations = true → s'.mResetIterations = true
  optionsChanged : s.mOptionsChanged = true → s'.mOptionsChanged = true

/-- What the steps of `renderUI` after the photon number and buffer size
widgets keep: the three edited members, the two request flags of the buttons
"Apply" and "Fit Buffers", and the photon counts of the last iteration. -/
structure KeptEdits (s s' : RTPM) : Prop where
  numPhotonsUI : s'.mNumPhotonsUI = s.mNumPhotonsUI
  causticUI : s'.mCausticBufferSizeUI = s.mCausticBufferSizeUI
  globalUI : s'.mGlobalBufferSizeUI = s.mGlobalBufferSizeUI
  photonsChanged : s'.mNumPhotonsChanged = s.mNumPhotonsChanged
  fitBuffers : s'.mFitBuffersToPhotonShot = s.mFitBuffersToPhotonShot

/-- What the steps of `renderUI` after the block `// Progressive PM` keep:
the two alphas. -/
structure KeptAlpha (s s' : RTPM) : Prop where
  alphaGlobal : s'.mSPPMAlphaGlobal = s.mSPPMAlphaGlobal
  alphaCaustic : s'.mSPPMAlphaCaustic = s.mSPPMAlphaCaustic

/-- What the steps of `renderUI` after the group "Hash Options" keep: the
three hash options and the grid request flag as that group left them. -/
structure KeptHash (s s' : RTPM) : Prop where
  bucketBits : s'.mNumBucketBits = s.mNumBucketBits
  photonsPerBucket : s'.mNumPhotonsPerBucket = s.mNumPhotonsPerBucket
  probeIterations : s'.mQuadraticProbeIterations = s.mQuadraticProbeIterations
  resetCS : s'.mResetCS = s.mResetCS

/-- What the steps of `renderUI` other than the checkbox "Use Photon Face
Normal Rejection", the sliders of the group "Hash Options" and the dropdown
"Photon Info size" keep: the two grid request flags. -/
structure KeptGrid (s s' : RTPM) : Prop where
  resetCS : s'.mResetCS = s.mResetCS
  infoFormat : s'.mPhotonInfoFormatChanged = s.mPhotonInfoFormatChanged

/-! ## Inputs of the statements about the timer and the configuration UI -/

/-- A pass whose timer has no duration limit (`mTimerDurationSec = 0`: "time
is not used"), an iteration limit of 100, and recording enabled; the timer was
started at clock reading 10 and nothing is recorded yet. -/
def iterationLimitedPass : RTPM :=
  { mUseTimer := true, mTimerDurationSec := 0, mTimerMaxIterations := 100,
    mTimerRecordTimes := true, mTimerStartTime := 10, mFrameCount := 7 }

/-- A pass with no request pending (the default `mResetCS = true` has been
served). -/
def settledPass : RTPM := { mResetCS := false }

/-- One frame in which the user unfolds "Hash Options" and sets "Quadradic
Probe Iterations" to 5. -/
def probeEdit : UIInput := { hashGroup := true, probeIterations := some 5 }

/-- One frame in which the user presses "Fit Buffers". -/
def fitPress : UIInput := { fitBuffers := true }

/-- One frame in which the user drags "Global Alpha" to 1. -/
def alphaEdit : UIInput := { globalAlpha := some 1 }

/-- One frame in which the user unfolds "Hash Options" and drags "Bucket size
(bits)" to the right end, 32. -/
def bitsEdit : UIInput := { hashGroup := true, bucketBits := some 32 }

/-- The pass with the members the photon number and buffer size widgets and
the buttons "Apply" and "Fit Buffers" write blanked: two passes agree on every
other member exactly when their images agree. -/
def RTPM.withoutBufferEdits (s : RTPM) : RTPM :=
  { s with mNumPhotonsUI := 0, mCausticBufferSizeUI := 0, mGlobalBufferSizeUI := 0,
           mNumPhotonsChanged := false, mFitBuffersToPhotonShot := false }

/-- Modelled from the spec: the assignment to `mNumBuckets` is not among the
sources.  The bucket count `2^mNumBucketBits` of the grid (spec section 3) as
the 32-bit `uint mNumBuckets` (`RTPM.h:152`) holds it. -/
def RTPM.numBuckets32 (s : RTPM) : Nat := s.hashConfig.gridSize % 2 ^ 32

/-- A pass with every request flag raised. -/
def queuedPass : RTPM :=
  { mNumPhotonsChanged := true, mFitBuffersToPhotonShot := true, mResetCS := true,
    mResetTimer := true, mRebuildLightTex := true, mPhotonInfoFormatChanged := true,
    mResetIterations := true, mOptionsChanged := true }

/-- One frame in which the user unfolds every group and edits nothing. -/
def unfoldedFrame : UIInput :=
  { timerGroup := true, radiusGroup := true, materialGroup := true, hashGroup := true,
    lightGroup := true, collectGroup := true }

/-! ## Serving the buffer requests (modelled from the specification, section 4.4) -/

/-- Modelled from the spec: the auto-fit heuristic
`newSize = photonsEmittedLastIteration * 1.1` of a map, the product cut to a
whole number of photons (a buffer size is a `uint`). -/
def autoFitSize (photonsEmittedLastIteration : Nat) : Nat :=
  photonsEmittedLastIteration * 11 / 10

/-- Modelled from the spec: the code that serves the buffer requests is not
among the sources (`RTPM::execute` is an empty body).  The deferred path of
`resizeBuffers` at an iteration boundary: a pending request
(`mNumPhotonsChanged`) is served by making the requested photon count and
buffer sizes the ones in effect; when the request is an auto-fit
(`mFitBuffersToPhotonShot`) each map's requested size is first replaced by the
auto-fit size of that map's own photon count of the last iteration
(`mPhotonCount[0]` caustic, `mPhotonCount[1]` global).  The request flags are
cleared. -/
def RTPM.iterationBoundary (s : RTPM) : RTPM :=
  if s.mNumPhotonsChanged = true then
    if s.mFitBuffersToPhotonShot = true then
      { s with mNumPhotons := s.mNumPhotonsUI,
               mCausticBufferSizeUI := autoFitSize (s.mPhotonCount.getD 0 0),
               mGlobalBufferSizeUI := autoFitSize (s.mPhotonCount.getD 1 0),
               mCausticBuffersMaxSize := autoFitSize (s.mPhotonCount.getD 0 0),
               mGlobalBuffersMaxSize := autoFitSize (s.mPhotonCount.getD 1 0),
               mNumPhotonsChanged := false,
               mFitBuffersToPhotonShot := false }
    else
      { s with mNumPhotons := s.mNumPhotonsUI,
               mCausticBuffersMaxSize := s.mCausticBufferSizeUI,
               mGlobalBuffersMaxSize := s.mGlobalBufferSizeUI,
               mNumPhotonsChanged := false }
  else s

/-- The pass with other photon counts of the last iteration. -/
def RTPM.withPhotonCount (s : RTPM) (caustic global : Nat) : RTPM :=
  { s with mPhotonCount := [caustic, global] }

/-- A pass in the middle of its run: buffers of 1000000 and 500000 photons,
and 1234 caustic and 56780 global photons shot in the last iteration. -/
def runningPass : RTPM :=
  { mResetCS := false, mCausticBuffersMaxSize := 500000, mGlobalBuffersMaxSize := 1000000,
    mPhotonCount := [1234, 56780] }

/-! ## `RTPM::reflect` (translated from `RTPM.cpp:54-66` and `99-108`) -/

/-- The resource formats the channel lists of the two passes name. -/
inductive ResourceFormat where
  | Unknown
  | R32Float
  | RG32Float
  | RGBA32Float
  | R32Uint
deriving DecidableEq, Repr

/-- Modelled from the spec: the number of channels of a format (the table of
formats is not among the sources); the output is "4-channel 32-bit floating
point". -/
def ResourceFormat.channelCount : ResourceFormat → Nat
  | ResourceFormat.Unknown => 0
  | ResourceFormat.R32Float => 1
  | ResourceFormat.RG32Float => 2
  | ResourceFormat.RGBA32Float => 4
  | ResourceFormat.R32Uint => 1

/-- Modelled from the spec: the number of bits of one channel of a format. -/
def ResourceFormat.channelBits : ResourceFormat → Nat
  | ResourceFormat.Unknown => 0
  | _ => 32

/-- Modelled from the spec: whether the channels of a format hold floating
point numbers. -/
def ResourceFormat.isFloat : ResourceFormat → Bool
  | ResourceFormat.R32Float => true
  | ResourceFormat.RG32Float => true
  | ResourceFormat.RGBA32Float => true
  | _ => false

/-- An entry of a `ChannelList`, its members in the order of the braced
initialisers of `RTPM.cpp:54-66`; the last two may be left out there and are
then `false` and `Unknown`. -/
structure ChannelDesc where
  name : String
  texname : String
  desc : String
  optional : Bool := false
  format : ResourceFormat := ResourceFormat.Unknown
deriving DecidableEq, Repr

/-- `kInputChannels` (`RTPM.cpp:54-59`). -/
def kInputChannels : List ChannelDesc :=
  [ { name := "vbuffer", texname := "gVBuffer",
      desc := "V Buffer to get the intersected triangle", optional := false },
    { name := "viewW", texname := "gViewWorld", desc := "World View Direction",
      optional := false },
    { name := "thp", texname := "gThp", desc := "Throughput", optional := false },
    { name := "emissive", texname := "gEmissive", desc := "Emissive", optional := false } ]

/-- `kOutputChannels` (`RTPM.cpp:61-66`). -/
def kOutputChannels : List ChannelDesc :=
  [ { name := "PhotonImage", texname := "gPhotonImage",
      desc := "An image that shows the caustics and indirect light from global photons",
      optional := false, format := ResourceFormat.RGBA32Float } ]

/-- Whether a declared resource is read or written by the pass. -/
inductive FieldVisibility where
  | Input
  | Output
deriving DecidableEq, Repr

/-- A resource a pass declares in its reflection. -/
structure ReflectionField where
  name : String
  desc : String
  visibility : FieldVisibility
  optional : Bool
  format : ResourceFormat
deriving DecidableEq, Repr

/-- A `RenderPassReflection`: the declared resources in the order of their
declaration. -/
abbrev RenderPassReflection : Type := List ReflectionField

/-- Modelled from the spec: `addRenderPassInputs` (`RenderPassHelpers.h`) is
not among the sources; it declares one input per channel of the list, in the
order of the list, optional exactly when the channel is marked optional, with
the channel's format. -/
def addRenderPassInputs (reflector : RenderPassReflection) (channels : List ChannelDesc) :
    RenderPassReflection :=
  reflector ++ channels.map fun ch =>
    { name := ch.name, desc := ch.desc, visibility := FieldVisibility.Input,
      optional := ch.optional, format := ch.format }

/-- Modelled from the spec: `addRenderPassOutputs` (`RenderPassHelpers.h`),
the same for outputs. -/
def addRenderPassOutputs (reflector : RenderPassReflection) (channels : List ChannelDesc) :
    RenderPassReflection :=
  reflector ++ channels.map fun ch =>
    { name := ch.name, desc := ch.desc, visibility := FieldVisibility.Output,
      optional := ch.optional, format := ch.format }

/-- What the render graph hands to `reflect`. -/
structure CompileData where
  defaultTexDims : UInt2
  defaultTexFormat : ResourceFormat

/-- `RTPM::reflect` (`RTPM.cpp:99-108`); neither the pass nor the compile data
is read. -/
def RTPM.reflect (_s : RTPM) (_compileData : CompileData) : RenderPassReflection :=
  addRenderPassOutputs (addRenderPassInputs [] kInputChannels) kOutputChannels

/-- The inputs a reflection declares. -/
def inputsOf (r : RenderPassReflection) : List ReflectionField :=
  r.filter fun f => f.visibility = FieldVisibility.Input

/-- The outputs a reflection declares. -/
def outputsOf (r : RenderPassReflection) : List ReflectionField :=
  r.filter fun f => f.visibility = FieldVisibility.Output

/-! ## `RTPM::checkTimer`: calls in a row -/

/-- The pass after one `checkTimer` call per clock reading of `nows`, in order. -/
def RTPM.checkTimerAt (nows : List ℚ) (s : RTPM) : RTPM :=
  nows.foldl (fun p now => p.checkTimer now) s

/-- The pass with the five members the reset branch of `checkTimer` writes
blanked: two passes agree on every other member exactly when their images
agree. -/
def RTPM.withoutTimerState (s : RTPM) : RTPM :=
  { s with mCurrentElapsedTime := 0, mTimerStartTime := 0, mTimerStopRenderer := false,
           mResetTimer := false, mTimesList := [] }

/-- A pass whose timer has stopped the renderer: one-minute limit, started at
clock reading 10, stopped at 75 with three times recorded. -/
def stoppedPass : RTPM :=
  { mUseTimer := true, mTimerDurationSec := 60, mTimerStartTime := 10, mCurrentElapsedTime := 65,
    mTimerStopRenderer := true, mTimerRecordTimes := true, mTimesList := [20, 40, 65],
    mFrameCount := 3 }

/-- The stopped pass with a timer reset requested and an iteration limit that
is exceeded as well. -/
def resetPendingPass : RTPM :=
  { mUseTimer := true, mResetTimer := true, mTimerDurationSec := 60, mTimerMaxIterations := 2,
    mTimerStartTime := 10, mCurrentElapsedTime := 65, mTimerStopRenderer := true,
    mTimerRecordTimes := true, mTimesList := [20, 40, 65], mFrameCount := 3 }

/-! ## `VBufferSC`: properties, shader defines, `setScene` and `execute` -/

/-- `VBufferSC::getProperties` (`VbufferSC.cpp:100-116`): the entries in the
order of the assignments; `fixedOutputSize` is written only when the output
size selection is `Fixed`. -/
def VBufferSC.getProperties (s : VBufferSC) : Properties :=
  Property.outputSize s.mOutputSizeSelection ::
    ((if s.mOutputSizeSelection = IOSize.Fixed then
        [Property.fixedOutputSize s.mFixedOutputSize] else []) ++
      [Property.samplePattern s.mSamplePattern,
       Property.sampleCount s.mSampleCount,
       Property.useAlphaTest s.mUseAlphaTest,
       Property.adjustShadingNormals s.mAdjustShadingNormals,
       Property.forceCullMode s.mForceCullMode,
       Property.cull s.mCullMode,
       Property.useTraceRayInline s.mUseTraceRayInline,
       Property.useDOF s.mUseDOF])

/-- A pass with every option away from its default. -/
def customPass : VBufferSC :=
  { mpDevice := ⟨true, true⟩, mOutputSizeSelection := IOSize.Fixed, mFixedOutputSize := ⟨800, 600⟩,
    mSamplePattern := SamplePattern.Halton, mSampleCount := 8, mUseAlphaTest := false,
    mAdjustShadingNormals := false, mForceCullMode := true, mCullMode := CullMode.Front,
    mUseTraceRayInline := true, mUseDOF := false }

/-- `kVBufferName` (`VbufferSC.cpp:70`). -/
def kVBufferName : String := "vbuffer"

/-- `kVBufferExtraChannels` (`VbufferSC.cpp:74-84`). -/
def kVBufferExtraChannels : List ChannelDesc :=
  [ { name := "depth", texname := "gDepth", desc := "Depth buffer (NDC)",
      optional := true, format := ResourceFormat.R32Float },
    { name := "mvec", texname := "gMotionVector", desc := "Motion vector",
      optional := true, format := ResourceFormat.RG32Float },
    { name := "viewW", texname := "gViewW", desc := "View direction in world space",
      optional := true, format := ResourceFormat.RGBA32Float },
    { name := "time", texname := "gTime", desc := "Per-pixel execution time",
      optional := true, format := ResourceFormat.R32Uint },
    { name := "mask", texname := "gMask", desc := "Mask",
      optional := true, format := ResourceFormat.R32Float },
    { name := "throughput", texname := "gThp", desc := "Throughput for transparent materials",
      optional := true, format := ResourceFormat.R32Float },
    { name := "emissive", texname := "gEmissive", desc := "Emissive color",
      optional := true, format := ResourceFormat.R32Float } ]

/-- The members of `RayFlags` that `getShaderDefines` names. -/
inductive RayFlags where
  | None
  | CullBackFacingTriangles
  | CullFrontFacingTriangles
deriving DecidableEq, Repr

/-- Modelled from the spec: the values of the enumerators of `RayFlags` are
not among the sources; they are the ray flag bits of the ray tracing API. -/
def RayFlags.toUInt32 : RayFlags → Nat
  | RayFlags.None => 0
  | RayFlags.CullBackFacingTriangles => 16
  | RayFlags.CullFrontFacingTriangles => 32

/-- A `DefineList`: the `add` calls in order.  The list is a map in the
sources, so a later `add` under a name replaces an earlier one. -/
abbrev DefineList : Type := List (String × String)

/-- The value a define list holds under `name`: that of the last `add`. -/
def DefineList.value (defines : DefineList) (name : String) : Option String :=
  (defines.reverse.find? fun d => d.1 = name).map fun d => d.2

/-- Modelled from the spec: `getValidResourceDefines` (`RenderPassHelpers.h`)
is not among the sources; for every optional channel with a shader name it
adds `is_valid_<texname>`, `1` when the render data holds the resource and `0`
when not (`VbufferSC.cpp:432`). -/
def getValidResourceDefines (channels : List ChannelDesc) (renderData : RenderData) :
    DefineList :=
  (channels.filter fun ch => ch.optional && !ch.texname.isEmpty).map fun ch =>
    ("is_valid_" ++ ch.texname, if (renderData.getTexture ch.name).isSome then "1" else "0")

/-- The block `// Setup ray flags.` of `VBufferSC::getShaderDefines`
(`VbufferSC.cpp:425-429`). -/
def VBufferSC.rayFlags (s : VBufferSC) : RayFlags :=
  if s.mForceCullMode = true ∧ s.mCullMode = CullMode.Front then
    RayFlags.CullFrontFacingTriangles
  else if s.mForceCullMode = true ∧ s.mCullMode = CullMode.Back then
    RayFlags.CullBackFacingTriangles
  else RayFlags.None

/-- `VBufferSC::getShaderDefines` (`VbufferSC.cpp:418-436`). -/
def VBufferSC.getShaderDefines (s : VBufferSC) (renderData : RenderData) : DefineList :=
  [("COMPUTE_DEPTH_OF_FIELD", if s.mComputeDOF = true then "1" else "0"),
   ("USE_ALPHA_TEST", if s.mUseAlphaTest = true then "1" else "0"),
   ("RAY_FLAGS", toString s.rayFlags.toUInt32)]
    ++ getValidResourceDefines kVBufferExtraChannels renderData

/-- Render data with a `vbuffer` and a `depth` texture of 640 by 480. -/
def sizedRenderData : RenderData :=
  { getTexture := fun name =>
      if name = "vbuffer" then some ⟨1, 640, 480⟩
      else if name = "depth" then some ⟨2, 640, 480⟩
      else none }

/-- A pass as the default member initialisers leave it, on the device
`pDevice`. -/
def VBufferSC.fresh (pDevice : Device) : VBufferSC := { mpDevice := pDevice }

/-- A property set with the deprecated `disableAlphaTest` and with
`useAlphaTest`, which disagree. -/
def bothAlphaProps : Properties :=
  [Property.disableAlphaTest true, Property.sampleCount 4, Property.useAlphaTest true]

/-- A property set with the deprecated `disableAlphaTest` only. -/
def deprecatedAlphaProps : Properties :=
  [Property.sampleCount 4, Property.disableAlphaTest true]

/-! ## `VBufferSC`: `setScene` and `execute` -/

/-- What `execute` reads of the scene `mpScene` points to: whether
`getUpdates()` has `RecompileNeeded`, `GeometryChanged` and
`SDFGridConfigChanged` set, and the aperture radius of the camera. -/
structure Scene where
  recompileNeeded : Bool
  geometryChanged : Bool
  sdfGridConfigChanged : Bool
  apertureRadius : ℚ

/-- The entries of the render graph dictionary `execute` writes: the bit
`RenderOptionsChanged` of `kRenderPassRefreshFlags`, and the entries
`kRenderPassGBufferAdjustShadingNormals` and `kRenderPassPRNGDimension`
(`none`: no entry). -/
structure Dictionary where
  renderOptionsChanged : Bool := false
  adjustShadingNormals : Option Bool := none
  prngDimension : Option Nat := none
deriving DecidableEq, Repr

/-- What surrounds an `execute` call: whether `FALCOR_ASSERT` is compiled in,
the scene as it is in this frame (read only when the pass has a scene), and
the error raised by the code outside the sources the call reaches, if any:
`programError` by the creation of the program or compute pass,
`dispatchError` by the dispatch itself. -/
structure ExecuteEnv where
  assertsEnabled : Bool
  scene : Scene
  programError : Option PassError := none
  dispatchError : Option PassError := none

/-- `VBufferSC::updateFrameDim` (`VbufferSC.cpp:457-466`).  The pattern
generator it hands to the camera is outside the pass and left out;
`mInvFrameDim` is the exact quotient. -/
def VBufferSC.updateFrameDim (assertsEnabled : Bool) (frameDim : UInt2) (s : VBufferSC) :
    Except PassError VBufferSC :=
  if assertsEnabled = true ∧ ¬ (0 < frameDim.x ∧ 0 < frameDim.y) then
    Except.error (PassError.assertion "frameDim.x > 0 && frameDim.y > 0")
  else
    Except.ok { s with mFrameDim := frameDim,
                       mInvFrameDim := (1 / (frameDim.x : ℚ), 1 / (frameDim.y : ℚ)) }

/-- `VBufferSC::updateSamplePattern` (`VbufferSC.cpp:468-491`):
`createSamplePattern` returns no generator for `Center`; for the other
patterns `getSampleCount pattern count` is the sample count of the generator
created for `count` samples (the generators are not among the sources). -/
def VBufferSC.updateSamplePattern (getSampleCount : SamplePattern → Nat → Nat)
    (s : VBufferSC) : VBufferSC :=
  if s.mSamplePattern = SamplePattern.Center then s
  else { s with mSampleCount := getSampleCount s.mSamplePattern s.mSampleCount }

/-- `VBufferSC::setScene` (`VbufferSC.cpp:257-274`); `pScene` is `none` for a
null reference.  The V-buffer format and the programs are members the
embedding leaves out. -/
def VBufferSC.setScene (getSampleCount : SamplePattern → Nat → Nat) (pScene : Option Scene)
    (s : VBufferSC) : VBufferSC :=
  VBufferSC.updateSamplePattern getSampleCount
    { s with mHasScene := pScene.isSome, mFrameCount := 0 }

/-- The start of `execute` (`VbufferSC.cpp:138-148`): the refresh flag and the
shading normal flag are passed on through the dictionary. -/
def VBufferSC.publishOptions (dict : Dictionary) (s : VBufferSC) : VBufferSC × Dictionary :=
  if s.mOptionsChanged = true then
    ({ s with mOptionsChanged := false },
     { dict with renderOptionsChanged := true,
                 adjustShadingNormals := some s.mAdjustShadingNormals })
  else (s, { dict with adjustShadingNormals := some s.mAdjustShadingNormals })

/-- Modelled from the spec: `clearRenderPassChannels` (`RenderPassHelpers.h`)
is not among the sources; it clears the texture of every channel of the list
the render data holds one for.  The names of the cleared channels. -/
def clearRenderPassChannels (channels : List ChannelDesc) (renderData : RenderData) :
    List String :=
  (channels.filter fun ch => (renderData.getTexture ch.name).isSome).map fun ch => ch.name

/-- What `bindShaderData` binds: the two members of `gVBufferSC` and the
texture under each shader name. -/
structure ShaderData where
  frameDim : UInt2
  frameCount : Nat
  resources : List (String × Option Texture)

/-- `VBufferSC::bindShaderData` (`VbufferSC.cpp:438-454`): every output is
fetched through `getOutput`, which raises on a texture of another size. -/
def VBufferSC.bindShaderData (assertsEnabled : Bool) (s : VBufferSC) (renderData : RenderData) :
    Except PassError ShaderData :=
  match (("gVBuffer", kVBufferName) ::
      kVBufferExtraChannels.map fun ch => (ch.texname, ch.name)).mapM
    (fun b => (s.getOutput assertsEnabled renderData b.2).map fun pTex => (b.1, pTex)) with
  | Except.error e => Except.error e
  | Except.ok resources =>
    Except.ok { frameDim := s.mFrameDim, frameCount := s.mFrameCount, resources := resources }

/-- Which of the two programs is dispatched. -/
inductive DispatchKind where
  | Raytrace
  | Compute
deriving DecidableEq, Repr

/-- A dispatch over the frame: the program, its defines and its shader data. -/
structure Dispatch where
  kind : DispatchKind
  defines : DefineList
  data : ShaderData

/-- What `executeRaytrace` (`VbufferSC.cpp:314-378`) and `executeCompute`
(`VbufferSC.cpp:380-409`) have in common: the program is created when there is
none, its defines are set from `getShaderDefines`, the shader data is bound
and the frame is dispatched. -/
def VBufferSC.dispatch (kind : DispatchKind) (env : ExecuteEnv) (renderData : RenderData)
    (s : VBufferSC) : Except PassError Dispatch :=
  match env.programError with
  | some e => Except.error e
  | none =>
    match s.bindShaderData env.assertsEnabled renderData with
    | Except.error e => Except.error e
    | Except.ok data =>
      match env.dispatchError with
      | some e => Except.error e
      | none =>
        Except.ok { kind := kind, defines := s.getShaderDefines renderData, data := data }

/-- `VBufferSC::executeRaytrace` (`VbufferSC.cpp:314-378`). -/
def VBufferSC.executeRaytrace (env : ExecuteEnv) (renderData : RenderData) (s : VBufferSC) :
    Except PassError Dispatch :=
  s.dispatch DispatchKind.Raytrace env renderData

/-- `VBufferSC::executeCompute` (`VbufferSC.cpp:380-409`). -/
def VBufferSC.executeCompute (env : ExecuteEnv) (renderData : RenderData) (s : VBufferSC) :
    Except PassError Dispatch :=
  s.dispatch DispatchKind.Compute env renderData

/-- Outcome of `VBufferSC::execute`: the pass and the dictionary afterwards,
the outputs that were cleared, whether `recreatePrograms` was called, the
dispatch that was made, and the error when the call ended by one. -/
structure ExecuteResult where
  pass : VBufferSC
  dict : Dictionary
  cleared : List String
  recreatedPrograms : Bool
  dispatched : Option Dispatch
  raised : Option PassError

/-- The block `// Configure depth-of-field.` (`VbufferSC.cpp:171-173`). -/
def VBufferSC.configureDOF (scene : Scene) (s : VBufferSC) : VBufferSC :=
  { s with mComputeDOF := s.mUseDOF && decide (0 < scene.apertureRadius) }

/-- The dictionary entry for the random number dimensions
(`VbufferSC.cpp:174-177`). -/
def VBufferSC.publishDOF (dict : Dictionary) (s : VBufferSC) : Dictionary :=
  if s.mUseDOF = true then
    { dict with prngDimension := some (if s.mComputeDOF = true then 2 else 0) }
  else dict

/-- The last statement of `execute`: `mFrameCount++` on a `uint32_t`
(`VbufferSC.cpp:181`). -/
def VBufferSC.countFrame (s : VBufferSC) : VBufferSC :=
  { s with mFrameCount := (s.mFrameCount + 1) % 2 ^ 32 }

/-- The block `// Check for scene changes.` (`VbufferSC.cpp:163-169`): whether
`recreatePrograms` is called. -/
def Scene.needsPrograms (scene : Scene) : Bool :=
  scene.recompileNeeded || scene.geometryChanged || scene.sdfGridConfigChanged

/-- The part of `execute` that runs with a scene (`VbufferSC.cpp:163-181`).
`recreatePrograms` resets members the embedding leaves out. -/
def VBufferSC.executeScene (env : ExecuteEnv) (renderData : RenderData) (dict : Dictionary)
    (s : VBufferSC) : ExecuteResult :=
  match (if (s.configureDOF env.scene).mUseTraceRayInline = true then
      (s.configureDOF env.scene).executeCompute env renderData
    else (s.configureDOF env.scene).executeRaytrace env renderData) with
  | Except.error e =>
    { pass := s.configureDOF env.scene, dict := (s.configureDOF env.scene).publishDOF dict,
      cleared := [], recreatedPrograms := env.scene.needsPrograms, dispatched := none,
      raised := some e }
  | Except.ok d =>
    { pass := (s.configureDOF env.scene).countFrame,
      dict := (s.configureDOF env.scene).publishDOF dict,
      cleared := [], recreatedPrograms := env.scene.needsPrograms, dispatched := some d,
      raised := none }

/-- The part of `execute` after the frame dimension is known
(`VbufferSC.cpp:155-181`): without a scene the outputs are cleared. -/
def VBufferSC.executeFramed (env : ExecuteEnv) (renderData : RenderData) (dict : Dictionary)
    (s : VBufferSC) : ExecuteResult :=
  if s.mHasScene = false then
    { pass := s, dict := dict,
      cleared := kVBufferName :: clearRenderPassChannels kVBufferExtraChannels renderData,
      recreatedPrograms := false, dispatched := none, raised := none }
  else s.executeScene env renderData dict

/-- `VBufferSC::execute` (`VbufferSC.cpp:135-182`); `dict` is the dictionary
of the render data before the call.  A null `pOutput` fails the assertion;
with assertions compiled out the null reference is dereferenced, which ends
the call as well. -/
def VBufferSC.execute (env : ExecuteEnv) (renderData : RenderData) (dict : Dictionary)
    (s : VBufferSC) : ExecuteResult :=
  match renderData.getTexture kVBufferName with
  | none =>
    { pass := (s.publishOptions dict).1, dict := (s.publishOptions dict).2,
      cleared := [], recreatedPrograms := false, dispatched := none,
      raised := some (if env.assertsEnabled = true then PassError.assertion "pOutput"
        else PassError.runtime "pOutput is a null reference") }
  | some pOutput =>
    match (s.publishOptions dict).1.updateFrameDim env.assertsEnabled
        ⟨pOutput.width, pOutput.height⟩ with
    | Except.error e =>
      { pass := (s.publishOptions dict).1, dict := (s.publishOptions dict).2,
        cleared := [], recreatedPrograms := false, dispatched := none, raised := some e }
    | Except.ok framed => framed.executeFramed env renderData (s.publishOptions dict).2

/-- A call of the render graph on the pass. -/
inductive PassCall where
  | setScene (pScene : Option Scene)
  | execute (env : ExecuteEnv) (renderData : RenderData) (dict : Dictionary)

/-- The pass after one call. -/
def VBufferSC.call (getSampleCount : SamplePattern → Nat → Nat) (s : VBufferSC) :
    PassCall → VBufferSC
  | PassCall.setScene pScene => s.setScene getSampleCount pScene
  | PassCall.execute env renderData dict => (s.execute env renderData dict).pass

/-- The pass after a sequence of calls. -/
def VBufferSC.run (getSampleCount : SamplePattern → Nat → Nat) (calls : List PassCall)
    (s : VBufferSC) : VBufferSC :=
  calls.foldl (VBufferSC.call getSampleCount) s

/-- The number of `execute` calls of `calls` that completed with a scene set
since the last `setScene`, `n` being that number before the calls. -/
def framesSinceSetScene (getSampleCount : SamplePattern → Nat → Nat) :
    List PassCall → VBufferSC → Nat → Nat
  | [], _, n => n
  | PassCall.setScene pScene :: rest, s, _ =>
    framesSinceSetScene getSampleCount rest (s.setScene getSampleCount pScene) 0
  | PassCall.execute env renderData dict :: rest, s, n =>
    framesSinceSetScene getSampleCount rest (s.execute env renderData dict).pass
      (if s.mHasScene = true ∧ (s.execute env renderData dict).raised = none then n + 1 else n)

/-- A scene at rest whose camera has an open aperture. -/
def stillScene : Scene :=
  { recompileNeeded := false, geometryChanged := false, sdfGridConfigChanged := false,
    apertureRadius := 1 }

/-- An environment with assertions compiled in in which nothing outside the
sources fails. -/
def quietEnv : ExecuteEnv := { assertsEnabled := true, scene := stillScene }

/-- A sample count look-up that keeps the requested count. -/
def keepSampleCount : SamplePattern → Nat → Nat := fun _ count => count

/-- A run of the render graph: a frame without a scene, a scene is set, a
frame, a frame whose `depth` output has another size, and a frame. -/
def sampleRun : List PassCall :=
  [PassCall.execute quietEnv sizedRenderData {},
   PassCall.setScene (some stillScene),
   PassCall.execute quietEnv sizedRenderData {},
   PassCall.execute quietEnv mixedRenderData {},
   PassCall.execute quietEnv sizedRenderData {}]

/-! ## `VBufferSC`: the value an entry of a property set carries for an option -/

/-- The value of an `outputSize` entry. -/
def Property.outputSize? : Property → Option IOSize
  | Property.outputSize v => some v
  | _ => none

/-- The value of a `fixedOutputSize` entry. -/
def Property.fixedOutputSize? : Property → Option UInt2
  | Property.fixedOutputSize v => some v
  | _ => none

/-- The value of a `samplePattern` entry. -/
def Property.samplePattern? : Property → Option SamplePattern
  | Property.samplePattern v => some v
  | _ => none

/-- The value of a `sampleCount` entry. -/
def Property.sampleCount? : Property → Option Nat
  | Property.sampleCount v => some v
  | _ => none

/-- The value of an `adjustShadingNormals` entry. -/
def Property.adjustShadingNormals? : Property → Option Bool
  | Property.adjustShadingNormals v => some v
  | _ => none

/-- The value of a `forceCullMode` entry. -/
def Property.forceCullMode? : Property → Option Bool
  | Property.forceCullMode v => some v
  | _ => none

/-- The value of a `cull` entry. -/
def Property.cull? : Property → Option CullMode
  | Property.cull v => some v
  | _ => none

/-- The value of a `useTraceRayInline` entry. -/
def Property.useTraceRayInline? : Property → Option Bool
  | Property.useTraceRayInline v => some v
  | _ => none

/-- The value of a `useDOF` entry. -/
def Property.useDOF? : Property → Option Bool
  | Property.useDOF v => some v
  | _ => none

/-! ## Theorems -/

/-! ### Sequential insertion -/

/-- The probe loop, when the first bucket with room is the one of step `i + k`:
the photon lands there, in the slot given by the pre-increment counter. -/
theorem insertLoop_stored {P : Type} (cfg : HashConfig) (h : Nat) (p : P) :
    ∀ (n i k : Nat) (g : HashGrid P), k < n →
      g.counters (probeBucket cfg h (i + k)) < cfg.mNumPhotonsPerBucket →
      (∀ j, j < k → cfg.mNumPhotonsPerBucket ≤ g.counters (probeBucket cfg h (i + j))) →
      (insertLoop cfg h p n i g).1
          = InsertOutcome.stored (probeBucket cfg h (i + k)) (g.counters (probeBucket cfg h (i + k))) ∧
      (insertLoop cfg h p n i g).2.overflow = g.overflow ∧
      (∀ b, (insertLoop cfg h p n i g).2.counters b = g.counters b + visits cfg h b (k + 1) i) ∧
      (∀ b s, (insertLoop cfg h p n i g).2.slots b s
          = if b = probeBucket cfg h (i + k) ∧ s = g.counters (probeBucket cfg h (i + k))
            then some p else g.slots b s) := by
  intro n
  induction n with
  | zero => intro i k g hk; omega
  | succ n ih =>
    intro i k g hk hfree hfull
    by_cases hi : g.counters (probeBucket cfg h i) < cfg.mNumPhotonsPerBucket
    · have hk0 : k = 0 := by
        by_contra hne
        have := hfull 0 (Nat.pos_of_ne_zero hne)
        simp at this
        omega
      subst hk0
      simp only [Nat.add_zero] at *
      have hstep : insertLoop cfg h p (n + 1) i g
          = (InsertOutcome.stored (probeBucket cfg h i) (g.counters (probeBucket cfg h i)),
              (g.fetchInc (probeBucket cfg h i)).2.writeSlot (probeBucket cfg h i)
                (g.counters (probeBucket cfg h i)) p) := by
        simp only [insertLoop, HashGrid.fetchInc, hi, if_true]
      rw [hstep]
      refine ⟨rfl, rfl, ?_, ?_⟩
      · intro b
        simp only [visits, HashGrid.writeSlot, HashGrid.fetchInc, Function.update_apply]
        by_cases hb : b = probeBucket cfg h i
        · subst hb; simp
        · have hb2 : ¬ probeBucket cfg h i = b := fun e => hb e.symm
          simp [hb, hb2]
      · intro b s
        simp only [HashGrid.writeSlot, HashGrid.fetchInc, Function.update_apply]
        by_cases hb : b = probeBucket cfg h i
        · subst hb
          by_cases hs : s = g.counters (probeBucket cfg h i)
          · subst hs; simp
          · simp [hs]
        · simp [hb]
    · have hkpos : 0 < k := by
        rcases Nat.eq_zero_or_pos k with h0 | h0
        · subst h0; simp only [Nat.add_zero] at hfree; exact absurd hfree hi
        · exact h0
      obtain ⟨k1, rfl⟩ : ∃ k1, k = k1 + 1 := ⟨k - 1, by omega⟩
      have e : ∀ m, i + 1 + m = i + (m + 1) := by intro m; omega
      have hne : probeBucket cfg h (i + (k1 + 1)) ≠ probeBucket cfg h i := by
        intro heq
        rw [heq] at hfree
        exact hi hfree
      have hstep : insertLoop cfg h p (n + 1) i g
          = insertLoop cfg h p n (i + 1) (g.fetchInc (probeBucket cfg h i)).2 := by
        simp only [insertLoop, HashGrid.fetchInc, hi, if_false]
      have hc : ∀ b, (g.fetchInc (probeBucket cfg h i)).2.counters b
          = g.counters b + (if probeBucket cfg h i = b then 1 else 0) := by
        intro b
        simp only [HashGrid.fetchInc, Function.update_apply]
        by_cases hb : b = probeBucket cfg h i
        · subst hb; simp
        · have hb2 : ¬ probeBucket cfg h i = b := fun e => hb e.symm
          simp [hb, hb2]
      have hcne : (g.fetchInc (probeBucket cfg h i)).2.counters (probeBucket cfg h (i + (k1 + 1)))
          = g.counters (probeBucket cfg h (i + (k1 + 1))) := by
        rw [hc]; simp [hne.symm]
      have ih1 := ih (i + 1) k1 (g.fetchInc (probeBucket cfg h i)).2 (by omega)
        (by rw [e, hcne]; exact hfree)
        (by
          intro j hj
          rw [e, hc]
          have := hfull (j + 1) (by omega)
          omega)
      rw [hstep]
      rw [e] at ih1
      rw [hcne] at ih1
      obtain ⟨h1, h2, h3, h4⟩ := ih1
      refine ⟨h1, h2, ?_, h4⟩
      intro b
      rw [h3 b, hc b]
      conv_rhs => rw [visits]
      omega

/-- The probe loop, when every bucket it visits is full: the photon is dropped
and counted as overflow, no slot changes. -/
theorem insertLoop_dropped {P : Type} (cfg : HashConfig) (h : Nat) (p : P) :
    ∀ (n i : Nat) (g : HashGrid P),
      (∀ j, j < n → cfg.mNumPhotonsPerBucket ≤ g.counters (probeBucket cfg h (i + j))) →
      (insertLoop cfg h p n i g).1 = InsertOutcome.dropped ∧
      (insertLoop cfg h p n i g).2.overflow = g.overflow + 1 ∧
      (∀ b, (insertLoop cfg h p n i g).2.counters b = g.counters b + visits cfg h b n i) ∧
      (∀ b s, (insertLoop cfg h p n i g).2.slots b s = g.slots b s) := by
  intro n
  induction n with
  | zero =>
    intro i g _
    simp [insertLoop, HashGrid.countOverflow, visits]
  | succ n ih =>
    intro i g hfull
    have hi : ¬ g.counters (probeBucket cfg h i) < cfg.mNumPhotonsPerBucket := by
      have := hfull 0 (by omega)
      simp only [Nat.add_zero] at this
      omega
    have e : ∀ m, i + 1 + m = i + (m + 1) := by intro m; omega
    have hstep : insertLoop cfg h p (n + 1) i g
        = insertLoop cfg h p n (i + 1) (g.fetchInc (probeBucket cfg h i)).2 := by
      simp only [insertLoop, HashGrid.fetchInc, hi, if_false]
    have hc : ∀ b, (g.fetchInc (probeBucket cfg h i)).2.counters b
        = g.counters b + (if probeBucket cfg h i = b then 1 else 0) := by
      intro b
      simp only [HashGrid.fetchInc, Function.update_apply]
      by_cases hb : b = probeBucket cfg h i
      · subst hb; simp
      · have hb2 : ¬ probeBucket cfg h i = b := fun e => hb e.symm
        simp [hb, hb2]
    have ih1 := ih (i + 1) (g.fetchInc (probeBucket cfg h i)).2
      (by
        intro j hj
        rw [e, hc]
        have := hfull (j + 1) (by omega)
        omega)
    rw [hstep]
    obtain ⟨h1, h2, h3, h4⟩ := ih1
    refine ⟨h1, h2, ?_, ?_⟩
    · intro b
      rw [h3 b, hc b]
      conv_rhs => rw [visits]
      omega
    · intro b s
      rw [h4 b s]
      rfl

/-- C2: `insertPhoton` visits the buckets `(baseHash + i*i) mod gridSize` for
`i = 0, 1, ...` in that order: if step `i < maxProbeIterations` is the first
whose bucket has a fill counter below `K`, the photon is stored in that bucket
at the slot equal to the pre-increment counter, no other slot changes, nothing
is counted as overflow, and every bucket's counter has grown by the number of
steps `0..i` that visited it; if no step below `maxProbeIterations` finds room,
the photon is dropped, the overflow count grows by one, no slot changes, and
every bucket's counter has grown by the number of the `maxProbeIterations`
steps that visited it. -/
theorem insertPhoton_probe_sequence (cfg : HashConfig) (hash : Cell → Nat) (cellSize : ℚ)
    (photon : Photon) (g : HashGrid Photon) :
    (∀ i, i < cfg.mQuadraticProbeIterations →
      g.counters (probeBucket cfg (hash (cellOf cellSize photon.position)) i)
        < cfg.mNumPhotonsPerBucket →
      (∀ j, j < i → cfg.mNumPhotonsPerBucket
        ≤ g.counters (probeBucket cfg (hash (cellOf cellSize photon.position)) j)) →
      (insertPhoton cfg hash cellSize photon g).1
        = InsertOutcome.stored (probeBucket cfg (hash (cellOf cellSize photon.position)) i)
            (g.counters (probeBucket cfg (hash (cellOf cellSize photon.position)) i)) ∧
      (insertPhoton cfg hash cellSize photon g).2.slots
          (probeBucket cfg (hash (cellOf cellSize photon.position)) i)
          (g.counters (probeBucket cfg (hash (cellOf cellSize photon.position)) i)) = some photon ∧
      (∀ b s, ¬ (b = probeBucket cfg (hash (cellOf cellSize photon.position)) i ∧
            s = g.counters (probeBucket cfg (hash (cellOf cellSize photon.position)) i)) →
          (insertPhoton cfg hash cellSize photon g).2.slots b s = g.slots b s) ∧
      (insertPhoton cfg hash cellSize photon g).2.overflow = g.overflow ∧
      (∀ b, (insertPhoton cfg hash cellSize photon g).2.counters b
          = g.counters b + visits cfg (hash (cellOf cellSize photon.position)) b (i + 1) 0)) ∧
    ((∀ j, j < cfg.mQuadraticProbeIterations → cfg.mNumPhotonsPerBucket
        ≤ g.counters (probeBucket cfg (hash (cellOf cellSize photon.position)) j)) →
      (insertPhoton cfg hash cellSize photon g).1 = InsertOutcome.dropped ∧
      (insertPhoton cfg hash cellSize photon g).2.overflow = g.overflow + 1 ∧
      (∀ b s, (insertPhoton cfg hash cellSize photon g).2.slots b s = g.slots b s) ∧
      (∀ b, (insertPhoton cfg hash cellSize photon g).2.counters b
          = g.counters b
            + visits cfg (hash (cellOf cellSize photon.position)) b cfg.mQuadraticProbeIterations 0)) := by
  constructor
  · intro i hi hfree hfull
    have key := insertLoop_stored cfg (hash (cellOf cellSize photon.position)) photon
      cfg.mQuadraticProbeIterations 0 i g hi (by simpa using hfree)
      (by intro j hj; simpa using hfull j hj)
    simp only [Nat.zero_add] at key
    obtain ⟨h1, h2, h3, h4⟩ := key
    refine ⟨h1, ?_, ?_, h2, h3⟩
    · have := h4 (probeBucket cfg (hash (cellOf cellSize photon.position)) i)
        (g.counters (probeBucket cfg (hash (cellOf cellSize photon.position)) i))
      simpa using this
    · intro b s hbs
      have := h4 b s
      rw [if_neg hbs] at this
      exact this
  · intro hfull
    have key := insertLoop_dropped cfg (hash (cellOf cellSize photon.position)) photon
      cfg.mQuadraticProbeIterations 0 g (by intro j hj; simpa using hfull j hj)
    obtain ⟨h1, h2, h3, h4⟩ := key
    exact ⟨h1, h2, h4, h3⟩

/-- C2, the scenario: 2 buckets of capacity 2, photons A, B, C (tags 0, 1, 2)
all hashing to bucket 0.  A takes slot 0 and B slot 1 of bucket 0; C finds
bucket 0 full, probes bucket `(0+1) mod 2 = 1` and is stored there in slot 0
when that bucket has room; when bucket 1 is full as well (photons 3 and 4 went
there first) C is dropped and recorded as overflow. -/
theorem insertPhoton_scenario :
    ((insertAll scenarioConfig (constHash 0) 1 [Photon.tagged 0, Photon.tagged 1]
        (HashGrid.empty Photon)).slots 0 0 = some (Photon.tagged 0) ∧
     (insertAll scenarioConfig (constHash 0) 1 [Photon.tagged 0, Photon.tagged 1]
        (HashGrid.empty Photon)).slots 0 1 = some (Photon.tagged 1)) ∧
    ((insertPhoton scenarioConfig (constHash 0) 1 (Photon.tagged 2)
        (insertAll scenarioConfig (constHash 0) 1 [Photon.tagged 0, Photon.tagged 1]
          (HashGrid.empty Photon))).1 = InsertOutcome.stored 1 0 ∧
     (insertPhoton scenarioConfig (constHash 0) 1 (Photon.tagged 2)
        (insertAll scenarioConfig (constHash 0) 1 [Photon.tagged 0, Photon.tagged 1]
          (HashGrid.empty Photon))).2.slots 1 0 = some (Photon.tagged 2)) ∧
    ((insertPhoton scenarioConfig (constHash 0) 1 (Photon.tagged 2)
        (insertAll scenarioConfig (constHash 0) 1 [Photon.tagged 0, Photon.tagged 1]
          (insertAll scenarioConfig (constHash 1) 1 [Photon.tagged 3, Photon.tagged 4]
            (HashGrid.empty Photon)))).1 = InsertOutcome.dropped ∧
     (insertPhoton scenarioConfig (constHash 0) 1 (Photon.tagged 2)
        (insertAll scenarioConfig (constHash 0) 1 [Photon.tagged 0, Photon.tagged 1]
          (insertAll scenarioConfig (constHash 1) 1 [Photon.tagged 3, Photon.tagged 4]
            (HashGrid.empty Photon)))).2.overflow = 1) := by
  refine ⟨⟨by decide, by decide⟩, ?_, ?_⟩
  · have h := (insertPhoton_probe_sequence scenarioConfig (constHash 0) 1 (Photon.tagged 2)
      (insertAll scenarioConfig (constHash 0) 1 [Photon.tagged 0, Photon.tagged 1]
        (HashGrid.empty Photon))).1 1 (by decide) (by decide) (by decide)
    exact ⟨h.1, h.2.1⟩
  · have h := (insertPhoton_probe_sequence scenarioConfig (constHash 0) 1 (Photon.tagged 2)
      (insertAll scenarioConfig (constHash 0) 1 [Photon.tagged 0, Photon.tagged 1]
        (insertAll scenarioConfig (constHash 1) 1 [Photon.tagged 3, Photon.tagged 4]
          (HashGrid.empty Photon)))).2 (by decide)
    exact ⟨h.1, h.2.1⟩

/-! ### Concurrent insertion: the invariant -/

@[simp] theorem setPhase_phase {P : Type} (t : InsertTask P) (ph : TaskPhase) :
    (t.setPhase ph).phase = ph := rfl

@[simp] theorem setPhase_photon {P : Type} (t : InsertTask P) (ph : TaskPhase) :
    (t.setPhase ph).photon = t.photon := rfl

@[simp] theorem setPhase_baseHash {P : Type} (t : InsertTask P) (ph : TaskPhase) :
    (t.setPhase ph).baseHash = t.baseHash := rfl

theorem fetchInc_fst {P : Type} (g : HashGrid P) (b : Nat) : (g.fetchInc b).1 = g.counters b := rfl

theorem fetchInc_counters {P : Type} (g : HashGrid P) (b b' : Nat) :
    (g.fetchInc b).2.counters b' = if b' = b then g.counters b + 1 else g.counters b' := by
  simp only [HashGrid.fetchInc, Function.update_apply]

theorem fetchInc_counters_ge {P : Type} (g : HashGrid P) (b b' : Nat) :
    g.counters b' ≤ (g.fetchInc b).2.counters b' := by
  rw [fetchInc_counters]
  split
  · next h => subst h; omega
  · exact Nat.le_refl _

theorem fetchInc_slots {P : Type} (g : HashGrid P) (b : Nat) : (g.fetchInc b).2.slots = g.slots := rfl

theorem fetchInc_overflow {P : Type} (g : HashGrid P) (b : Nat) :
    (g.fetchInc b).2.overflow = g.overflow := rfl

theorem writeSlot_slots {P : Type} (g : HashGrid P) (b s b' s' : Nat) (p : P) :
    (g.writeSlot b s p).slots b' s' = if b' = b ∧ s' = s then some p else g.slots b' s' := by
  simp only [HashGrid.writeSlot, Function.update_apply]
  by_cases hb : b' = b
  · subst hb
    by_cases hs : s' = s
    · subst hs; simp
    · simp [hs]
  · simp [hb]

theorem claimSlots_middle {P : Type} (b : Nat) (l₁ l₂ : List (InsertTask P)) (t : InsertTask P) :
    claimSlots b (l₁ ++ t :: l₂)
      = claimSlots b l₁ ++ ((InsertTask.claimOf b t).toList ++ claimSlots b l₂) := by
  unfold claimSlots
  rw [List.filterMap_append, List.filterMap_cons]
  cases InsertTask.claimOf b t <;> simp

theorem claimSlots_congr_middle {P : Type} (b : Nat) (l₁ l₂ : List (InsertTask P))
    (t t' : InsertTask P) (h : InsertTask.claimOf b t' = InsertTask.claimOf b t) :
    claimSlots b (l₁ ++ t' :: l₂) = claimSlots b (l₁ ++ t :: l₂) := by
  rw [claimSlots_middle, claimSlots_middle, h]

theorem claimSlots_perm_new {P : Type} (b s : Nat) (l₁ l₂ : List (InsertTask P))
    (t t' : InsertTask P) (h : InsertTask.claimOf b t = none)
    (h' : InsertTask.claimOf b t' = some s) :
    (claimSlots b (l₁ ++ t' :: l₂)).Perm (s :: claimSlots b (l₁ ++ t :: l₂)) := by
  rw [claimSlots_middle, claimSlots_middle, h, h']
  simp only [Option.toList, List.nil_append, List.singleton_append]
  exact List.perm_middle

theorem mem_claimSlots {P : Type} (b s : Nat) (l : List (InsertTask P)) :
    s ∈ claimSlots b l ↔ ∃ t ∈ l, InsertTask.claimOf b t = some s := by
  unfold claimSlots
  rw [List.mem_filterMap]

theorem claimOf_stored {P : Type} (b s : Nat) (t : InsertTask P)
    (h : t.phase = TaskPhase.stored b s) : InsertTask.claimOf b t = some s := by
  simp [InsertTask.claimOf, h]

theorem claimOf_claimed {P : Type} (b s : Nat) (t : InsertTask P)
    (h : t.phase = TaskPhase.claimed b s) : InsertTask.claimOf b t = some s := by
  simp [InsertTask.claimOf, h]

/-- While the invariant holds, the slot a task has claimed and not yet written
is claimed by no other task. -/
theorem claim_unique {P : Type} (cfg : HashConfig) (g : HashGrid P)
    (l₁ l₂ : List (InsertTask P)) (t : InsertTask P) (b s : Nat)
    (hinv : GridInv cfg ⟨g, l₁ ++ t :: l₂⟩) (ht : InsertTask.claimOf b t = some s) :
    ∀ u, u ∈ l₁ ∨ u ∈ l₂ → InsertTask.claimOf b u ≠ some s := by
  intro u hu hcl
  have hnd : (claimSlots b (l₁ ++ t :: l₂)).Nodup :=
    (List.Perm.nodup_iff (hinv.claims b)).mpr (List.nodup_range _)
  rw [claimSlots_middle, ht] at hnd
  simp only [Option.toList, List.singleton_append] at hnd
  rw [List.nodup_append] at hnd
  obtain ⟨_, h2, h3⟩ := hnd
  rcases hu with hu | hu
  · have hs1 : s ∈ claimSlots b l₁ := (mem_claimSlots b s l₁).mpr ⟨u, hu, hcl⟩
    exact h3 hs1 (List.mem_cons_self _ _)
  · have hs2 : s ∈ claimSlots b l₂ := (mem_claimSlots b s l₂).mpr ⟨u, hu, hcl⟩
    rw [List.nodup_cons] at h2
    exact h2.1 hs2

/-- Invariant step, a probing task wins a slot. -/
theorem GridInv.step_claim {P : Type} (cfg : HashConfig) (g : HashGrid P)
    (l₁ l₂ : List (InsertTask P)) (t : InsertTask P) (i : Nat)
    (hinv : GridInv cfg ⟨g, l₁ ++ t :: l₂⟩) (hph : t.phase = TaskPhase.probing i)
    (hi : i < cfg.mQuadraticProbeIterations)
    (hroom : g.counters (probeBucket cfg t.baseHash i) < cfg.mNumPhotonsPerBucket) :
    GridInv cfg ⟨(g.fetchInc (probeBucket cfg t.baseHash i)).2,
      l₁ ++ t.setPhase (TaskPhase.claimed (probeBucket cfg t.baseHash i)
                (g.counters (probeBucket cfg t.baseHash i))) :: l₂⟩ := by
  have hnone : ∀ b, InsertTask.claimOf b t = none := by
    intro b; simp [InsertTask.claimOf, hph]
  refine ⟨?_, ?_, ?_, ?_, ?_, ?_⟩
  · intro b
    simp only
    by_cases hb : b = probeBucket cfg t.baseHash i
    · subst hb
      have hnew : InsertTask.claimOf (probeBucket cfg t.baseHash i)
          (t.setPhase (TaskPhase.claimed (probeBucket cfg t.baseHash i)
              (g.counters (probeBucket cfg t.baseHash i))))
          = some (g.counters (probeBucket cfg t.baseHash i)) := by
        simp [InsertTask.claimOf]
      have h1 := claimSlots_perm_new _ _ l₁ l₂ t _ (hnone _) hnew
      have h2 := hinv.claims (probeBucket cfg t.baseHash i)
      simp only at h2
      rw [fetchInc_counters, if_pos rfl]
      have e1 : min (g.counters (probeBucket cfg t.baseHash i)) cfg.mNumPhotonsPerBucket
          = g.counters (probeBucket cfg t.baseHash i) := by omega
      have e2 : min (g.counters (probeBucket cfg t.baseHash i) + 1) cfg.mNumPhotonsPerBucket
          = g.counters (probeBucket cfg t.baseHash i) + 1 := by omega
      rw [e1] at h2
      rw [e2, List.range_succ]
      refine h1.trans ?_
      refine (List.Perm.cons _ h2).trans ?_
      exact (List.perm_append_singleton _ _).symm
    · have hnew : InsertTask.claimOf b
          (t.setPhase (TaskPhase.claimed (probeBucket cfg t.baseHash i)
              (g.counters (probeBucket cfg t.baseHash i)))) = InsertTask.claimOf b t := by
        rw [hnone b]
        simp [InsertTask.claimOf, Ne.symm hb]
      rw [claimSlots_congr_middle b l₁ l₂ t _ hnew, fetchInc_counters, if_neg hb]
      exact hinv.claims b
  · intro b s p
    simp only [fetchInc_slots]
    rw [hinv.slots_iff b s p]
    simp only [List.mem_append, List.mem_cons]
    constructor
    · rintro ⟨u, hu, h1, h2⟩
      rcases hu with hu | hu | hu
      · exact ⟨u, Or.inl hu, h1, h2⟩
      · subst hu; rw [hph] at h1; cases h1
      · exact ⟨u, Or.inr (Or.inr hu), h1, h2⟩
    · rintro ⟨u, hu, h1, h2⟩
      rcases hu with hu | hu | hu
      · exact ⟨u, Or.inl hu, h1, h2⟩
      · subst hu; simp at h1
      · exact ⟨u, Or.inr (Or.inr hu), h1, h2⟩
  · have h := hinv.overflow_eq
    simp only [List.countP_append, List.countP_cons] at h ⊢
    rw [fetchInc_overflow, h]
    simp [InsertTask.isDropped, hph]
  · intro u hu k hk j hj
    simp only [List.mem_append, List.mem_cons] at hu
    refine Nat.le_trans ?_ (fetchInc_counters_ge _ _ _)
    rcases hu with hu | hu | hu
    · exact hinv.probed_full u (by simp [hu]) k hk j hj
    · subst hu; simp at hk
    · exact hinv.probed_full u (by simp [hu]) k hk j hj
  · intro u hu hk j hj
    simp only [List.mem_append, List.mem_cons] at hu
    refine Nat.le_trans ?_ (fetchInc_counters_ge _ _ _)
    rcases hu with hu | hu | hu
    · exact hinv.dropped_full u (by simp [hu]) hk j hj
    · subst hu; simp at hk
    · exact hinv.dropped_full u (by simp [hu]) hk j hj
  · intro u hu b s hk
    simp only [List.mem_append, List.mem_cons] at hu
    rcases hu with hu | hu | hu
    · exact hinv.on_sequence u (by simp [hu]) b s hk
    · subst hu
      simp only [setPhase_phase, TaskPhase.claimed.injEq, reduceCtorEq, or_false] at hk
      exact ⟨i, hi, hk.1.symm⟩
    · exact hinv.on_sequence u (by simp [hu]) b s hk

/-- Invariant step, a probing task finds its bucket full and moves on. -/
theorem GridInv.step_full {P : Type} (cfg : HashConfig) (g : HashGrid P)
    (l₁ l₂ : List (InsertTask P)) (t : InsertTask P) (i : Nat)
    (hinv : GridInv cfg ⟨g, l₁ ++ t :: l₂⟩) (hph : t.phase = TaskPhase.probing i)
    (hfull : ¬ g.counters (probeBucket cfg t.baseHash i) < cfg.mNumPhotonsPerBucket) :
    GridInv cfg ⟨(g.fetchInc (probeBucket cfg t.baseHash i)).2,
      l₁ ++ t.setPhase (TaskPhase.probing (i + 1)) :: l₂⟩ := by
  have hnone : ∀ b, InsertTask.claimOf b t = none := by
    intro b; simp [InsertTask.claimOf, hph]
  refine ⟨?_, ?_, ?_, ?_, ?_, ?_⟩
  · intro b
    simp only
    have hnew : InsertTask.claimOf b (t.setPhase (TaskPhase.probing (i + 1)))
        = InsertTask.claimOf b t := by
      rw [hnone b]; simp [InsertTask.claimOf]
    rw [claimSlots_congr_middle b l₁ l₂ t _ hnew, fetchInc_counters]
    have h2 := hinv.claims b
    simp only at h2
    by_cases hb : b = probeBucket cfg t.baseHash i
    · subst hb
      rw [if_pos rfl]
      have e : min (g.counters (probeBucket cfg t.baseHash i) + 1) cfg.mNumPhotonsPerBucket
          = min (g.counters (probeBucket cfg t.baseHash i)) cfg.mNumPhotonsPerBucket := by omega
      rw [e]; exact h2
    · rw [if_neg hb]; exact h2
  · intro b s p
    simp only [fetchInc_slots]
    rw [hinv.slots_iff b s p]
    simp only [List.mem_append, List.mem_cons]
    constructor
    · rintro ⟨u, hu, h1, h2⟩
      rcases hu with hu | hu | hu
      · exact ⟨u, Or.inl hu, h1, h2⟩
      · subst hu; rw [hph] at h1; cases h1
      · exact ⟨u, Or.inr (Or.inr hu), h1, h2⟩
    · rintro ⟨u, hu, h1, h2⟩
      rcases hu with hu | hu | hu
      · exact ⟨u, Or.inl hu, h1, h2⟩
      · subst hu; simp at h1
      · exact ⟨u, Or.inr (Or.inr hu), h1, h2⟩
  · have h := hinv.overflow_eq
    simp only [List.countP_append, List.countP_cons] at h ⊢
    rw [fetchInc_overflow, h]
    simp [InsertTask.isDropped, hph]
  · intro u hu k hk j hj
    simp only [List.mem_append, List.mem_cons] at hu
    rcases hu with hu | hu | hu
    · exact Nat.le_trans (hinv.probed_full u (by simp [hu]) k hk j hj) (fetchInc_counters_ge _ _ _)
    · subst hu
      simp only [setPhase_phase, TaskPhase.probing.injEq] at hk
      subst hk
      simp only [setPhase_baseHash]
      by_cases hji : j = i
      · subst hji
        rw [fetchInc_counters, if_pos rfl]
        omega
      · exact Nat.le_trans (hinv.probed_full t (by simp) i hph j (by omega))
          (fetchInc_counters_ge _ _ _)
    · exact Nat.le_trans (hinv.probed_full u (by simp [hu]) k hk j hj) (fetchInc_counters_ge _ _ _)
  · intro u hu hk j hj
    simp only [List.mem_append, List.mem_cons] at hu
    refine Nat.le_trans ?_ (fetchInc_counters_ge _ _ _)
    rcases hu with hu | hu | hu
    · exact hinv.dropped_full u (by simp [hu]) hk j hj
    · subst hu; simp at hk
    · exact hinv.dropped_full u (by simp [hu]) hk j hj
  · intro u hu b s hk
    simp only [List.mem_append, List.mem_cons] at hu
    rcases hu with hu | hu | hu
    · exact hinv.on_sequence u (by simp [hu]) b s hk
    · subst hu; simp at hk
    · exact hinv.on_sequence u (by simp [hu]) b s hk

/-- Invariant step, a task whose probe steps are exhausted drops its photon. -/
theorem GridInv.step_drop {P : Type} (cfg : HashConfig) (g : HashGrid P)
    (l₁ l₂ : List (InsertTask P)) (t : InsertTask P) (i : Nat)
    (hinv : GridInv cfg ⟨g, l₁ ++ t :: l₂⟩) (hph : t.phase = TaskPhase.probing i)
    (hi : ¬ i < cfg.mQuadraticProbeIterations) :
    GridInv cfg ⟨g.countOverflow, l₁ ++ t.setPhase TaskPhase.dropped :: l₂⟩ := by
  have hnone : ∀ b, InsertTask.claimOf b t = none := by
    intro b; simp [InsertTask.claimOf, hph]
  refine ⟨?_, ?_, ?_, ?_, ?_, ?_⟩
  · intro b
    have hnew : InsertTask.claimOf b (t.setPhase TaskPhase.dropped) = InsertTask.claimOf b t := by
      rw [hnone b]; simp [InsertTask.claimOf]
    simp only
    rw [claimSlots_congr_middle b l₁ l₂ t _ hnew]
    exact hinv.claims b
  · intro b s p
    have h0 : (g.countOverflow).slots = g.slots := rfl
    simp only [h0]
    rw [hinv.slots_iff b s p]
    simp only [List.mem_append, List.mem_cons]
    constructor
    · rintro ⟨u, hu, h1, h2⟩
      rcases hu with hu | hu | hu
      · exact ⟨u, Or.inl hu, h1, h2⟩
      · subst hu; rw [hph] at h1; cases h1
      · exact ⟨u, Or.inr (Or.inr hu), h1, h2⟩
    · rintro ⟨u, hu, h1, h2⟩
      rcases hu with hu | hu | hu
      · exact ⟨u, Or.inl hu, h1, h2⟩
      · subst hu; simp at h1
      · exact ⟨u, Or.inr (Or.inr hu), h1, h2⟩
  · have h := hinv.overflow_eq
    simp only [List.countP_append, List.countP_cons] at h ⊢
    have h0 : (g.countOverflow).overflow = g.overflow + 1 := rfl
    rw [h0, h]
    simp [InsertTask.isDropped, hph]
    omega
  · intro u hu k hk j hj
    simp only [List.mem_append, List.mem_cons] at hu
    have h0 : (g.countOverflow).counters = g.counters := rfl
    simp only [h0]
    rcases hu with hu | hu | hu
    · exact hinv.probed_full u (by simp [hu]) k hk j hj
    · subst hu; simp at hk
    · exact hinv.probed_full u (by simp [hu]) k hk j hj
  · intro u hu hk j hj
    simp only [List.mem_append, List.mem_cons] at hu
    have h0 : (g.countOverflow).counters = g.counters := rfl
    simp only [h0]
    rcases hu with hu | hu | hu
    · exact hinv.dropped_full u (by simp [hu]) hk j hj
    · subst hu
      simp only [setPhase_baseHash]
      exact hinv.probed_full t (by simp) i hph j (by omega)
    · exact hinv.dropped_full u (by simp [hu]) hk j hj
  · intro u hu b s hk
    simp only [List.mem_append, List.mem_cons] at hu
    rcases hu with hu | hu | hu
    · exact hinv.on_sequence u (by simp [hu]) b s hk
    · subst hu; simp at hk
    · exact hinv.on_sequence u (by simp [hu]) b s hk

/-- While the invariant holds, the slot a task has claimed and not yet written
is empty: the write that follows overwrites nothing. -/
theorem GridInv.claimed_slot_empty {P : Type} (cfg : HashConfig) (g : HashGrid P)
    (l₁ l₂ : List (InsertTask P)) (t : InsertTask P) (b s : Nat)
    (hinv : GridInv cfg ⟨g, l₁ ++ t :: l₂⟩) (hph : t.phase = TaskPhase.claimed b s) :
    g.slots b s = none := by
  cases hsl : g.slots b s with
  | none => rfl
  | some p =>
    exfalso
    obtain ⟨u, hu, h1, _⟩ := (hinv.slots_iff b s p).mp hsl
    simp only [List.mem_append, List.mem_cons] at hu
    have huniq := claim_unique cfg g l₁ l₂ t b s hinv (claimOf_claimed b s t hph)
    rcases hu with hu | hu | hu
    · exact huniq u (Or.inl hu) (claimOf_stored b s u h1)
    · subst hu; rw [hph] at h1; cases h1
    · exact huniq u (Or.inr hu) (claimOf_stored b s u h1)

/-- Invariant step, a task writes its photon into the slot it claimed. -/
theorem GridInv.step_write {P : Type} (cfg : HashConfig) (g : HashGrid P)
    (l₁ l₂ : List (InsertTask P)) (t : InsertTask P) (b s : Nat)
    (hinv : GridInv cfg ⟨g, l₁ ++ t :: l₂⟩) (hph : t.phase = TaskPhase.claimed b s) :
    GridInv cfg ⟨g.writeSlot b s t.photon, l₁ ++ t.setPhase (TaskPhase.stored b s) :: l₂⟩ := by
  have hcounters : (g.writeSlot b s t.photon).counters = g.counters := rfl
  refine ⟨?_, ?_, ?_, ?_, ?_, ?_⟩
  · intro b'
    have hnew : InsertTask.claimOf b' (t.setPhase (TaskPhase.stored b s))
        = InsertTask.claimOf b' t := by
      simp [InsertTask.claimOf, hph]
    simp only [hcounters]
    rw [claimSlots_congr_middle b' l₁ l₂ t _ hnew]
    exact hinv.claims b'
  · intro b' s' p
    simp only
    rw [writeSlot_slots]
    simp only [List.mem_append, List.mem_cons]
    have huniq := claim_unique cfg g l₁ l₂ t b s hinv (claimOf_claimed b s t hph)
    by_cases hbs : b' = b ∧ s' = s
    · obtain ⟨hb, hs⟩ := hbs
      subst hb; subst hs
      rw [if_pos ⟨rfl, rfl⟩]
      constructor
      · intro hp
        refine ⟨t.setPhase (TaskPhase.stored b' s'), Or.inr (Or.inl rfl), by simp, ?_⟩
        simpa using hp
      · rintro ⟨u, hu, h1, h2⟩
        rcases hu with hu | hu | hu
        · exact absurd (claimOf_stored b' s' u h1) (huniq u (Or.inl hu))
        · subst hu; simpa using h2
        · exact absurd (claimOf_stored b' s' u h1) (huniq u (Or.inr hu))
    · rw [if_neg hbs, hinv.slots_iff b' s' p]
      simp only [List.mem_append, List.mem_cons]
      constructor
      · rintro ⟨u, hu, h1, h2⟩
        rcases hu with hu | hu | hu
        · exact ⟨u, Or.inl hu, h1, h2⟩
        · subst hu; rw [hph] at h1; cases h1
        · exact ⟨u, Or.inr (Or.inr hu), h1, h2⟩
      · rintro ⟨u, hu, h1, h2⟩
        rcases hu with hu | hu | hu
        · exact ⟨u, Or.inl hu, h1, h2⟩
        · subst hu
          simp only [setPhase_phase, TaskPhase.stored.injEq] at h1
          exact absurd ⟨h1.1.symm, h1.2.symm⟩ hbs
        · exact ⟨u, Or.inr (Or.inr hu), h1, h2⟩
  · have h := hinv.overflow_eq
    simp only [List.countP_append, List.countP_cons] at h ⊢
    have h0 : (g.writeSlot b s t.photon).overflow = g.overflow := rfl
    rw [h0, h]
    simp [InsertTask.isDropped, hph]
  · intro u hu k hk j hj
    simp only [List.mem_append, List.mem_cons] at hu
    simp only [hcounters]
    rcases hu with hu | hu | hu
    · exact hinv.probed_full u (by simp [hu]) k hk j hj
    · subst hu; simp at hk
    · exact hinv.probed_full u (by simp [hu]) k hk j hj
  · intro u hu hk j hj
    simp only [List.mem_append, List.mem_cons] at hu
    simp only [hcounters]
    rcases hu with hu | hu | hu
    · exact hinv.dropped_full u (by simp [hu]) hk j hj
    · subst hu; simp at hk
    · exact hinv.dropped_full u (by simp [hu]) hk j hj
  · intro u hu b' s' hk
    simp only [List.mem_append, List.mem_cons] at hu
    rcases hu with hu | hu | hu
    · exact hinv.on_sequence u (by simp [hu]) b' s' hk
    · subst hu
      simp only [setPhase_phase, reduceCtorEq, TaskPhase.stored.injEq, false_or] at hk
      obtain ⟨hb, hs⟩ := hk
      subst hb; subst hs
      simpa using hinv.on_sequence t (by simp) b s (Or.inl hph)
    · exact hinv.on_sequence u (by simp [hu]) b' s' hk

/-- One atomic action of the task in the middle of the list keeps the invariant. -/
theorem GridInv.stepTask_middle {P : Type} (cfg : HashConfig) (g : HashGrid P)
    (l₁ l₂ : List (InsertTask P)) (t : InsertTask P)
    (hinv : GridInv cfg ⟨g, l₁ ++ t :: l₂⟩) :
    GridInv cfg ⟨(stepTask cfg g t).1, l₁ ++ (stepTask cfg g t).2 :: l₂⟩ := by
  cases hph : t.phase with
  | probing i =>
    by_cases hi : i < cfg.mQuadraticProbeIterations
    · by_cases hroom : g.counters (probeBucket cfg t.baseHash i) < cfg.mNumPhotonsPerBucket
      · have e : stepTask cfg g t = ((g.fetchInc (probeBucket cfg t.baseHash i)).2,
            t.setPhase (TaskPhase.claimed (probeBucket cfg t.baseHash i)
              (g.counters (probeBucket cfg t.baseHash i)))) := by
          simp only [stepTask, hph, hi, if_true, fetchInc_fst, hroom]
        rw [e]
        exact GridInv.step_claim cfg g l₁ l₂ t i hinv hph hi hroom
      · have e : stepTask cfg g t = ((g.fetchInc (probeBucket cfg t.baseHash i)).2,
            t.setPhase (TaskPhase.probing (i + 1))) := by
          simp only [stepTask, hph, hi, if_true, fetchInc_fst, hroom, if_false]
        rw [e]
        exact GridInv.step_full cfg g l₁ l₂ t i hinv hph hroom
    · have e : stepTask cfg g t = (g.countOverflow, t.setPhase TaskPhase.dropped) := by
        simp only [stepTask, hph, hi, if_false]
      rw [e]
      exact GridInv.step_drop cfg g l₁ l₂ t i hinv hph hi
  | claimed b s =>
    have e : stepTask cfg g t = (g.writeSlot b s t.photon, t.setPhase (TaskPhase.stored b s)) := by
      simp only [stepTask, hph]
    rw [e]
    exact GridInv.step_write cfg g l₁ l₂ t b s hinv hph
  | stored b s =>
    have e : stepTask cfg g t = (g, t) := by simp only [stepTask, hph]
    rw [e]; exact hinv
  | dropped =>
    have e : stepTask cfg g t = (g, t) := by simp only [stepTask, hph]
    rw [e]; exact hinv

theorem tasks_split {P : Type} (ts : List (InsertTask P)) (n : Nat) (task : InsertTask P)
    (h : ts[n]? = some task) :
    ts = ts.take n ++ task :: ts.drop (n + 1) ∧
    ∀ x, ts.set n x = ts.take n ++ x :: ts.drop (n + 1) := by
  obtain ⟨hlt, hget⟩ := List.getElem?_eq_some.mp h
  constructor
  · have h1 := List.take_append_drop n ts
    have h2 := List.drop_eq_getElem_cons (l := ts) hlt
    rw [hget] at h2
    rw [← h2]
    exact h1.symm
  · intro x
    rw [List.set_eq_take_append_cons_drop, if_pos hlt]

/-- Any atomic action of any task keeps the invariant. -/
theorem GridInv.step {P : Type} (cfg : HashConfig) (st : InsertSystem P) (n : Nat)
    (hinv : GridInv cfg st) : GridInv cfg (st.step cfg n) := by
  unfold InsertSystem.step
  cases hget : st.tasks[n]? with
  | none => exact hinv
  | some task =>
    obtain ⟨h1, h2⟩ := tasks_split st.tasks n task hget
    simp only
    rw [h2]
    apply GridInv.stepTask_middle
    rw [← h1]
    exact hinv

/-- Every interleaving keeps the invariant. -/
theorem GridInv.run {P : Type} (cfg : HashConfig) (sched : List Nat) :
    ∀ (st : InsertSystem P), GridInv cfg st → GridInv cfg (st.run cfg sched) := by
  induction sched with
  | nil => intro st h; exact h
  | cons n rest ih =>
    intro st h
    exact ih (st.step cfg n) (GridInv.step cfg st n h)

/-- The invariant holds when the insertion phase starts. -/
theorem GridInv.init {P : Type} (cfg : HashConfig) (photons : List (P × Nat)) :
    GridInv cfg (InsertSystem.init photons) := by
  have hph : ∀ t ∈ (InsertSystem.init photons).tasks, t.phase = TaskPhase.probing 0 := by
    intro t ht
    simp only [InsertSystem.init, List.mem_map] at ht
    obtain ⟨ph, _, rfl⟩ := ht
    rfl
  have hcl : ∀ b, claimSlots b (InsertSystem.init photons).tasks = [] := by
    intro b
    unfold claimSlots
    rw [List.filterMap_eq_nil_iff]
    intro t ht
    simp [InsertTask.claimOf, hph t ht]
  refine ⟨?_, ?_, ?_, ?_, ?_, ?_⟩
  · intro b
    rw [hcl b]
    simp [InsertSystem.init, HashGrid.empty]
  · intro b s p
    constructor
    · intro h; simp [InsertSystem.init, HashGrid.empty] at h
    · rintro ⟨t, ht, h1, _⟩
      rw [hph t ht] at h1; cases h1
  · have h0 : (InsertSystem.init photons).grid.overflow = 0 := rfl
    rw [h0]
    symm
    rw [List.countP_eq_zero]
    intro t ht
    simp [InsertTask.isDropped, hph t ht]
  · intro t ht i hi j hj
    rw [hph t ht] at hi
    simp only [TaskPhase.probing.injEq] at hi
    omega
  · intro t ht hd
    rw [hph t ht] at hd; cases hd
  · intro t ht b s hk
    rw [hph t ht] at hk
    rcases hk with hk | hk <;> cases hk

theorem run_append {P : Type} (cfg : HashConfig) (st : InsertSystem P) (pre post : List Nat) :
    st.run cfg (pre ++ post) = (st.run cfg pre).run cfg post := by
  simp [InsertSystem.run, List.foldl_append]

/-- One atomic action never changes a slot that holds a photon. -/
theorem step_slots_keep {P : Type} (cfg : HashConfig) (st : InsertSystem P) (n : Nat)
    (hinv : GridInv cfg st) (b s : Nat) (p : P) (h : st.grid.slots b s = some p) :
    (st.step cfg n).grid.slots b s = some p := by
  unfold InsertSystem.step
  cases hget : st.tasks[n]? with
  | none => exact h
  | some task =>
    obtain ⟨h1, _⟩ := tasks_split st.tasks n task hget
    simp only
    cases hph : task.phase with
    | probing i =>
      by_cases hi : i < cfg.mQuadraticProbeIterations
      · by_cases hroom : (st.grid.fetchInc (probeBucket cfg task.baseHash i)).1
            < cfg.mNumPhotonsPerBucket
        · simp only [stepTask, hph, hi, if_true, hroom, fetchInc_slots]; exact h
        · simp only [stepTask, hph, hi, if_true, hroom, if_false, fetchInc_slots]; exact h
      · simp only [stepTask, hph, hi, if_false]; exact h
    | claimed b' s' =>
      have hinv' : GridInv cfg ⟨st.grid, st.tasks.take n ++ task :: st.tasks.drop (n + 1)⟩ := by
        rw [← h1]; exact hinv
      have hempty := GridInv.claimed_slot_empty cfg st.grid _ _ task b' s' hinv' hph
      simp only [stepTask, hph]
      rw [writeSlot_slots]
      have hne : ¬ (b = b' ∧ s = s') := by
        rintro ⟨rfl, rfl⟩
        rw [hempty] at h; cases h
      rw [if_neg hne]; exact h
    | stored b' s' => simp only [stepTask, hph]; exact h
    | dropped => simp only [stepTask, hph]; exact h

/-- No interleaving ever changes a slot that holds a photon. -/
theorem run_slots_keep {P : Type} (cfg : HashConfig) (sched : List Nat) :
    ∀ (st : InsertSystem P), GridInv cfg st → ∀ (b s : Nat) (p : P),
      st.grid.slots b s = some p → (st.run cfg sched).grid.slots b s = some p := by
  induction sched with
  | nil => intro st _ b s p h; exact h
  | cons n rest ih =>
    intro st hinv b s p h
    exact ih (st.step cfg n) (GridInv.step cfg st n hinv) b s p
      (step_slots_keep cfg st n hinv b s p h)

theorem stepTask_keeps_key {P : Type} (cfg : HashConfig) (g : HashGrid P) (t : InsertTask P) :
    (stepTask cfg g t).2.photon = t.photon ∧ (stepTask cfg g t).2.baseHash = t.baseHash := by
  unfold stepTask
  split
  · split
    · split <;> exact ⟨rfl, rfl⟩
    · exact ⟨rfl, rfl⟩
  · exact ⟨rfl, rfl⟩
  · exact ⟨rfl, rfl⟩
  · exact ⟨rfl, rfl⟩

/-- The tasks keep their photon and base hash, in the same order. -/
theorem step_keeps_keys {P : Type} (cfg : HashConfig) (st : InsertSystem P) (n : Nat) :
    (st.step cfg n).tasks.map (fun t => (t.photon, t.baseHash))
      = st.tasks.map (fun t => (t.photon, t.baseHash)) := by
  unfold InsertSystem.step
  cases hget : st.tasks[n]? with
  | none => rfl
  | some task =>
    obtain ⟨h1, h2⟩ := tasks_split st.tasks n task hget
    simp only
    rw [h2]
    conv_rhs => rw [h1]
    simp only [List.map_append, List.map_cons]
    rw [(stepTask_keeps_key cfg st.grid task).1, (stepTask_keeps_key cfg st.grid task).2]

theorem run_keeps_keys {P : Type} (cfg : HashConfig) (sched : List Nat) :
    ∀ (st : InsertSystem P), (st.run cfg sched).tasks.map (fun t => (t.photon, t.baseHash))
      = st.tasks.map (fun t => (t.photon, t.baseHash)) := by
  induction sched with
  | nil => intro st; rfl
  | cons n rest ih =>
    intro st
    exact (ih (st.step cfg n)).trans (step_keeps_keys cfg st n)

theorem init_keys {P : Type} (photons : List (P × Nat)) :
    (InsertSystem.init photons).tasks.map (fun t => (t.photon, t.baseHash)) = photons := by
  simp [InsertSystem.init, List.map_map, Function.comp_def]

theorem length_filterMap_add_countP {α β : Type} (f : α → Option β) (l : List α) :
    (l.filterMap f).length + l.countP (fun a => (f a).isNone) = l.length := by
  induction l with
  | nil => rfl
  | cons a l ih =>
    rw [List.filterMap_cons, List.countP_cons]
    cases hfa : f a with
    | none => simp only [Option.isNone_none, if_true, List.length_cons]; omega
    | some v => simp [List.length_cons]; omega

theorem mem_storedSlots {P : Type} (b s : Nat) (l : List (InsertTask P)) :
    s ∈ storedSlots b l ↔ ∃ t ∈ l, t.phase = TaskPhase.stored b s := by
  unfold storedSlots
  rw [List.mem_filterMap]
  constructor
  · rintro ⟨t, ht, h⟩
    refine ⟨t, ht, ?_⟩
    unfold InsertTask.storedAt at h
    split at h
    · next b' s' hph =>
      split at h
      · next hb => subst hb; simp only [Option.some.injEq] at h; subst h; exact hph
      · cases h
    · cases h
  · rintro ⟨t, ht, h⟩
    exact ⟨t, ht, by simp [InsertTask.storedAt, h]⟩

/-! ### Concurrent insertion: every interleaving can be completed -/

theorem finished_iff_remaining {P : Type} (cfg : HashConfig) (t : InsertTask P) :
    t.finished = true ↔ t.remaining cfg = 0 := by
  unfold InsertTask.finished InsertTask.remaining
  cases t.phase <;> simp

theorem stepTask_remaining {P : Type} (cfg : HashConfig) (g : HashGrid P) (t : InsertTask P)
    (h : t.remaining cfg ≠ 0) : (stepTask cfg g t).2.remaining cfg < t.remaining cfg := by
  unfold InsertTask.remaining at h ⊢
  cases hph : t.phase with
  | probing i =>
    by_cases hi : i < cfg.mQuadraticProbeIterations
    · by_cases hroom : (g.fetchInc (probeBucket cfg t.baseHash i)).1 < cfg.mNumPhotonsPerBucket
      · simp only [stepTask, hph, hi, if_true, hroom, setPhase_phase]; omega
      · simp only [stepTask, hph, hi, if_true, hroom, if_false, setPhase_phase]; omega
    · simp only [stepTask, hph, hi, if_false, setPhase_phase]; omega
  | claimed b s => simp only [stepTask, hph, setPhase_phase]; omega
  | stored b s => simp [hph] at h
  | dropped => simp [hph] at h

/-- From every state some interleaving lets every task finish. -/
theorem exists_complete_schedule {P : Type} (cfg : HashConfig) :
    ∀ (m : Nat) (st : InsertSystem P), totalRemaining cfg st.tasks = m →
      ∃ sched, ∀ t ∈ (st.run cfg sched).tasks, t.finished = true := by
  intro m
  induction m using Nat.strong_induction_on with
  | _ m ih =>
    intro st hm
    by_cases hall : ∀ t ∈ st.tasks, t.finished = true
    · exact ⟨[], hall⟩
    · push_neg at hall
      obtain ⟨t, ht, hunf⟩ := hall
      obtain ⟨n, hn⟩ := List.mem_iff_getElem?.mp ht
      obtain ⟨h1, h2⟩ := tasks_split st.tasks n t hn
      have hrem : t.remaining cfg ≠ 0 := by
        intro h0
        exact hunf ((finished_iff_remaining cfg t).mpr h0)
      have hstep : (st.step cfg n).tasks
          = st.tasks.take n ++ (stepTask cfg st.grid t).2 :: st.tasks.drop (n + 1) := by
        unfold InsertSystem.step
        rw [hn]
        exact h2 _
      have hlt : totalRemaining cfg (st.step cfg n).tasks < m := by
        rw [← hm, hstep]
        conv_rhs => rw [h1]
        unfold totalRemaining
        simp only [List.map_append, List.map_cons, List.sum_append, List.sum_cons]
        have := stepTask_remaining cfg st.grid t hrem
        omega
      obtain ⟨sched, hsched⟩ := ih _ hlt (st.step cfg n) rfl
      exact ⟨n :: sched, hsched⟩

/-- The state in which every task has finished and every probe of every task
went to bucket `b`. -/
theorem single_bucket_final {P : Type} (cfg : HashConfig) (F : InsertSystem P) (b N : Nat)
    (hinv : GridInv cfg F) (hlen : F.tasks.length = N)
    (hprobe : 0 < cfg.mQuadraticProbeIterations)
    (htarget : ∀ t ∈ F.tasks, ∀ i, i < cfg.mQuadraticProbeIterations →
      probeBucket cfg t.baseHash i = b)
    (hdone : ∀ t ∈ F.tasks, t.finished = true) :
    (storedSlots b F.tasks).Perm (List.range (min N cfg.mNumPhotonsPerBucket)) ∧
    F.grid.overflow = N - cfg.mNumPhotonsPerBucket ∧
    F.tasks.countP InsertTask.isDropped = N - cfg.mNumPhotonsPerBucket ∧
    (∀ s, (F.grid.slots b s).isSome ↔ s < min N cfg.mNumPhotonsPerBucket) := by
  -- finished tasks: a claim is a written slot
  have hcs : claimSlots b F.tasks = storedSlots b F.tasks := by
    unfold claimSlots storedSlots
    apply List.filterMap_congr
    intro t ht
    have hf := hdone t ht
    unfold InsertTask.finished at hf
    unfold InsertTask.claimOf InsertTask.storedAt
    cases hph : t.phase with
    | probing i => simp [hph] at hf
    | claimed b' s' => simp [hph] at hf
    | stored b' s' => simp
    | dropped => simp
  -- a finished task either wrote into bucket `b` or dropped its photon
  have hnone : ∀ t ∈ F.tasks, (InsertTask.storedAt b t).isNone = t.isDropped := by
    intro t ht
    have hf := hdone t ht
    unfold InsertTask.finished at hf
    unfold InsertTask.storedAt InsertTask.isDropped
    cases hph : t.phase with
    | probing i => simp [hph] at hf
    | claimed b' s' => simp [hph] at hf
    | stored b' s' =>
      obtain ⟨i, hi, hb⟩ := hinv.on_sequence t ht b' s' (Or.inr hph)
      have hbb : b' = b := by rw [hb]; exact htarget t ht i hi
      simp [hbb]
    | dropped => rfl
  have hperm := hinv.claims b
  rw [hcs] at hperm
  have hcount : (storedSlots b F.tasks).length + F.tasks.countP InsertTask.isDropped = N := by
    have h := length_filterMap_add_countP (InsertTask.storedAt b) F.tasks
    have hc : F.tasks.countP (fun a => (InsertTask.storedAt b a).isNone)
        = F.tasks.countP InsertTask.isDropped := by
      apply List.countP_congr
      intro t ht
      rw [hnone t ht]
    unfold storedSlots
    rw [← hc, h, hlen]
  have hlenperm : (storedSlots b F.tasks).length
      = min (F.grid.counters b) cfg.mNumPhotonsPerBucket := by
    rw [hperm.length_eq, List.length_range]
  have hmin : min (F.grid.counters b) cfg.mNumPhotonsPerBucket
      = min N cfg.mNumPhotonsPerBucket := by
    rcases Nat.eq_zero_or_pos (F.tasks.countP InsertTask.isDropped) with h0 | hpos
    · omega
    · obtain ⟨t, ht, hd⟩ := List.countP_pos_iff.mp hpos
      have hdph : t.phase = TaskPhase.dropped := by
        unfold InsertTask.isDropped at hd
        cases hph : t.phase with
        | dropped => rfl
        | probing i => simp [hph] at hd
        | claimed b' s' => simp [hph] at hd
        | stored b' s' => simp [hph] at hd
      have hfull := hinv.dropped_full t ht hdph 0 hprobe
      rw [htarget t ht 0 hprobe] at hfull
      omega
  rw [hmin] at hperm
  have hov := hinv.overflow_eq
  refine ⟨hperm, by omega, by omega, ?_⟩
  intro s
  rw [← List.mem_range, ← hperm.mem_iff, mem_storedSlots]
  constructor
  · intro h
    obtain ⟨p, hp⟩ := Option.isSome_iff_exists.mp h
    obtain ⟨t, ht, h1, _⟩ := (hinv.slots_iff b s p).mp hp
    exact ⟨t, ht, h1⟩
  · rintro ⟨t, ht, h1⟩
    have := (hinv.slots_iff b s t.photon).mpr ⟨t, ht, h1, rfl⟩
    rw [this]; rfl

/-- C1: photon insertions run from the empty grid in any interleaving `sched`
of their atomic actions (fetch-and-increment, slot write, overflow count).
At every point of every interleaving a bucket holds photons only at slot
indices below `K` (and below its counter), so never more than `K`; a slot that
holds a photon is never changed by anything that follows; and the interleaving
can always be continued until every insertion has finished.  When the `N`
insertions all target the one bucket `b` (every probe step of each goes to
`b`, and there is at least one probe step) and all have finished: the written
slots of `b` are exactly `0 .. min(N,K)-1`, one insertion per slot (the list
of written slots is a permutation of that range, so exactly `min(N,K)` photons
are stored); a slot of `b` holds a photon exactly when its index is below
`min(N,K)`, and the photon is the one of the insertion that wrote there; and
the remaining `N - K` insertions (`0` when `N ≤ K`) are the ones that dropped
their photon and were counted as overflow. -/
theorem bucket_insertion_any_interleaving {P : Type} (cfg : HashConfig)
    (photons : List (P × Nat)) (sched : List Nat) :
    (∀ b s, (((InsertSystem.init photons).run cfg sched).grid.slots b s).isSome →
      s < cfg.mNumPhotonsPerBucket ∧
      s < ((InsertSystem.init photons).run cfg sched).grid.counters b) ∧
    (∀ more b s p, ((InsertSystem.init photons).run cfg sched).grid.slots b s = some p →
      ((InsertSystem.init photons).run cfg (sched ++ more)).grid.slots b s = some p) ∧
    (∃ more, ∀ t ∈ ((InsertSystem.init photons).run cfg (sched ++ more)).tasks,
      t.finished = true) ∧
    (∀ b, 0 < cfg.mQuadraticProbeIterations →
      (∀ ph ∈ photons, ∀ i, i < cfg.mQuadraticProbeIterations → probeBucket cfg ph.2 i = b) →
      (∀ t ∈ ((InsertSystem.init photons).run cfg sched).tasks, t.finished = true) →
      (storedSlots b ((InsertSystem.init photons).run cfg sched).tasks).Perm
        (List.range (min photons.length cfg.mNumPhotonsPerBucket)) ∧
      (∀ s, (((InsertSystem.init photons).run cfg sched).grid.slots b s).isSome
        ↔ s < min photons.length cfg.mNumPhotonsPerBucket) ∧
      (∀ s p, ((InsertSystem.init photons).run cfg sched).grid.slots b s = some p ↔
        ∃ t ∈ ((InsertSystem.init photons).run cfg sched).tasks,
          t.phase = TaskPhase.stored b s ∧ t.photon = p) ∧
      ((InsertSystem.init photons).run cfg sched).grid.overflow
        = photons.length - cfg.mNumPhotonsPerBucket ∧
      ((InsertSystem.init photons).run cfg sched).tasks.countP InsertTask.isDropped
        = photons.length - cfg.mNumPhotonsPerBucket) := by
  have hinv := GridInv.run cfg sched _ (GridInv.init cfg photons)
  refine ⟨?_, ?_, ?_, ?_⟩
  · intro b s hsome
    obtain ⟨p, hp⟩ := Option.isSome_iff_exists.mp hsome
    obtain ⟨t, ht, hph, _⟩ := (hinv.slots_iff b s p).mp hp
    have hmem : s ∈ claimSlots b ((InsertSystem.init photons).run cfg sched).tasks :=
      (mem_claimSlots b s _).mpr ⟨t, ht, claimOf_stored b s t hph⟩
    have := (hinv.claims b).mem_iff.mp hmem
    rw [List.mem_range] at this
    omega
  · intro more b s p hp
    rw [run_append]
    exact run_slots_keep cfg more _ hinv b s p hp
  · obtain ⟨more, hmore⟩ := exists_complete_schedule cfg _
      ((InsertSystem.init photons).run cfg sched) rfl
    exact ⟨more, by rw [run_append]; exact hmore⟩
  · intro b hprobe htarget hdone
    have hkeys := (run_keeps_keys cfg sched (InsertSystem.init photons)).trans (init_keys photons)
    have hlen : ((InsertSystem.init photons).run cfg sched).tasks.length = photons.length := by
      have := congrArg List.length hkeys
      simpa using this
    have htarget' : ∀ t ∈ ((InsertSystem.init photons).run cfg sched).tasks,
        ∀ i, i < cfg.mQuadraticProbeIterations → probeBucket cfg t.baseHash i = b := by
      intro t ht i hi
      have hmem : (t.photon, t.baseHash) ∈ photons := by
        rw [← hkeys]
        exact List.mem_map.mpr ⟨t, ht, rfl⟩
      exact htarget _ hmem i hi
    obtain ⟨h1, h2, h3, h4⟩ := single_bucket_final cfg _ b photons.length hinv hlen hprobe
      htarget' hdone
    exact ⟨h1, h4, hinv.slots_iff b, h2, h3⟩

/-- C1 at a concrete input: capacity 2, three insertions (photons 10, 11, 12)
into bucket 0, interleaved so that all three fetch-and-increment before any of
them writes: slots 0 and 1 are written, one insertion is counted as overflow. -/
theorem bucket_insertion_witness :
    (storedSlots 0 ((InsertSystem.init [(10, 0), (11, 0), (12, 0)]).run oneProbeConfig
        [0, 1, 2, 2, 1, 0]).tasks).Perm (List.range 2) ∧
    ((InsertSystem.init [(10, 0), (11, 0), (12, 0)]).run oneProbeConfig
        [0, 1, 2, 2, 1, 0]).grid.overflow = 1 ∧
    ((InsertSystem.init [(10, 0), (11, 0), (12, 0)]).run oneProbeConfig
        [0, 1, 2, 2, 1, 0]).grid.slots 0 1 = some 11 := by
  have h := (bucket_insertion_any_interleaving oneProbeConfig
    [((10 : Nat), 0), (11, 0), (12, 0)] [0, 1, 2, 2, 1, 0]).2.2.2 0
    (by decide) (by decide) (by decide)
  exact ⟨h.1, h.2.2.2.1, by decide⟩

/-! ### One task run alone is the sequential insertion -/

theorem step_single {P : Type} (cfg : HashConfig) (g : HashGrid P) (t : InsertTask P) :
    InsertSystem.step cfg ⟨g, [t]⟩ 0 = ⟨(stepTask cfg g t).1, [(stepTask cfg g t).2]⟩ := rfl

theorem run_finished_single {P : Type} (cfg : HashConfig) (g : HashGrid P) (t : InsertTask P)
    (h : t.finished = true) :
    ∀ n, InsertSystem.run cfg ⟨g, [t]⟩ (List.replicate n 0) = ⟨g, [t]⟩ := by
  have hstep : stepTask cfg g t = (g, t) := by
    unfold InsertTask.finished at h
    unfold stepTask
    cases hph : t.phase with
    | probing i => simp [hph] at h
    | claimed b s => simp [hph] at h
    | stored b s => rfl
    | dropped => rfl
  intro n
  induction n with
  | zero => rfl
  | succ n ih =>
    rw [List.replicate_succ]
    show InsertSystem.run cfg (InsertSystem.step cfg ⟨g, [t]⟩ 0) (List.replicate n 0) = _
    rw [step_single, hstep]
    exact ih

/-- A single insertion task run alone, for at least as many atomic actions as
it needs, leaves the grid exactly as the sequential probe loop does: sequential
insertion is one of the interleavings. -/
theorem run_alone_eq_insertLoop {P : Type} (cfg : HashConfig) (h : Nat) (p : P) :
    ∀ (n i : Nat) (g : HashGrid P), i + n = cfg.mQuadraticProbeIterations →
      (InsertSystem.run cfg ⟨g, [⟨p, h, TaskPhase.probing i⟩]⟩ (List.replicate (n + 2) 0)).grid
        = (insertLoop cfg h p n i g).2 := by
  intro n
  induction n with
  | zero =>
    intro i g hi
    have hnot : ¬ i < cfg.mQuadraticProbeIterations := by omega
    show (InsertSystem.run cfg (InsertSystem.step cfg ⟨g, [⟨p, h, TaskPhase.probing i⟩]⟩ 0)
      (List.replicate 1 0)).grid = _
    rw [step_single]
    have hs : stepTask cfg g ⟨p, h, TaskPhase.probing i⟩
        = (g.countOverflow, (⟨p, h, TaskPhase.probing i⟩ : InsertTask P).setPhase
            TaskPhase.dropped) := by
      simp only [stepTask, hnot, if_false]
    rw [hs, run_finished_single cfg g.countOverflow
      ((⟨p, h, TaskPhase.probing i⟩ : InsertTask P).setPhase TaskPhase.dropped) rfl 1]
    rfl
  | succ n ih =>
    intro i g hi
    have hlt : i < cfg.mQuadraticProbeIterations := by omega
    show (InsertSystem.run cfg (InsertSystem.step cfg ⟨g, [⟨p, h, TaskPhase.probing i⟩]⟩ 0)
      (List.replicate (n + 2) 0)).grid = _
    rw [step_single]
    by_cases hroom : (g.fetchInc (probeBucket cfg h i)).1 < cfg.mNumPhotonsPerBucket
    · have hs : stepTask cfg g ⟨p, h, TaskPhase.probing i⟩
          = ((g.fetchInc (probeBucket cfg h i)).2,
              (⟨p, h, TaskPhase.probing i⟩ : InsertTask P).setPhase
                (TaskPhase.claimed (probeBucket cfg h i) (g.fetchInc (probeBucket cfg h i)).1)) := by
        simp only [stepTask, hlt, if_true, hroom]
      rw [hs]
      show (InsertSystem.run cfg (InsertSystem.step cfg ⟨_, [_]⟩ 0) (List.replicate (n + 1) 0)).grid
        = _
      rw [step_single]
      have hw : stepTask cfg (g.fetchInc (probeBucket cfg h i)).2
          ((⟨p, h, TaskPhase.probing i⟩ : InsertTask P).setPhase
            (TaskPhase.claimed (probeBucket cfg h i) (g.fetchInc (probeBucket cfg h i)).1))
          = ((g.fetchInc (probeBucket cfg h i)).2.writeSlot (probeBucket cfg h i)
              (g.fetchInc (probeBucket cfg h i)).1 p,
             (⟨p, h, TaskPhase.probing i⟩ : InsertTask P).setPhase
              (TaskPhase.stored (probeBucket cfg h i) (g.fetchInc (probeBucket cfg h i)).1)) := rfl
      rw [hw, run_finished_single cfg
        ((g.fetchInc (probeBucket cfg h i)).2.writeSlot (probeBucket cfg h i)
          (g.fetchInc (probeBucket cfg h i)).1 p)
        ((⟨p, h, TaskPhase.probing i⟩ : InsertTask P).setPhase
          (TaskPhase.stored (probeBucket cfg h i) (g.fetchInc (probeBucket cfg h i)).1))
        rfl (n + 1)]
      simp only [insertLoop, hroom, if_true]
    · have hs : stepTask cfg g ⟨p, h, TaskPhase.probing i⟩
          = ((g.fetchInc (probeBucket cfg h i)).2,
              (⟨p, h, TaskPhase.probing i⟩ : InsertTask P).setPhase (TaskPhase.probing (i + 1))) := by
        simp only [stepTask, hlt, if_true, hroom, if_false]
      rw [hs]
      have := ih (i + 1) (g.fetchInc (probeBucket cfg h i)).2 (by omega)
      simp only [insertLoop, hroom, if_false]
      exact this

/-! ### Progressive radius controller -/

theorem sppm_ratio_le_one (alpha M N : NNReal) (h1 : alpha < 1) :
    (N + alpha * M) / (N + M) ≤ 1 := by
  apply div_le_one_of_le₀
  · have hM : alpha * M ≤ M := by
      calc alpha * M ≤ 1 * M := by gcongr
        _ = M := one_mul M
    gcongr
  · exact zero_le _

theorem sppmStep_radius_le (alpha M : NNReal) (s : RadiusState) (h1 : alpha < 1) :
    (sppmStep alpha M s).radius ≤ s.radius := by
  unfold sppmStep
  simp only
  have h : NNReal.sqrt ((s.N + alpha * M) / (s.N + M)) ≤ 1 := by
    rw [NNReal.sqrt_le_one]
    exact sppm_ratio_le_one alpha M s.N h1
  calc s.radius * NNReal.sqrt ((s.N + alpha * M) / (s.N + M)) ≤ s.radius * 1 := by gcongr
    _ = s.radius := mul_one _

/-- C3: for every alpha with `0 < alpha < 1`, every start radius `r0` and every
sequence `M` of non-negative accepted counts, the radii produced by the
recurrence `r_next = r * sqrt((N + alpha*M)/(N + M))`, `N_next = N + alpha*M`,
started from `N = 0`, are non-increasing: a later radius is never larger than
an earlier one. -/
theorem radius_nonincreasing (alpha r0 : NNReal) (M : Nat → NNReal)
    (_hpos : 0 < alpha) (hlt : alpha < 1) :
    ∀ m n, m ≤ n → (radiusSeq alpha r0 M n).radius ≤ (radiusSeq alpha r0 M m).radius := by
  have hanti : Antitone (fun n => (radiusSeq alpha r0 M n).radius) := by
    apply antitone_nat_of_succ_le
    intro n
    exact sppmStep_radius_le alpha (M n) _ hlt
  intro m n hmn
  exact hanti hmn

/-- C3 at a concrete input: alpha 0.7, start radius 0.05, 100 photons accepted
in every iteration; the radius after the third iteration is at most the one
after the first. -/
theorem radius_nonincreasing_witness :
    (radiusSeq (7 / 10) (1 / 20) (fun _ => 100) 3).radius
      ≤ (radiusSeq (7 / 10) (1 / 20) (fun _ => 100) 1).radius :=
  radius_nonincreasing (7 / 10) (1 / 20) (fun _ => 100) (by norm_num)
    (by rw [div_lt_one (by norm_num)]; norm_num) 1 3 (by norm_num)

theorem step_trigger_of_reset (c : RadiusController) (e : ControllerEvent)
    (hphase : c.phase = ControllerPhase.Reset) (he : e.isTrigger = true) : c.step e = c := by
  cases c
  cases e with
  | iterate a b => simp [ControllerEvent.isTrigger] at he
  | resetRequest => simp only [RadiusController.step] at *; rw [hphase]
  | bufferResize => simp only [RadiusController.step] at *; rw [hphase]
  | configChange => simp only [RadiusController.step] at *; rw [hphase]

theorem run_triggers_of_reset (more : List ControllerEvent) :
    ∀ (c : RadiusController), c.phase = ControllerPhase.Reset →
      (∀ e ∈ more, e.isTrigger = true) → c.run more = c := by
  induction more with
  | nil => intro c _ _; rfl
  | cons e more ih =>
    intro c hphase hmore
    show RadiusController.run (c.step e) more = c
    rw [step_trigger_of_reset c e hphase (hmore e (List.mem_cons_self _ _))]
    exact ih c hphase (fun e' he' => hmore e' (List.mem_cons_of_mem _ he'))

theorem step_trigger_phase (c : RadiusController) (e : ControllerEvent)
    (he : e.isTrigger = true) :
    c.step e = { c with phase := ControllerPhase.Reset } := by
  cases e with
  | iterate a b => simp [ControllerEvent.isTrigger] at he
  | resetRequest => rfl
  | bufferResize => rfl
  | configChange => rfl

/-- C4: from every state `c` of the controller, whatever iteration count it
has reached, a reset trigger (user request, buffer resize, configuration
change), any further triggers `more`, and then the `Reset → Active` transition
put each map's radius back to its configured start value, the accumulated
effective photon counts to 0 and the iteration counter to 0; the configured
start values are untouched. -/
theorem reset_reseeds (c : RadiusController) (trigger : ControllerEvent)
    (more : List ControllerEvent) (Mg Mc : NNReal)
    (htrigger : trigger.isTrigger = true) (hmore : ∀ e ∈ more, e.isTrigger = true) :
    (((c.step trigger).run more).step (ControllerEvent.iterate Mg Mc)).mGlobalRadius
      = c.mGlobalRadiusStart ∧
    (((c.step trigger).run more).step (ControllerEvent.iterate Mg Mc)).mCausticRadius
      = c.mCausticRadiusStart ∧
    (((c.step trigger).run more).step (ControllerEvent.iterate Mg Mc)).accumGlobal = 0 ∧
    (((c.step trigger).run more).step (ControllerEvent.iterate Mg Mc)).accumCaustic = 0 ∧
    (((c.step trigger).run more).step (ControllerEvent.iterate Mg Mc)).mFrameCount = 0 ∧
    (((c.step trigger).run more).step (ControllerEvent.iterate Mg Mc)).phase
      = ControllerPhase.Active ∧
    (((c.step trigger).run more).step (ControllerEvent.iterate Mg Mc)).mGlobalRadiusStart
      = c.mGlobalRadiusStart ∧
    (((c.step trigger).run more).step (ControllerEvent.iterate Mg Mc)).mCausticRadiusStart
      = c.mCausticRadiusStart := by
  have hphase : (c.step trigger).phase = ControllerPhase.Reset := by
    rw [step_trigger_phase c trigger htrigger]
  rw [run_triggers_of_reset more (c.step trigger) hphase hmore,
    step_trigger_phase c trigger htrigger]
  simp [RadiusController.step]

/-- C4 at a concrete input: the default controller after three iterations, then
a user reset request, a buffer resize, and the next iteration. -/
theorem reset_reseeds_witness :
    ((((RadiusController.initial.run
        [ControllerEvent.iterate 100 50, ControllerEvent.iterate 100 50,
          ControllerEvent.iterate 80 20]).step ControllerEvent.resetRequest).run
        [ControllerEvent.bufferResize]).step
        (ControllerEvent.iterate 5 5)).mFrameCount = 0 ∧
    ((((RadiusController.initial.run
        [ControllerEvent.iterate 100 50, ControllerEvent.iterate 100 50,
          ControllerEvent.iterate 80 20]).step ControllerEvent.resetRequest).run
        [ControllerEvent.bufferResize]).step
        (ControllerEvent.iterate 5 5)).accumGlobal = 0 :=
  ⟨(reset_reseeds _ ControllerEvent.resetRequest [ControllerEvent.bufferResize] 5 5 rfl
      (by simp [ControllerEvent.isTrigger])).2.2.2.2.1,
   (reset_reseeds _ ControllerEvent.resetRequest [ControllerEvent.bufferResize] 5 5 rfl
      (by simp [ControllerEvent.isTrigger])).2.2.1⟩

/-! ### The timer and the export of times -/

theorem checkTime_fields (now : ℚ) (s : RTPM) :
    (s.checkTime now).mTimerStopRenderer
      = (if s.mTimerDurationSec ≠ 0 ∧ s.mTimerDurationSec ≤ now - s.mTimerStartTime then true
         else s.mTimerStopRenderer) ∧
    (s.checkTime now).mCurrentElapsedTime
      = (if s.mTimerDurationSec ≠ 0 then now - s.mTimerStartTime else s.mCurrentElapsedTime) ∧
    (s.checkTime now).mTimesList = s.mTimesList ∧
    (s.checkTime now).mTimerMaxIterations = s.mTimerMaxIterations ∧
    (s.checkTime now).mFrameCount = s.mFrameCount ∧
    (s.checkTime now).mTimerRecordTimes = s.mTimerRecordTimes ∧
    (s.checkTime now).withoutTimerReadings = s.withoutTimerReadings := by
  unfold RTPM.checkTime
  by_cases hD : s.mTimerDurationSec ≠ 0
  · by_cases hE : s.mTimerDurationSec ≤ now - s.mTimerStartTime
    · simp only [if_pos hD, if_pos hE, if_pos (And.intro hD hE)]
      and_intros <;> trivial
    · simp only [if_pos hD, if_neg hE, if_neg (fun h : _ ∧ _ => hE h.2)]
      and_intros <;> trivial
  · simp only [if_neg hD, if_neg (fun h : _ ∧ _ => hD h.1)]
    and_intros <;> trivial

theorem checkIterations_fields (s : RTPM) :
    s.checkIterations.mTimerStopRenderer
      = (if s.mTimerMaxIterations ≠ 0 ∧ s.mTimerMaxIterations ≤ s.mFrameCount then true
         else s.mTimerStopRenderer) ∧
    s.checkIterations.mCurrentElapsedTime = s.mCurrentElapsedTime ∧
    s.checkIterations.mTimesList = s.mTimesList ∧
    s.checkIterations.mTimerRecordTimes = s.mTimerRecordTimes ∧
    s.checkIterations.withoutTimerReadings = s.withoutTimerReadings := by
  unfold RTPM.checkIterations
  by_cases hI : s.mTimerMaxIterations ≠ 0
  · by_cases hF : s.mTimerMaxIterations ≤ s.mFrameCount
    · simp only [if_pos hI, if_pos hF, if_pos (And.intro hI hF)]
      and_intros <;> trivial
    · simp only [if_pos hI, if_neg hF, if_neg (fun h : _ ∧ _ => hF h.2)]
      and_intros <;> trivial
  · simp only [if_neg hI, if_neg (fun h : _ ∧ _ => hI h.1)]
    and_intros <;> trivial

theorem recordTime_fields (s : RTPM) :
    s.recordTime.mTimerStopRenderer = s.mTimerStopRenderer ∧
    s.recordTime.mCurrentElapsedTime = s.mCurrentElapsedTime ∧
    s.recordTime.mTimesList
      = (if s.mTimerRecordTimes = true then s.mTimesList ++ [s.mCurrentElapsedTime]
         else s.mTimesList) ∧
    s.recordTime.withoutTimerReadings = s.withoutTimerReadings := by
  unfold RTPM.recordTime
  by_cases hR : s.mTimerRecordTimes = true
  · simp only [if_pos hR]
    and_intros <;> trivial
  · simp only [if_neg hR]
    and_intros <;> trivial

/-- `checkTimer` on the path that evaluates the stop criteria. -/
theorem checkTimer_running (now : ℚ) (s : RTPM)
    (hUse : s.mUseTimer = true) (hReset : s.mResetTimer = false)
    (hStop : s.mTimerStopRenderer = false) :
    s.checkTimer now = ((s.checkTime now).checkIterations).recordTime := by
  unfold RTPM.checkTimer
  simp only [hUse, hReset, hStop, Bool.true_eq_false, Bool.false_eq_true, if_false]

/-- C9: with the timer enabled, no reset pending and the stop flag not yet set,
after `checkTimer` the stop flag is set exactly when the duration limit is
non-zero and at most the time elapsed since `mTimerStartTime`, or the iteration
limit is non-zero and at most `mFrameCount`; with both limits `0` the flag
stays clear.  `checkTimer` returns normally and changes no member but the
elapsed time, the stop flag and the list of recorded times. -/
theorem checkTimer_stop_flag (now : ℚ) (s : RTPM)
    (hUse : s.mUseTimer = true) (hReset : s.mResetTimer = false)
    (hStop : s.mTimerStopRenderer = false) :
    ((s.checkTimer now).mTimerStopRenderer = true ↔
      (s.mTimerDurationSec ≠ 0 ∧ s.mTimerDurationSec ≤ now - s.mTimerStartTime) ∨
      (s.mTimerMaxIterations ≠ 0 ∧ s.mTimerMaxIterations ≤ s.mFrameCount)) ∧
    (s.mTimerDurationSec = 0 → s.mTimerMaxIterations = 0 →
      (s.checkTimer now).mTimerStopRenderer = false) ∧
    (s.checkTimer now).withoutTimerReadings = s.withoutTimerReadings := by
  rw [checkTimer_running now s hUse hReset hStop]
  obtain ⟨t1, _, _, t4, t5, _, t7⟩ := checkTime_fields now s
  obtain ⟨i1, _, _, _, i5⟩ := checkIterations_fields (s.checkTime now)
  obtain ⟨r1, _, _, r4⟩ := recordTime_fields (s.checkTime now).checkIterations
  have hflag : ((s.checkTime now).checkIterations).recordTime.mTimerStopRenderer
      = (if s.mTimerMaxIterations ≠ 0 ∧ s.mTimerMaxIterations ≤ s.mFrameCount then true
         else if s.mTimerDurationSec ≠ 0 ∧ s.mTimerDurationSec ≤ now - s.mTimerStartTime
           then true else false) := by
    rw [r1, i1, t1, t4, t5, hStop]
  refine ⟨?_, ?_, ?_⟩
  · rw [hflag]
    by_cases hI : s.mTimerMaxIterations ≠ 0 ∧ s.mTimerMaxIterations ≤ s.mFrameCount
    · rw [if_pos hI]
      exact ⟨fun _ => Or.inr hI, fun _ => rfl⟩
    · rw [if_neg hI]
      by_cases hD : s.mTimerDurationSec ≠ 0 ∧ s.mTimerDurationSec ≤ now - s.mTimerStartTime
      · rw [if_pos hD]
        exact ⟨fun _ => Or.inl hD, fun _ => rfl⟩
      · rw [if_neg hD]
        constructor
        · intro h; cases h
        · rintro (h | h)
          · exact absurd h hD
          · exact absurd h hI
  · intro hD hI
    rw [hflag]
    simp [hD, hI]
  · rw [r4, i5, t7]

/-- C9 at a concrete input: timer started at clock reading 10 with a 60 second
limit and no iteration limit; checked at clock reading 75 the stop flag is set,
and the frame count is still 7. -/
theorem checkTimer_stop_flag_witness :
    (timedPass.checkTimer 75).mTimerStopRenderer = true ∧
    (timedPass.checkTimer 75).mFrameCount = 7 := by
  have h := checkTimer_stop_flag 75 timedPass rfl rfl rfl
  refine ⟨h.1.mpr (Or.inl ⟨by norm_num [timedPass], by norm_num [timedPass]⟩), ?_⟩
  have h3 := congrArg RTPM.mFrameCount h.2.2
  exact h3

/-- C8, the code at the failing input: `times.csv` cannot be opened.
`outputTimes` raises (the failure is reported), but the statement that clears
`mTimesOutputFilePath` comes after the raise and is never reached: the path is
still `times.csv` afterwards, and a following `outputTimes` call tries to open
the file again and raises again. -/
theorem outputTimes_failed_open_keeps_path :
    (exportingPass.outputTimes readOnlyFiles).raised
      = some "Failed to open file 'times.csv'." ∧
    (exportingPass.outputTimes readOnlyFiles).pass.mTimesOutputFilePath = "times.csv" ∧
    (exportingPass.outputTimes readOnlyFiles).fs.opened = ["times.csv"] ∧
    ((exportingPass.outputTimes readOnlyFiles).pass.outputTimes
        (exportingPass.outputTimes readOnlyFiles).fs).fs.opened = ["times.csv", "times.csv"] ∧
    ((exportingPass.outputTimes readOnlyFiles).pass.outputTimes
        (exportingPass.outputTimes readOnlyFiles).fs).raised
      = some "Failed to open file 'times.csv'." := by
  refine ⟨?_, ?_, ?_, ?_, ?_⟩ <;> decide

/-- The failed open in general: whenever `outputTimes` gets past its guard and
the file cannot be opened, it raises and leaves the pass, the configured path
included, as it was. -/
theorem outputTimes_failed_open (fs : FileSystem) (s : RTPM)
    (hpath : s.mTimesOutputFilePath.isEmpty = false) (htimes : s.mTimesList.isEmpty = false)
    (hopen : fs.canOpen s.mTimesOutputFilePath = false) :
    (s.outputTimes fs).raised = some ("Failed to open file '" ++ s.mTimesOutputFilePath ++ "'.") ∧
    (s.outputTimes fs).pass = s ∧
    (s.outputTimes fs).fs.content = fs.content := by
  unfold RTPM.outputTimes
  simp only [hpath, htimes, Bool.or_self, Bool.false_eq_true, if_false, hopen, if_true]
  exact ⟨trivial, trivial, trivial⟩

/-- An `outputTimes` call that gets past its guard and opens the file. -/
theorem outputTimes_opened (fs : FileSystem) (s : RTPM)
    (hpath : s.mTimesOutputFilePath.isEmpty = false) (htimes : s.mTimesList.isEmpty = false)
    (hopen : fs.canOpen s.mTimesOutputFilePath = true) :
    s.outputTimes fs =
      { pass := s,
        fs := { fs with
          opened := fs.opened ++ [s.mTimesOutputFilePath],
          content := Function.update fs.content s.mTimesOutputFilePath
            (some (timesText s.mTimesList)) },
        raised := none } := by
  unfold RTPM.outputTimes
  rw [if_neg (by simp [hpath, htimes]), if_neg (by simp [hopen])]

/-- Every exported text starts with the `H` of its header line. -/
theorem timesText_head (times : List ℚ) : ∃ rest, (timesText times).data = 'H' :: rest :=
  ⟨_, rfl⟩

/-- C10 as stated fails: `times.csv` holds `old` and a line break, the pass
exports one recorded time; the export succeeds and the file then starts with
`Hash_Times`, so what it held before is not a prefix of what it holds now. -/
theorem outputTimes_discards_prior_content :
    (exportingPass.outputTimes earlierRunFiles).raised = none ∧
    earlierRunFiles.content "times.csv" = some "old\n" ∧
    ∃ text, (exportingPass.outputTimes earlierRunFiles).fs.content "times.csv" = some text ∧
      ¬ ("old\n".data <+: text.data) := by
  refine ⟨by decide, by decide, timesText [3 / 2], ?_, ?_⟩
  · rw [outputTimes_opened earlierRunFiles exportingPass (by decide) (by decide) (by decide)]
    show Function.update earlierRunFiles.content exportingPass.mTimesOutputFilePath
        (some (timesText exportingPass.mTimesList)) "times.csv" = some (timesText [3 / 2])
    exact Function.update_same (β := fun _ : String => Option String) "times.csv"
      (some (timesText [3 / 2])) earlierRunFiles.content
  · obtain ⟨rest, hrest⟩ := timesText_head [3 / 2]
    rw [hrest]
    intro h
    have h1 : ("old\n" : String).data = 'o' :: ("ld\n" : String).data := rfl
    rw [h1, List.cons_prefix_cons] at h
    exact absurd h.1 (by decide)

/-- C10 as amended: an `outputTimes` call that gets past its guard and opens
the file replaces the file: whatever the file held, it then holds exactly the
line `Hash_Times` followed by one line per recorded time, in recording order;
no other file changes, nothing is raised and the pass is unchanged.  A call
stopped by the guard (no path or no recorded time) changes no file. -/
theorem outputTimes_replaces_file (fs : FileSystem) (s : RTPM) :
    (s.mTimesOutputFilePath.isEmpty = false → s.mTimesList.isEmpty = false →
      fs.canOpen s.mTimesOutputFilePath = true →
      (s.outputTimes fs).raised = none ∧
      (s.outputTimes fs).pass = s ∧
      (s.outputTimes fs).fs.content s.mTimesOutputFilePath = some (timesText s.mTimesList) ∧
      ∀ path, path ≠ s.mTimesOutputFilePath →
        (s.outputTimes fs).fs.content path = fs.content path) ∧
    ((s.mTimesOutputFilePath.isEmpty = true ∨ s.mTimesList.isEmpty = true) →
      (s.outputTimes fs).raised = none ∧ (s.outputTimes fs).pass = s ∧
      (s.outputTimes fs).fs.content = fs.content ∧ (s.outputTimes fs).fs.opened = fs.opened) := by
  constructor
  · intro hpath htimes hopen
    rw [outputTimes_opened fs s hpath htimes hopen]
    refine ⟨rfl, rfl, ?_, ?_⟩
    · exact Function.update_same (β := fun _ : String => Option String) s.mTimesOutputFilePath
        (some (timesText s.mTimesList)) fs.content
    · intro path hne
      exact Function.update_noteq (β := fun _ : String => Option String) hne
        (some (timesText s.mTimesList)) fs.content
  · intro h
    unfold RTPM.outputTimes
    have hg : (s.mTimesOutputFilePath.isEmpty || s.mTimesList.isEmpty) = true := by
      rcases h with h | h <;> simp [h]
    rw [if_pos hg]
    exact ⟨rfl, rfl, rfl, rfl⟩

/-! ### `VBufferSC` -/

/-- C6: constructing a `VBufferSC` raises exactly when the device lacks Shader
Model 6.5 or Raytracing Tier 1.1.  When it raises, the constructor has made no
call (no property was parsed) and the outcome holds no pass; when it does not,
the pass is the default-initialised one with the given properties parsed and
the sample generator created, and `parseProperties(props)` was called. -/
theorem construction_raises_iff (pDevice : Device) (props : Properties) :
    ((∃ e, (VBufferSC.new pDevice props).result = Except.error e) ↔
      (pDevice.supportsSM6_5 = false ∨ pDevice.supportsRaytracingTier1_1 = false)) ∧
    ((∃ e, (VBufferSC.new pDevice props).result = Except.error e) →
      (VBufferSC.new pDevice props).calls = [] ∧
      ∀ pass, (VBufferSC.new pDevice props).result ≠ Except.ok pass) ∧
    ((¬ ∃ e, (VBufferSC.new pDevice props).result = Except.error e) →
      (VBufferSC.new pDevice props).result = Except.ok
        { VBufferSC.parseProperties props { mpDevice := pDevice } with
          mHasSampleGenerator := true } ∧
      (VBufferSC.new pDevice props).calls
        = [CtorCall.parseProperties props, CtorCall.createSampleGenerator]) := by
  unfold VBufferSC.new
  by_cases h1 : pDevice.supportsSM6_5 = false
  · rw [if_pos h1]
    refine ⟨⟨fun _ => Or.inl h1, fun _ => ⟨_, rfl⟩⟩, fun _ => ⟨rfl, ?_⟩, fun h => ?_⟩
    · intro pass hp; cases hp
    · exact absurd ⟨_, rfl⟩ h
  · rw [if_neg h1]
    by_cases h2 : pDevice.supportsRaytracingTier1_1 = false
    · rw [if_pos h2]
      refine ⟨⟨fun _ => Or.inr h2, fun _ => ⟨_, rfl⟩⟩, fun _ => ⟨rfl, ?_⟩, fun h => ?_⟩
      · intro pass hp; cases hp
      · exact absurd ⟨_, rfl⟩ h
    · rw [if_neg h2]
      refine ⟨⟨?_, ?_⟩, ?_, fun _ => ⟨rfl, rfl⟩⟩
      · rintro ⟨e, he⟩; cases he
      · rintro (h | h)
        · exact absurd h h1
        · exact absurd h h2
      · rintro ⟨e, he⟩; cases he

/-- C7: with the frame dimensions established (positive, which is what
`getOutput` asserts; or with assertions compiled out), `getOutput` raises
exactly when the named texture exists and its width or height differs from
`mFrameDim`; in every other case it returns what `getTexture` returned. -/
theorem getOutput_raises_iff (assertsEnabled : Bool) (s : VBufferSC) (renderData : RenderData)
    (name : String)
    (hdim : assertsEnabled = false ∨ (0 < s.mFrameDim.x ∧ 0 < s.mFrameDim.y)) :
    ((∃ e, s.getOutput assertsEnabled renderData name = Except.error e) ↔
      ∃ pTex, renderData.getTexture name = some pTex ∧
        (pTex.width ≠ s.mFrameDim.x ∨ pTex.height ≠ s.mFrameDim.y)) ∧
    ((¬ ∃ pTex, renderData.getTexture name = some pTex ∧
        (pTex.width ≠ s.mFrameDim.x ∨ pTex.height ≠ s.mFrameDim.y)) →
      s.getOutput assertsEnabled renderData name = Except.ok (renderData.getTexture name)) := by
  have hassert : ¬ (assertsEnabled = true ∧ ¬ (0 < s.mFrameDim.x ∧ 0 < s.mFrameDim.y)) := by
    rintro ⟨ha, hn⟩
    rcases hdim with h | h
    · rw [h] at ha; cases ha
    · exact hn h
  unfold VBufferSC.getOutput
  rw [if_neg hassert]
  cases hget : renderData.getTexture name with
  | none =>
    refine ⟨⟨?_, ?_⟩, fun _ => rfl⟩
    · rintro ⟨e, he⟩; cases he
    · rintro ⟨pTex, hp, _⟩; cases hp
  | some tex =>
    by_cases hm : tex.width ≠ s.mFrameDim.x ∨ tex.height ≠ s.mFrameDim.y
    · simp only [if_pos hm]
      refine ⟨⟨fun _ => ⟨tex, rfl, hm⟩, fun _ => ⟨_, rfl⟩⟩, fun h => ?_⟩
      exact absurd ⟨tex, rfl, hm⟩ h
    · simp only [if_neg hm]
      refine ⟨⟨?_, ?_⟩, fun _ => trivial⟩
      · rintro ⟨e, he⟩; cases he
      · rintro ⟨pTex, hp, hmis⟩
        simp only [Option.some.injEq] at hp
        subst hp
        exact absurd hmis hm

/-- C7 at a concrete input: frame dimensions 640 by 480; the matching `vbuffer`
is returned, the 320 by 240 `depth` raises, a missing `mvec` is returned as the
null reference. -/
theorem getOutput_raises_iff_witness :
    framedPass.getOutput true mixedRenderData "vbuffer" = Except.ok (some ⟨1, 640, 480⟩) ∧
    (∃ e, framedPass.getOutput true mixedRenderData "depth" = Except.error e) ∧
    framedPass.getOutput true mixedRenderData "mvec" = Except.ok none := by
  have hv := getOutput_raises_iff true framedPass mixedRenderData "vbuffer" (Or.inr (by decide))
  have hd := getOutput_raises_iff true framedPass mixedRenderData "depth" (Or.inr (by decide))
  have hm := getOutput_raises_iff true framedPass mixedRenderData "mvec" (Or.inr (by decide))
  refine ⟨?_, ?_, ?_⟩
  · exact hv.2 (by decide)
  · exact hd.1.mpr ⟨⟨2, 320, 240⟩, by decide, by decide⟩
  · exact hm.2 (by decide)

/-! ### Insertion followed by collection -/

theorem digitChar_mem (n : Nat) : Nat.digitChar n ∈ digitChars := by
  by_cases h : n < 16
  · interval_cases n <;> decide
  · have hne : ∀ k, k < 16 → ¬ n = k := by intro k hk; omega
    unfold Nat.digitChar
    rw [if_neg (hne 0 (by decide)), if_neg (hne 1 (by decide)), if_neg (hne 2 (by decide)),
      if_neg (hne 3 (by decide)), if_neg (hne 4 (by decide)), if_neg (hne 5 (by decide)),
      if_neg (hne 6 (by decide)), if_neg (hne 7 (by decide)), if_neg (hne 8 (by decide)),
      if_neg (hne 9 (by decide)), if_neg (hne 10 (by decide)), if_neg (hne 11 (by decide)),
      if_neg (hne 12 (by decide)), if_neg (hne 13 (by decide)), if_neg (hne 14 (by decide)),
      if_neg (hne 15 (by decide))]
    decide

theorem toDigitsCore_mem (fuel : Nat) : ∀ (n : Nat) (ds : List Char),
    (∀ c ∈ ds, c ∈ digitChars) → ∀ c ∈ Nat.toDigitsCore 10 fuel n ds, c ∈ digitChars := by
  induction fuel with
  | zero => intro n ds h; simpa [Nat.toDigitsCore] using h
  | succ fuel ih =>
    intro n ds h
    have hd : ∀ c ∈ Nat.digitChar (n % 10) :: ds, c ∈ digitChars := by
      intro c hc
      rcases List.mem_cons.mp hc with rfl | hc
      · exact digitChar_mem _
      · exact h c hc
    unfold Nat.toDigitsCore
    by_cases h0 : n / 10 = 0
    · simpa [h0] using hd
    · simpa [h0] using ih (n / 10) _ hd

theorem toString_nat_mem (n : Nat) : ∀ c ∈ (toString n).data, c ∈ numberChars := by
  intro c hc
  have h : (toString n).data = Nat.toDigits 10 n := rfl
  rw [h] at hc
  exact List.mem_cons_of_mem _ (List.mem_cons_of_mem _
    (toDigitsCore_mem _ _ _ (by simp) c hc))

/-- A number written by `formatFixed16` is made of a sign, digits and a point. -/
theorem formatFixed16_mem (x : ℚ) : ∀ c ∈ (formatFixed16 x).data, c ∈ numberChars := by
  intro c hc
  unfold formatFixed16 pad16 at hc
  simp only [String.data_append, List.mem_append] at hc
  rcases hc with ((hc | hc) | hc) | hc | hc
  · split at hc
    · have : c = '-' := by simpa using hc
      rw [this]; decide
    · simp at hc
  · exact toString_nat_mem _ c hc
  · have : c = '.' := by simpa using hc
    rw [this]; decide
  · have : c = '0' := (List.mem_replicate.mp hc).2
    rw [this]; decide
  · exact toString_nat_mem _ c hc

theorem formatFixed16_no_newline (x : ℚ) : ∀ c ∈ (formatFixed16 x).data, c ≠ '\n' := by
  intro c hc h
  have := formatFixed16_mem x c hc
  rw [h] at this
  exact absurd this (by decide)

/-- The header line is not a written number. -/
theorem header_ne_formatFixed16 (x : ℚ) : "Hash_Times" ≠ formatFixed16 x := by
  intro h
  have hH : 'H' ∈ ("Hash_Times" : String).data := by decide
  rw [h] at hH
  exact absurd (formatFixed16_mem x 'H' hH) (by decide)

theorem linesAux_line (l : List Char) (hl : ∀ c ∈ l, c ≠ '\n') (rest : List Char) :
    ∀ cur : List Char,
      linesAux (l ++ '\n' :: rest) cur = String.mk (cur.reverse ++ l) :: linesAux rest [] := by
  induction l with
  | nil => intro cur; simp [linesAux]
  | cons c l ih =>
    intro cur
    have hc : c ≠ '\n' := hl c (List.mem_cons_self _ _)
    have hl2 : ∀ d ∈ l, d ≠ '\n' := fun d hd => hl d (List.mem_cons_of_mem _ hd)
    rw [List.cons_append, linesAux, if_neg hc, ih hl2]
    simp

theorem linesAux_join (lines : List String) (h : ∀ l ∈ lines, ∀ c ∈ l.data, c ≠ '\n') :
    linesAux (String.join (lines.map fun l => l ++ "\n")).data [] = lines := by
  induction lines with
  | nil => rfl
  | cons l ls ih =>
    have hl := h l (List.mem_cons_self _ _)
    have hls : ∀ m ∈ ls, ∀ c ∈ m.data, c ≠ '\n' := fun m hm => h m (List.mem_cons_of_mem _ hm)
    have hdata : (String.join ((l :: ls).map fun l => l ++ "\n")).data
        = l.data ++ '\n' :: (String.join (ls.map fun l => l ++ "\n")).data := by
      simp [String.data_join, String.data_append]
    rw [hdata, linesAux_line l.data hl, ih hls]
    simp

theorem textLines_timesText (times : List ℚ) :
    textLines (timesText times) = "Hash_Times" :: times.map formatFixed16 := by
  have hmap : (times.map fun t => formatFixed16 t ++ "\n")
      = (times.map formatFixed16).map fun l => l ++ "\n" := by
    rw [List.map_map]; rfl
  have hhead : ("Hash_Times\n" : String).data = "Hash_Times".data ++ '\n' :: [] := by decide
  have hdata : (timesText times).data
      = "Hash_Times".data ++ '\n'
          :: (String.join ((times.map formatFixed16).map fun l => l ++ "\n")).data := by
    unfold timesText
    rw [String.data_append, hhead, hmap, List.append_assoc]
    rfl
  unfold textLines
  rw [hdata, linesAux_line _ (by decide), linesAux_join]
  · rfl
  · intro l hl
    obtain ⟨t, _, rfl⟩ := List.mem_map.mp hl
    exact formatFixed16_no_newline t

theorem pad16_length (n : Nat) (h : n < 10 ^ 16) : (pad16 n).length = 16 := by
  have hlen : (toString n).length ≤ 16 := Nat.repr_length n 16 (by decide) h
  unfold pad16
  rw [String.length_append]
  show (List.replicate (16 - (toString n).length) '0').length + (toString n).length = 16
  rw [List.length_replicate]
  omega

/-- A number written by `formatFixed16` ends with the point and 16 decimals. -/
theorem formatFixed16_decimals (x : ℚ) :
    ∃ whole decimals : String,
      formatFixed16 x = whole ++ "." ++ decimals ∧ decimals.length = 16 :=
  ⟨_, _, Eq.refl _, pad16_length _ (Nat.mod_lt _ (by norm_num))⟩

/-- The text an `outputTimes` call that opens the file leaves in it. -/
theorem outputTimes_content (fs : FileSystem) (s : RTPM)
    (hpath : s.mTimesOutputFilePath.isEmpty = false) (htimes : s.mTimesList.isEmpty = false)
    (hopen : fs.canOpen s.mTimesOutputFilePath = true) :
    (s.outputTimes fs).fs.content s.mTimesOutputFilePath = some (timesText s.mTimesList) := by
  rw [outputTimes_opened fs s hpath htimes hopen]
  exact Function.update_same (β := fun _ : String => Option String) s.mTimesOutputFilePath
    (some (timesText s.mTimesList)) fs.content

/-- C11 as stated fails: the pass exports one recorded time to `times.csv`;
the written text has two lines, not one, and its first line is the header
`Hash_Times`, not the recorded time. -/
theorem outputTimes_writes_header_line :
    exportingPass.mTimesList = [3 / 2] ∧
    ∃ text, (exportingPass.outputTimes earlierRunFiles).fs.content "times.csv" = some text ∧
      (textLines text).length = 2 ∧
      (textLines text)[0]? = some "Hash_Times" ∧
      (textLines text)[0]? ≠ some (formatFixed16 (3 / 2)) := by
  refine ⟨rfl, timesText [3 / 2], ?_, ?_, ?_, ?_⟩
  · exact outputTimes_content earlierRunFiles exportingPass (by decide) (by decide) (by decide)
  · rw [textLines_timesText]; rfl
  · rw [textLines_timesText]; rfl
  · rw [textLines_timesText]
    intro h
    exact header_ne_formatFixed16 (3 / 2) (Option.some.inj h)

/-- C11 as amended: for every non-empty list of recorded times and every
non-empty path that can be opened, the text `RTPM::outputTimes` leaves in the
file is the header line `Hash_Times` followed by one line per recorded time:
it has one line more than `mTimesList` has entries, its first line is the
header, and line `i + 1` is the `i`-th recorded time in fixed notation with 16
decimals, in recording order; a written number is made of sign, digits and
point only and ends with the point and 16 decimals. -/
theorem outputTimes_text_lines (fs : FileSystem) (s : RTPM)
    (hpath : s.mTimesOutputFilePath.isEmpty = false) (htimes : s.mTimesList.isEmpty = false)
    (hopen : fs.canOpen s.mTimesOutputFilePath = true) :
    ∃ text, (s.outputTimes fs).fs.content s.mTimesOutputFilePath = some text ∧
      textLines text = "Hash_Times" :: s.mTimesList.map formatFixed16 ∧
      (textLines text).length = s.mTimesList.length + 1 ∧
      (textLines text)[0]? = some "Hash_Times" ∧
      (∀ i (h : i < s.mTimesList.length),
        (textLines text)[i + 1]? = some (formatFixed16 (s.mTimesList.get ⟨i, h⟩)) ∧
        (∀ c ∈ (formatFixed16 (s.mTimesList.get ⟨i, h⟩)).data, c ∈ numberChars) ∧
        ∃ whole decimals : String,
          formatFixed16 (s.mTimesList.get ⟨i, h⟩) = whole ++ "." ++ decimals ∧
          decimals.length = 16) := by
  refine ⟨timesText s.mTimesList, outputTimes_content fs s hpath htimes hopen,
    textLines_timesText _, ?_, ?_, ?_⟩
  · rw [textLines_timesText]; simp
  · rw [textLines_timesText]; simp
  · intro i h
    refine ⟨?_, formatFixed16_mem _, formatFixed16_decimals _⟩
    rw [textLines_timesText]
    simp [List.getElem?_map, List.getElem?_eq_getElem h]

/-- C11 as amended, at the pass that exports one recorded time to `times.csv`,
a file that can be opened. -/
theorem outputTimes_text_lines_witness :
    ∃ text, (exportingPass.outputTimes earlierRunFiles).fs.content
        exportingPass.mTimesOutputFilePath = some text ∧
      textLines text = "Hash_Times" :: exportingPass.mTimesList.map formatFixed16 ∧
      (textLines text).length = exportingPass.mTimesList.length + 1 ∧
      (textLines text)[0]? = some "Hash_Times" ∧
      (∀ i (h : i < exportingPass.mTimesList.length),
        (textLines text)[i + 1]? = some (formatFixed16 (exportingPass.mTimesList.get ⟨i, h⟩)) ∧
        (∀ c ∈ (formatFixed16 (exportingPass.mTimesList.get ⟨i, h⟩)).data, c ∈ numberChars) ∧
        ∃ whole decimals : String,
          formatFixed16 (exportingPass.mTimesList.get ⟨i, h⟩) = whole ++ "." ++ decimals ∧
          decimals.length = 16) :=
  outputTimes_text_lines earlierRunFiles exportingPass (by decide) (by decide) (by decide)

/-! ### `renderUI`: what each block keeps -/

theorem or_keep {a : Bool} (b : Bool) (h : a = true) : (a || b) = true := by
  rw [h]; rfl

theorem or_keep_right (a : Bool) {b : Bool} (h : b = true) : (a || b) = true := by
  rw [h]; exact Bool.or_true a

theorem Kept.sameKept (s : RTPM) : Kept s s :=
  ⟨Eq.refl _, Eq.refl _, Eq.refl _, Eq.refl _, id, id, id, id, id, id, id, id⟩

theorem Kept.andKept {a b c : RTPM} (h1 : Kept a b) (h2 : Kept b c) : Kept a c :=
  ⟨h2.photonCount.trans h1.photonCount, h2.numPhotons.trans h1.numPhotons,
    h2.causticMax.trans h1.causticMax,
    h2.globalMax.trans h1.globalMax,
    fun h => h2.photonsChanged (h1.photonsChanged h),
    fun h => h2.fitBuffers (h1.fitBuffers h),
    fun h => h2.resetCS (h1.resetCS h),
    fun h => h2.resetTimer (h1.resetTimer h),
    fun h => h2.rebuildLightTex (h1.rebuildLightTex h),
    fun h => h2.infoFormat (h1.infoFormat h),
    fun h => h2.resetIterations (h1.resetIterations h),
    fun h => h2.optionsChanged (h1.optionsChanged h)⟩

theorem KeptEdits.sameEdits (s : RTPM) : KeptEdits s s :=
  ⟨Eq.refl _, Eq.refl _, Eq.refl _, Eq.refl _, Eq.refl _⟩

theorem KeptEdits.andEdits {a b c : RTPM} (h1 : KeptEdits a b) (h2 : KeptEdits b c) :
    KeptEdits a c :=
  ⟨h2.numPhotonsUI.trans h1.numPhotonsUI, h2.causticUI.trans h1.causticUI,
    h2.globalUI.trans h1.globalUI, h2.photonsChanged.trans h1.photonsChanged,
    h2.fitBuffers.trans h1.fitBuffers⟩

theorem KeptAlpha.sameAlpha (s : RTPM) : KeptAlpha s s := ⟨Eq.refl _, Eq.refl _⟩

theorem KeptAlpha.andAlpha {a b c : RTPM} (h1 : KeptAlpha a b) (h2 : KeptAlpha b c) :
    KeptAlpha a c :=
  ⟨h2.alphaGlobal.trans h1.alphaGlobal, h2.alphaCaustic.trans h1.alphaCaustic⟩

theorem KeptHash.sameHash (s : RTPM) : KeptHash s s := ⟨Eq.refl _, Eq.refl _, Eq.refl _, Eq.refl _⟩

theorem KeptHash.andHash {a b c : RTPM} (h1 : KeptHash a b) (h2 : KeptHash b c) :
    KeptHash a c :=
  ⟨h2.bucketBits.trans h1.bucketBits, h2.photonsPerBucket.trans h1.photonsPerBucket,
    h2.probeIterations.trans h1.probeIterations, h2.resetCS.trans h1.resetCS⟩

theorem uiBuffers_kept (ui : UIInput) (s : RTPM) : Kept s (uiBuffers ui s) :=
  ⟨Eq.refl _, Eq.refl _, Eq.refl _, Eq.refl _, fun h => or_keep _ (or_keep _ h), fun h => or_keep _ h,
    id, id, id, id, id, id⟩

theorem uiProgressive_kept (ui : UIInput) (u : UIStep) :
    Kept u.pass (uiProgressive ui u).pass ∧ KeptEdits u.pass (uiProgressive ui u).pass ∧
    (u.dirty = true → (uiProgressive ui u).dirty = true) := by
  unfold uiProgressive
  by_cases h : (Gui.checkbox ui.useSPPM u.pass.mUseStatisticProgressivePM).1 = true
  · rw [if_pos h]
    exact ⟨⟨Eq.refl _, Eq.refl _, Eq.refl _, Eq.refl _, id, id, id, id, id, id, id, id⟩,
      ⟨Eq.refl _, Eq.refl _, Eq.refl _, Eq.refl _, Eq.refl _⟩,
      fun h => or_keep _ (or_keep _ (or_keep _ h))⟩
  · rw [if_neg h]
    exact ⟨⟨Eq.refl _, Eq.refl _, Eq.refl _, Eq.refl _, id, id, id, id, id, id, id, id⟩,
      ⟨Eq.refl _, Eq.refl _, Eq.refl _, Eq.refl _, Eq.refl _⟩,
      fun h => or_keep _ h⟩

theorem uiMisc_kept (ui : UIInput) (u : UIStep) :
    Kept u.pass (uiMisc ui u).pass ∧ KeptEdits u.pass (uiMisc ui u).pass ∧
    KeptAlpha u.pass (uiMisc ui u).pass ∧
    (u.dirty = true → (uiMisc ui u).dirty = true) :=
  ⟨⟨Eq.refl _, Eq.refl _, Eq.refl _, Eq.refl _, id, id, fun h => or_keep _ h, id, id, id, id, id⟩,
    ⟨Eq.refl _, Eq.refl _, Eq.refl _, Eq.refl _, Eq.refl _⟩, ⟨Eq.refl _, Eq.refl _⟩,
    fun h => or_keep _ (or_keep _ (or_keep _ h))⟩

theorem outputTimes_pass (fs : FileSystem) (s : RTPM) : (s.outputTimes fs).pass = s := by
  unfold RTPM.outputTimes
  by_cases h1 : (s.mTimesOutputFilePath.isEmpty || s.mTimesList.isEmpty) = true
  · rw [if_pos h1]
  · rw [if_neg h1]
    by_cases h2 : fs.canOpen s.mTimesOutputFilePath = false
    · rw [if_pos h2]
    · rw [if_neg h2]

theorem uiStoreTimes_kept (ui : UIInput) (fs : FileSystem) (s : RTPM) :
    Kept s (uiStoreTimes ui fs s).pass ∧ KeptEdits s (uiStoreTimes ui fs s).pass ∧
    KeptAlpha s (uiStoreTimes ui fs s).pass ∧
    (uiStoreTimes ui fs s).pass.mResetTimer = s.mResetTimer := by
  unfold uiStoreTimes
  by_cases h1 : s.mTimerRecordTimes = true
  · rw [if_pos h1]
    by_cases h2 : ui.storeTimes = true
    · rw [if_pos h2]
      cases ui.saveFileDialog with
      | none => exact ⟨Kept.sameKept s, KeptEdits.sameEdits s, KeptAlpha.sameAlpha s, Eq.refl _⟩
      | some path =>
        show Kept s (RTPM.outputTimes fs _).pass ∧ KeptEdits s (RTPM.outputTimes fs _).pass ∧
          KeptAlpha s (RTPM.outputTimes fs _).pass ∧ (RTPM.outputTimes fs _).pass.mResetTimer = _
        rw [outputTimes_pass]
        exact ⟨⟨Eq.refl _, Eq.refl _, Eq.refl _, Eq.refl _, id, id, id, id, id, id, id, id⟩,
          ⟨Eq.refl _, Eq.refl _, Eq.refl _, Eq.refl _, Eq.refl _⟩, ⟨Eq.refl _, Eq.refl _⟩,
          Eq.refl _⟩
    · rw [if_neg h2]
      exact ⟨Kept.sameKept s, KeptEdits.sameEdits s, KeptAlpha.sameAlpha s, Eq.refl _⟩
  · rw [if_neg h1]
    exact ⟨Kept.sameKept s, KeptEdits.sameEdits s, KeptAlpha.sameAlpha s, Eq.refl _⟩

theorem uiTimerSettings_kept (ui : UIInput) (s : RTPM) :
    Kept s (uiTimerSettings ui s).1 ∧ KeptEdits s (uiTimerSettings ui s).1 ∧
    KeptAlpha s (uiTimerSettings ui s).1 :=
  ⟨⟨Eq.refl _, Eq.refl _, Eq.refl _, Eq.refl _, id, id, id, id, id, id, id, id⟩,
    ⟨Eq.refl _, Eq.refl _, Eq.refl _, Eq.refl _, Eq.refl _⟩, ⟨Eq.refl _, Eq.refl _⟩⟩

theorem setUseTimer_kept (s : RTPM) (v : Bool) :
    Kept s (s.setUseTimer v) ∧ KeptEdits s (s.setUseTimer v) ∧ KeptAlpha s (s.setUseTimer v) :=
  ⟨⟨Eq.refl _, Eq.refl _, Eq.refl _, Eq.refl _, id, id, id, id, id, id, id, id⟩,
    ⟨Eq.refl _, Eq.refl _, Eq.refl _, Eq.refl _, Eq.refl _⟩, ⟨Eq.refl _, Eq.refl _⟩⟩

theorem orResetTimer_kept (s : RTPM) (v : Bool) :
    Kept s (s.orResetTimer v) ∧ KeptEdits s (s.orResetTimer v) ∧ KeptAlpha s (s.orResetTimer v) :=
  ⟨⟨Eq.refl _, Eq.refl _, Eq.refl _, Eq.refl _, id, id, id, fun h => or_keep _ h, id, id, id, id⟩,
    ⟨Eq.refl _, Eq.refl _, Eq.refl _, Eq.refl _, Eq.refl _⟩, ⟨Eq.refl _, Eq.refl _⟩⟩

theorem uiTimerClose_kept (resetTimer dirty : Bool) (o : OutputTimesResult) :
    Kept o.pass (uiTimerClose resetTimer dirty o).step.pass ∧
    KeptEdits o.pass (uiTimerClose resetTimer dirty o).step.pass ∧
    KeptAlpha o.pass (uiTimerClose resetTimer dirty o).step.pass ∧
    ((uiTimerClose resetTimer dirty o).raised = none →
      dirty = true → (uiTimerClose resetTimer dirty o).step.dirty = true) := by
  unfold uiTimerClose
  cases o.raised with
  | some e => exact ⟨Kept.sameKept _, KeptEdits.sameEdits _, KeptAlpha.sameAlpha _, fun h => by cases h⟩
  | none =>
    exact ⟨(orResetTimer_kept _ _).1, (orResetTimer_kept _ _).2.1, (orResetTimer_kept _ _).2.2,
      fun _ h => or_keep _ h⟩

theorem uiTimer_kept (ui : UIInput) (fs : FileSystem) (u : UIStep) :
    Kept u.pass (uiTimer ui fs u).step.pass ∧ KeptEdits u.pass (uiTimer ui fs u).step.pass ∧
    KeptAlpha u.pass (uiTimer ui fs u).step.pass ∧
    ((uiTimer ui fs u).raised = none → u.dirty = true → (uiTimer ui fs u).step.dirty = true) := by
  unfold uiTimer
  by_cases hg : ui.timerGroup = true
  · rw [if_pos hg]
    by_cases he : (Gui.checkbox ui.enableTimer u.pass.mUseTimer).1 = true
    · rw [if_pos he]
      have h1 := setUseTimer_kept u.pass (Gui.checkbox ui.enableTimer u.pass.mUseTimer).1
      have h2 := uiTimerSettings_kept ui
        (u.pass.setUseTimer (Gui.checkbox ui.enableTimer u.pass.mUseTimer).1)
      have h3 := uiStoreTimes_kept ui fs (uiTimerSettings ui
        (u.pass.setUseTimer (Gui.checkbox ui.enableTimer u.pass.mUseTimer).1)).1
      have h4 := uiTimerClose_kept
        ((Gui.checkbox ui.enableTimer u.pass.mUseTimer).2
          || (uiTimerSettings ui
              (u.pass.setUseTimer (Gui.checkbox ui.enableTimer u.pass.mUseTimer).1)).2)
        u.dirty
        (uiStoreTimes ui fs (uiTimerSettings ui
          (u.pass.setUseTimer (Gui.checkbox ui.enableTimer u.pass.mUseTimer).1)).1)
      exact ⟨((h1.1.andKept h2.1).andKept h3.1).andKept h4.1,
        ((h1.2.1.andEdits h2.2.1).andEdits h3.2.1).andEdits h4.2.1,
        ((h1.2.2.andAlpha h2.2.2).andAlpha h3.2.2.1).andAlpha h4.2.2.1, h4.2.2.2⟩
    · rw [if_neg he]
      have h1 := setUseTimer_kept u.pass (Gui.checkbox ui.enableTimer u.pass.mUseTimer).1
      have h4 := uiTimerClose_kept (Gui.checkbox ui.enableTimer u.pass.mUseTimer).2 u.dirty
        { pass := u.pass.setUseTimer (Gui.checkbox ui.enableTimer u.pass.mUseTimer).1,
          fs := fs, raised := none }
      exact ⟨h1.1.andKept h4.1, h1.2.1.andEdits h4.2.1, h1.2.2.andAlpha h4.2.2.1, h4.2.2.2⟩
  · rw [if_neg hg]
    exact ⟨Kept.sameKept _, KeptEdits.sameEdits _, KeptAlpha.sameAlpha _, fun _ h => h⟩

theorem uiRadius_kept (ui : UIInput) (u : UIStep) :
    Kept u.pass (uiRadius ui u).pass ∧ KeptEdits u.pass (uiRadius ui u).pass ∧
    KeptAlpha u.pass (uiRadius ui u).pass ∧
    (u.dirty = true → (uiRadius ui u).dirty = true) := by
  unfold uiRadius
  by_cases hg : ui.radiusGroup = true
  · rw [if_pos hg]
    exact ⟨⟨Eq.refl _, Eq.refl _, Eq.refl _, Eq.refl _, id, id, id, id, id, id, id, id⟩,
      ⟨Eq.refl _, Eq.refl _, Eq.refl _, Eq.refl _, Eq.refl _⟩, ⟨Eq.refl _, Eq.refl _⟩,
      fun h => or_keep _ (or_keep _ (or_keep _ h))⟩
  · rw [if_neg hg]
    exact ⟨Kept.sameKept _, KeptEdits.sameEdits _, KeptAlpha.sameAlpha _, id⟩

theorem uiMaterial_kept (ui : UIInput) (u : UIStep) :
    Kept u.pass (uiMaterial ui u).pass ∧ KeptEdits u.pass (uiMaterial ui u).pass ∧
    KeptAlpha u.pass (uiMaterial ui u).pass ∧
    (u.dirty = true → (uiMaterial ui u).dirty = true) := by
  unfold uiMaterial
  by_cases hg : ui.materialGroup = true
  · rw [if_pos hg]
    exact ⟨⟨Eq.refl _, Eq.refl _, Eq.refl _, Eq.refl _, id, id, id, id, id, id, id, id⟩,
      ⟨Eq.refl _, Eq.refl _, Eq.refl _, Eq.refl _, Eq.refl _⟩, ⟨Eq.refl _, Eq.refl _⟩,
      fun h => or_keep _ (or_keep _ (or_keep _ (or_keep _ h)))⟩
  · rw [if_neg hg]
    exact ⟨Kept.sameKept _, KeptEdits.sameEdits _, KeptAlpha.sameAlpha _, id⟩

theorem uiHash_kept (ui : UIInput) (u : UIStep) :
    Kept u.pass (uiHash ui u).pass ∧ KeptEdits u.pass (uiHash ui u).pass ∧
    KeptAlpha u.pass (uiHash ui u).pass ∧
    (u.dirty = true → (uiHash ui u).dirty = true) := by
  unfold uiHash
  by_cases hg : ui.hashGroup = true
  · rw [if_pos hg]
    exact ⟨⟨Eq.refl _, Eq.refl _, Eq.refl _, Eq.refl _, id, id, fun h => or_keep _ (or_keep _ h),
        id, id, id, id, id⟩,
      ⟨Eq.refl _, Eq.refl _, Eq.refl _, Eq.refl _, Eq.refl _⟩, ⟨Eq.refl _, Eq.refl _⟩,
      fun h => or_keep _ (or_keep _ h)⟩
  · rw [if_neg hg]
    exact ⟨Kept.sameKept _, KeptEdits.sameEdits _, KeptAlpha.sameAlpha _, id⟩

theorem uiLight_kept (ui : UIInput) (u : UIStep) :
    Kept u.pass (uiLight ui u).pass ∧ KeptEdits u.pass (uiLight ui u).pass ∧
    KeptAlpha u.pass (uiLight ui u).pass ∧ KeptHash u.pass (uiLight ui u).pass ∧
    (u.dirty = true → (uiLight ui u).dirty = true) := by
  unfold uiLight
  by_cases hg : ui.lightGroup = true
  · rw [if_pos hg]
    exact ⟨⟨Eq.refl _, Eq.refl _, Eq.refl _, Eq.refl _, id, id, id, id, fun h => or_keep _ (or_keep _ h),
        id, id, id⟩,
      ⟨Eq.refl _, Eq.refl _, Eq.refl _, Eq.refl _, Eq.refl _⟩, ⟨Eq.refl _, Eq.refl _⟩,
      ⟨Eq.refl _, Eq.refl _, Eq.refl _, Eq.refl _⟩,
      fun h => or_keep _ h⟩
  · rw [if_neg hg]
    exact ⟨Kept.sameKept _, KeptEdits.sameEdits _, KeptAlpha.sameAlpha _, KeptHash.sameHash _, id⟩

theorem uiInfoFormat_kept (ui : UIInput) (u : UIStep) :
    Kept u.pass (uiInfoFormat ui u).pass ∧ KeptEdits u.pass (uiInfoFormat ui u).pass ∧
    KeptAlpha u.pass (uiInfoFormat ui u).pass ∧ KeptHash u.pass (uiInfoFormat ui u).pass ∧
    (u.dirty = true → (uiInfoFormat ui u).dirty = true) :=
  ⟨⟨Eq.refl _, Eq.refl _, Eq.refl _, Eq.refl _, id, id, id, id, id, fun h => or_keep _ h, id, id⟩,
    ⟨Eq.refl _, Eq.refl _, Eq.refl _, Eq.refl _, Eq.refl _⟩, ⟨Eq.refl _, Eq.refl _⟩,
    ⟨Eq.refl _, Eq.refl _, Eq.refl _, Eq.refl _⟩,
    fun h => or_keep _ h⟩

theorem uiCollect_kept (ui : UIInput) (u : UIStep) :
    Kept u.pass (uiCollect ui u).pass ∧ KeptEdits u.pass (uiCollect ui u).pass ∧
    KeptAlpha u.pass (uiCollect ui u).pass ∧ KeptHash u.pass (uiCollect ui u).pass ∧
    (u.dirty = true → (uiCollect ui u).dirty = true) := by
  unfold uiCollect
  by_cases hg : ui.collectGroup = true
  · rw [if_pos hg]
    by_cases hs : (Gui.checkbox ui.stochasticCollection u.pass.mEnableStochasticCollection).1 = true
    · rw [if_pos hs]
      exact ⟨⟨Eq.refl _, Eq.refl _, Eq.refl _, Eq.refl _, id, id, id, id, id, id, id, id⟩,
        ⟨Eq.refl _, Eq.refl _, Eq.refl _, Eq.refl _, Eq.refl _⟩, ⟨Eq.refl _, Eq.refl _⟩,
        ⟨Eq.refl _, Eq.refl _, Eq.refl _, Eq.refl _⟩,
        fun h => or_keep _ (or_keep _ (or_keep _ (or_keep _ h)))⟩
    · rw [if_neg hs]
      exact ⟨⟨Eq.refl _, Eq.refl _, Eq.refl _, Eq.refl _, id, id, id, id, id, id, id, id⟩,
        ⟨Eq.refl _, Eq.refl _, Eq.refl _, Eq.refl _, Eq.refl _⟩, ⟨Eq.refl _, Eq.refl _⟩,
        ⟨Eq.refl _, Eq.refl _, Eq.refl _, Eq.refl _⟩,
        fun h => or_keep _ (or_keep _ (or_keep _ h))⟩
  · rw [if_neg hg]
    exact ⟨Kept.sameKept _, KeptEdits.sameEdits _, KeptAlpha.sameAlpha _, KeptHash.sameHash _, id⟩

theorem uiReset_kept (ui : UIInput) (u : UIStep) :
    Kept u.pass (uiReset ui u).pass ∧ KeptEdits u.pass (uiReset ui u).pass ∧
    KeptAlpha u.pass (uiReset ui u).pass ∧ KeptHash u.pass (uiReset ui u).pass ∧
    (u.dirty = true → (uiReset ui u).dirty = true) :=
  ⟨⟨Eq.refl _, Eq.refl _, Eq.refl _, Eq.refl _, id, id, id, id, id, id, fun h => or_keep _ h, id⟩,
    ⟨Eq.refl _, Eq.refl _, Eq.refl _, Eq.refl _, Eq.refl _⟩, ⟨Eq.refl _, Eq.refl _⟩,
    ⟨Eq.refl _, Eq.refl _, Eq.refl _, Eq.refl _⟩,
    fun h => or_keep _ h⟩

theorem uiFinish_kept (u : UIStep) :
    Kept u.pass (uiFinish u) ∧ KeptEdits u.pass (uiFinish u) ∧
    KeptAlpha u.pass (uiFinish u) ∧ KeptHash u.pass (uiFinish u) ∧
    (u.dirty = true → (uiFinish u).mOptionsChanged = true) ∧
    (u.dirty = false → (uiFinish u).mOptionsChanged = u.pass.mOptionsChanged) ∧
    (uiFinish u).mPhotonInfoFormatChanged = u.pass.mPhotonInfoFormatChanged := by
  unfold uiFinish
  by_cases hd : u.dirty = true
  · rw [if_pos hd]
    exact ⟨⟨Eq.refl _, Eq.refl _, Eq.refl _, Eq.refl _, id, id, id, id, id, id, id, fun _ => Eq.refl _⟩,
      ⟨Eq.refl _, Eq.refl _, Eq.refl _, Eq.refl _, Eq.refl _⟩, ⟨Eq.refl _, Eq.refl _⟩,
      ⟨Eq.refl _, Eq.refl _, Eq.refl _, Eq.refl _⟩,
      fun _ => Eq.refl _, fun h => absurd hd (by simp [h]), Eq.refl _⟩
  · rw [if_neg hd]
    exact ⟨Kept.sameKept _, KeptEdits.sameEdits _, KeptAlpha.sameAlpha _, KeptHash.sameHash _,
      fun h => absurd h hd, fun _ => Eq.refl _, Eq.refl _⟩

theorem KeptGrid.sameGrid (s : RTPM) : KeptGrid s s := ⟨Eq.refl _, Eq.refl _⟩

theorem KeptGrid.andGrid {a b c : RTPM} (h1 : KeptGrid a b) (h2 : KeptGrid b c) : KeptGrid a c :=
  ⟨h2.resetCS.trans h1.resetCS, h2.infoFormat.trans h1.infoFormat⟩

theorem uiBuffers_grid (ui : UIInput) (s : RTPM) : KeptGrid s (uiBuffers ui s) :=
  ⟨Eq.refl _, Eq.refl _⟩

theorem uiProgressive_grid (ui : UIInput) (u : UIStep) :
    KeptGrid u.pass (uiProgressive ui u).pass := by
  unfold uiProgressive
  by_cases h : (Gui.checkbox ui.useSPPM u.pass.mUseStatisticProgressivePM).1 = true
  · rw [if_pos h]; exact ⟨Eq.refl _, Eq.refl _⟩
  · rw [if_neg h]; exact ⟨Eq.refl _, Eq.refl _⟩

theorem uiStoreTimes_grid (ui : UIInput) (fs : FileSystem) (s : RTPM) :
    KeptGrid s (uiStoreTimes ui fs s).pass := by
  unfold uiStoreTimes
  by_cases h1 : s.mTimerRecordTimes = true
  · rw [if_pos h1]
    by_cases h2 : ui.storeTimes = true
    · rw [if_pos h2]
      cases ui.saveFileDialog with
      | none => exact KeptGrid.sameGrid s
      | some path =>
        show KeptGrid s (RTPM.outputTimes fs _).pass
        rw [outputTimes_pass]
        exact ⟨Eq.refl _, Eq.refl _⟩
    · rw [if_neg h2]; exact KeptGrid.sameGrid s
  · rw [if_neg h1]; exact KeptGrid.sameGrid s

theorem uiTimerClose_grid (resetTimer dirty : Bool) (o : OutputTimesResult) :
    KeptGrid o.pass (uiTimerClose resetTimer dirty o).step.pass := by
  unfold uiTimerClose
  cases o.raised with
  | some e => exact KeptGrid.sameGrid _
  | none => exact ⟨Eq.refl _, Eq.refl _⟩

theorem uiTimer_grid (ui : UIInput) (fs : FileSystem) (u : UIStep) :
    KeptGrid u.pass (uiTimer ui fs u).step.pass := by
  unfold uiTimer
  by_cases hg : ui.timerGroup = true
  · rw [if_pos hg]
    by_cases he : (Gui.checkbox ui.enableTimer u.pass.mUseTimer).1 = true
    · rw [if_pos he]
      have h1 : KeptGrid u.pass (uiTimerSettings ui
          (u.pass.setUseTimer (Gui.checkbox ui.enableTimer u.pass.mUseTimer).1)).1 :=
        ⟨Eq.refl _, Eq.refl _⟩
      exact (h1.andGrid (uiStoreTimes_grid ui fs _)).andGrid (uiTimerClose_grid _ _ _)
    · rw [if_neg he]
      have h1 : KeptGrid u.pass
          (u.pass.setUseTimer (Gui.checkbox ui.enableTimer u.pass.mUseTimer).1) :=
        ⟨Eq.refl _, Eq.refl _⟩
      exact h1.andGrid (uiTimerClose_grid (Gui.checkbox ui.enableTimer u.pass.mUseTimer).2 u.dirty
        { pass := u.pass.setUseTimer (Gui.checkbox ui.enableTimer u.pass.mUseTimer).1,
          fs := fs, raised := none })
  · rw [if_neg hg]; exact KeptGrid.sameGrid _

theorem uiRadius_grid (ui : UIInput) (u : UIStep) : KeptGrid u.pass (uiRadius ui u).pass := by
  unfold uiRadius
  by_cases hg : ui.radiusGroup = true
  · rw [if_pos hg]; exact ⟨Eq.refl _, Eq.refl _⟩
  · rw [if_neg hg]; exact KeptGrid.sameGrid _

theorem uiMaterial_grid (ui : UIInput) (u : UIStep) :
    KeptGrid u.pass (uiMaterial ui u).pass := by
  unfold uiMaterial
  by_cases hg : ui.materialGroup = true
  · rw [if_pos hg]; exact ⟨Eq.refl _, Eq.refl _⟩
  · rw [if_neg hg]; exact KeptGrid.sameGrid _

theorem uiLight_grid (ui : UIInput) (u : UIStep) : KeptGrid u.pass (uiLight ui u).pass := by
  unfold uiLight
  by_cases hg : ui.lightGroup = true
  · rw [if_pos hg]; exact ⟨Eq.refl _, Eq.refl _⟩
  · rw [if_neg hg]; exact KeptGrid.sameGrid _

theorem uiCollect_grid (ui : UIInput) (u : UIStep) : KeptGrid u.pass (uiCollect ui u).pass := by
  unfold uiCollect
  by_cases hg : ui.collectGroup = true
  · rw [if_pos hg]
    by_cases hs : (Gui.checkbox ui.stochasticCollection u.pass.mEnableStochasticCollection).1 = true
    · rw [if_pos hs]; exact ⟨Eq.refl _, Eq.refl _⟩
    · rw [if_neg hs]; exact ⟨Eq.refl _, Eq.refl _⟩
  · rw [if_neg hg]; exact KeptGrid.sameGrid _

theorem uiReset_grid (ui : UIInput) (u : UIStep) : KeptGrid u.pass (uiReset ui u).pass :=
  ⟨Eq.refl _, Eq.refl _⟩

theorem uiFinish_grid (u : UIStep) : KeptGrid u.pass (uiFinish u) := by
  unfold uiFinish
  by_cases hd : u.dirty = true
  · rw [if_pos hd]; exact ⟨Eq.refl _, Eq.refl _⟩
  · rw [if_neg hd]; exact KeptGrid.sameGrid _

/-! ### `renderUI`: the blocks put together -/

theorem Gui.var_snd {α : Type} [LinearOrder α] (input : Option α) (cur minVal maxVal : α) :
    (Gui.var input cur minVal maxVal).2 = input.isSome := by
  cases input <;> rfl

theorem Gui.checkbox_snd (input : Option Bool) (cur : Bool) :
    (Gui.checkbox input cur).2 = input.isSome := by
  cases input <;> rfl

theorem Gui.var_some {α : Type} [LinearOrder α] (v cur minVal maxVal : α) :
    (Gui.var (some v) cur minVal maxVal).1 = max minVal (min v maxVal) := rfl

/-- The two outcomes of `renderUI`. -/
theorem renderUI_cases (ui : UIInput) (fs : FileSystem) (s : RTPM) :
    ((uiTimer ui fs (uiBeforeTimer ui s)).raised = none →
      s.renderUI ui fs =
        { pass := uiAfterTimer ui (uiTimer ui fs (uiBeforeTimer ui s)).step,
          fs := (uiTimer ui fs (uiBeforeTimer ui s)).fs, raised := none }) ∧
    (∀ e, (uiTimer ui fs (uiBeforeTimer ui s)).raised = some e →
      s.renderUI ui fs =
        { pass := (uiTimer ui fs (uiBeforeTimer ui s)).step.pass,
          fs := (uiTimer ui fs (uiBeforeTimer ui s)).fs, raised := some e }) := by
  constructor
  · intro h; unfold RTPM.renderUI; rw [h]
  · intro e h; unfold RTPM.renderUI; rw [h]

theorem renderUI_raised (ui : UIInput) (fs : FileSystem) (s : RTPM) :
    (s.renderUI ui fs).raised = (uiTimer ui fs (uiBeforeTimer ui s)).raised := by
  cases h : (uiTimer ui fs (uiBeforeTimer ui s)).raised with
  | none => rw [(renderUI_cases ui fs s).1 h]
  | some e => rw [(renderUI_cases ui fs s).2 e h]

theorem uiBeforeTimer_kept (ui : UIInput) (s : RTPM) :
    Kept s (uiBeforeTimer ui s).pass ∧ KeptEdits (uiBuffers ui s) (uiBeforeTimer ui s).pass ∧
    KeptAlpha (uiProgressive ui { pass := uiBuffers ui s, dirty := false }).pass
      (uiBeforeTimer ui s).pass := by
  unfold uiBeforeTimer
  have h1 := uiBuffers_kept ui s
  have h2 := uiProgressive_kept ui { pass := uiBuffers ui s, dirty := false }
  have h3 := uiMisc_kept ui (uiProgressive ui { pass := uiBuffers ui s, dirty := false })
  exact ⟨(h1.andKept h2.1).andKept h3.1, h2.2.1.andEdits h3.2.1, h3.2.2.1⟩

theorem uiAfterHash_kept (ui : UIInput) (u : UIStep) :
    KeptHash u.pass
      (uiFinish (uiReset ui (uiCollect ui (uiInfoFormat ui (uiLight ui u))))) ∧
    (u.dirty = true →
      (uiFinish (uiReset ui (uiCollect ui (uiInfoFormat ui (uiLight ui u))))).mOptionsChanged
        = true) := by
  have h1 := uiLight_kept ui u
  have h2 := uiInfoFormat_kept ui (uiLight ui u)
  have h3 := uiCollect_kept ui (uiInfoFormat ui (uiLight ui u))
  have h4 := uiReset_kept ui (uiCollect ui (uiInfoFormat ui (uiLight ui u)))
  have h5 := uiFinish_kept (uiReset ui (uiCollect ui (uiInfoFormat ui (uiLight ui u))))
  exact ⟨((h1.2.2.2.1.andHash h2.2.2.2.1).andHash h3.2.2.2.1).andHash
      (h4.2.2.2.1.andHash h5.2.2.2.1),
    fun h => h5.2.2.2.2.1 (h4.2.2.2.2 (h3.2.2.2.2 (h2.2.2.2.2 (h1.2.2.2.2 h))))⟩

theorem uiAfterTimer_kept (ui : UIInput) (u : UIStep) :
    Kept u.pass (uiAfterTimer ui u) ∧ KeptEdits u.pass (uiAfterTimer ui u) ∧
    KeptAlpha u.pass (uiAfterTimer ui u) ∧
    (u.dirty = true → (uiAfterTimer ui u).mOptionsChanged = true) := by
  unfold uiAfterTimer
  have h1 := uiRadius_kept ui u
  have h2 := uiMaterial_kept ui (uiRadius ui u)
  have h3 := uiHash_kept ui (uiMaterial ui (uiRadius ui u))
  have h4 := uiLight_kept ui (uiHash ui (uiMaterial ui (uiRadius ui u)))
  have h5 := uiInfoFormat_kept ui (uiLight ui (uiHash ui (uiMaterial ui (uiRadius ui u))))
  have h6 := uiCollect_kept ui
    (uiInfoFormat ui (uiLight ui (uiHash ui (uiMaterial ui (uiRadius ui u)))))
  have h7 := uiReset_kept ui (uiCollect ui
    (uiInfoFormat ui (uiLight ui (uiHash ui (uiMaterial ui (uiRadius ui u))))))
  have h8 := uiFinish_kept (uiReset ui (uiCollect ui
    (uiInfoFormat ui (uiLight ui (uiHash ui (uiMaterial ui (uiRadius ui u)))))))
  exact ⟨((((((h1.1.andKept h2.1).andKept h3.1).andKept h4.1).andKept h5.1).andKept h6.1).andKept h7.1).andKept
      h8.1,
    ((((((h1.2.1.andEdits h2.2.1).andEdits h3.2.1).andEdits h4.2.1).andEdits h5.2.1).andEdits h6.2.1).andEdits
      h7.2.1).andEdits h8.2.1,
    ((((((h1.2.2.1.andAlpha h2.2.2.1).andAlpha h3.2.2.1).andAlpha h4.2.2.1).andAlpha h5.2.2.1).andAlpha
      h6.2.2.1).andAlpha h7.2.2.1).andAlpha h8.2.2.1,
    fun h => (uiAfterHash_kept ui _).2 (h3.2.2.2 (h2.2.2.2 (h1.2.2.2 h)))⟩

/-- Whatever the widgets report and however the call ends, `renderUI` keeps
the runtime photon count, the buffer sizes and every raised request flag, and
leaves the edited members and the alphas as the first two blocks set them. -/
theorem renderUI_kept (ui : UIInput) (fs : FileSystem) (s : RTPM) :
    Kept s (s.renderUI ui fs).pass ∧ KeptEdits (uiBuffers ui s) (s.renderUI ui fs).pass ∧
    KeptAlpha (uiProgressive ui { pass := uiBuffers ui s, dirty := false }).pass
      (s.renderUI ui fs).pass := by
  have hb := uiBeforeTimer_kept ui s
  have ht := uiTimer_kept ui fs (uiBeforeTimer ui s)
  cases h : (uiTimer ui fs (uiBeforeTimer ui s)).raised with
  | none =>
    rw [(renderUI_cases ui fs s).1 h]
    have ha := uiAfterTimer_kept ui (uiTimer ui fs (uiBeforeTimer ui s)).step
    exact ⟨(hb.1.andKept ht.1).andKept ha.1, (hb.2.1.andEdits ht.2.1).andEdits ha.2.1,
      (hb.2.2.andAlpha ht.2.2.1).andAlpha ha.2.2.1⟩
  | some e =>
    rw [(renderUI_cases ui fs s).2 e h]
    exact ⟨hb.1.andKept ht.1, hb.2.1.andEdits ht.2.1, hb.2.2.andAlpha ht.2.2.1⟩

/-! ### The recorded times -/

/-- A `checkTimer` call that evaluates the stop criteria with recording
enabled appends exactly one value: the time elapsed since the timer's start
when the duration limit is used, and otherwise the elapsed time the pass held
before the call. -/
theorem checkTimer_appends (now : ℚ) (s : RTPM)
    (hUse : s.mUseTimer = true) (hReset : s.mResetTimer = false)
    (hStop : s.mTimerStopRenderer = false) (hRec : s.mTimerRecordTimes = true) :
    (s.checkTimer now).mTimesList
      = s.mTimesList ++ [if s.mTimerDurationSec ≠ 0 then now - s.mTimerStartTime
                         else s.mCurrentElapsedTime] := by
  rw [checkTimer_running now s hUse hReset hStop]
  obtain ⟨_, t2, t3, _, _, t6, _⟩ := checkTime_fields now s
  obtain ⟨_, i2, i3, i4, _⟩ := checkIterations_fields (s.checkTime now)
  obtain ⟨_, _, r3, _⟩ := recordTime_fields (s.checkTime now).checkIterations
  rw [r3, i4, t6, if_pos hRec, i3, t3, i2, t2]

/-- C12 fails on the code: a timer with no duration limit (only the iteration
limit 100) and recording enabled, started at clock reading 10.  `checkTimer`
at clock reading 75 appends `0`, the elapsed time the pass held before the
call, although 65 seconds have elapsed since the start; the call at clock
reading 80 appends `0` again. -/
theorem checkTimer_records_stale_time :
    iterationLimitedPass.mTimerDurationSec = 0 ∧
    iterationLimitedPass.mTimesList = [] ∧
    (iterationLimitedPass.checkTimer 75).mTimesList = [0] ∧
    (75 : ℚ) - iterationLimitedPass.mTimerStartTime = 65 ∧
    ((iterationLimitedPass.checkTimer 75).checkTimer 80).mTimesList = [0, 0] := by
  refine ⟨rfl, rfl, by decide, by norm_num [iterationLimitedPass], by decide⟩

/-! ### `renderUI`: the request flags -/

theorem Gui.dropdown_snd {α : Type} [DecidableEq α] (values : List α) (input : Option α)
    (cur : α) :
    (Gui.dropdown values input cur).2 = true ↔ ∃ v, v ∈ values ∧ input = some v := by
  cases input with
  | none => simp [Gui.dropdown]
  | some v =>
    by_cases h : v ∈ values
    · simp [Gui.dropdown, h]
    · simp [Gui.dropdown, h]

theorem isSome_eq_true_iff_ne_none {α : Type} (o : Option α) : o.isSome = true ↔ o ≠ none := by
  cases o <;> simp

/-- The two grid request flags after the blocks up to the group "Timer". -/
theorem uiBeforeTimer_grid (ui : UIInput) (s : RTPM) :
    (uiBeforeTimer ui s).pass.mResetCS = (s.mResetCS || ui.faceNormalRejection.isSome) ∧
    (uiBeforeTimer ui s).pass.mPhotonInfoFormatChanged = s.mPhotonInfoFormatChanged := by
  have h1 := uiBuffers_grid ui s
  have h2 := uiProgressive_grid ui { pass := uiBuffers ui s, dirty := false }
  have h12 := h1.andGrid h2
  unfold uiBeforeTimer
  constructor
  · show ((uiProgressive ui { pass := uiBuffers ui s, dirty := false }).pass.mResetCS
        || (Gui.checkbox ui.faceNormalRejection _).2) = _
    rw [h12.resetCS, Gui.checkbox_snd]
  · show (uiProgressive ui { pass := uiBuffers ui s, dirty := false }).pass.mPhotonInfoFormatChanged
        = _
    exact h12.infoFormat

/-- What the group "Hash Options" does when it is unfolded. -/
theorem uiHash_open (ui : UIInput) (u : UIStep) (hg : ui.hashGroup = true) :
    (uiHash ui u).pass.mResetCS
      = ((u.pass.mResetCS || ui.photonsPerBucket.isSome) || ui.bucketBits.isSome) ∧
    (uiHash ui u).dirty
      = ((u.dirty || ui.probeIterations.isSome)
          || ((u.pass.mResetCS || ui.photonsPerBucket.isSome) || ui.bucketBits.isSome)) ∧
    (uiHash ui u).pass.mNumBucketBits = (Gui.var ui.bucketBits u.pass.mNumBucketBits 2 32).1 ∧
    (uiHash ui u).pass.mPhotonInfoFormatChanged = u.pass.mPhotonInfoFormatChanged := by
  unfold uiHash
  rw [if_pos hg]
  refine ⟨?_, ?_, Eq.refl _, Eq.refl _⟩
  · show ((u.pass.mResetCS || (Gui.var ui.photonsPerBucket _ 2 32).2)
        || (Gui.var ui.bucketBits _ 2 32).2) = _
    rw [Gui.var_snd, Gui.var_snd]
  · show ((u.dirty || (Gui.var ui.probeIterations _ 0 100).2)
        || ((u.pass.mResetCS || (Gui.var ui.photonsPerBucket _ 2 32).2)
          || (Gui.var ui.bucketBits _ 2 32).2)) = _
    rw [Gui.var_snd, Gui.var_snd, Gui.var_snd]

theorem uiHash_closed (ui : UIInput) (u : UIStep) (hg : ¬ ui.hashGroup = true) :
    uiHash ui u = u := by
  unfold uiHash
  rw [if_neg hg]

/-- The blocks after the dropdown "Photon Info size": a `dirty` that is set
ends as `mOptionsChanged`, and the grid request flags stay as they are. -/
theorem uiAfterInfo_kept (ui : UIInput) (u : UIStep) :
    KeptGrid u.pass (uiFinish (uiReset ui (uiCollect ui u))) ∧
    (u.dirty = true → (uiFinish (uiReset ui (uiCollect ui u))).mOptionsChanged = true) := by
  have h3 := uiCollect_kept ui u
  have h4 := uiReset_kept ui (uiCollect ui u)
  have h5 := uiFinish_kept (uiReset ui (uiCollect ui u))
  exact ⟨((uiCollect_grid ui u).andGrid (uiReset_grid ui _)).andGrid (uiFinish_grid _),
    fun h => h5.2.2.2.2.1 (h4.2.2.2.2 (h3.2.2.2.2 h))⟩

/-- What the dropdown "Photon Info size" does. -/
theorem uiInfoFormat_fields (ui : UIInput) (u : UIStep) :
    (uiInfoFormat ui u).pass.mResetCS = u.pass.mResetCS ∧
    (uiInfoFormat ui u).pass.mPhotonInfoFormatChanged
      = (u.pass.mPhotonInfoFormatChanged
          || (Gui.dropdown kInfoTexDropdownList ui.infoTexFormat u.pass.mInfoTexFormat).2) ∧
    (uiInfoFormat ui u).dirty
      = (u.dirty || (u.pass.mPhotonInfoFormatChanged
          || (Gui.dropdown kInfoTexDropdownList ui.infoTexFormat u.pass.mInfoTexFormat).2)) :=
  ⟨Eq.refl _, Eq.refl _, Eq.refl _⟩

/-- The two grid request flags and `mOptionsChanged` after the blocks that
follow the group "Timer", in terms of the pass and `dirty` before them. -/
theorem uiAfterTimer_grid (ui : UIInput) (u : UIStep) :
    ((uiAfterTimer ui u).mResetCS = true ↔
      u.pass.mResetCS = true ∨
        (ui.hashGroup = true ∧ (ui.photonsPerBucket ≠ none ∨ ui.bucketBits ≠ none))) ∧
    ((uiAfterTimer ui u).mPhotonInfoFormatChanged = true ↔
      u.pass.mPhotonInfoFormatChanged = true ∨
        ∃ v, v ∈ kInfoTexDropdownList ∧ ui.infoTexFormat = some v) ∧
    (ui.hashGroup = true →
      (ui.probeIterations ≠ none ∨ ui.photonsPerBucket ≠ none ∨ ui.bucketBits ≠ none) →
      (uiAfterTimer ui u).mOptionsChanged = true) ∧
    ((∃ v, v ∈ kInfoTexDropdownList ∧ ui.infoTexFormat = some v) →
      (uiAfterTimer ui u).mOptionsChanged = true) := by
  have hR := uiRadius_grid ui u
  have hM := uiMaterial_grid ui (uiRadius ui u)
  have hRM := hR.andGrid hM
  have hL := uiLight_grid ui (uiHash ui (uiMaterial ui (uiRadius ui u)))
  have hLd := (uiLight_kept ui (uiHash ui (uiMaterial ui (uiRadius ui u)))).2.2.2.2
  have hI := uiInfoFormat_fields ui (uiLight ui (uiHash ui (uiMaterial ui (uiRadius ui u))))
  have hA := uiAfterInfo_kept ui
    (uiInfoFormat ui (uiLight ui (uiHash ui (uiMaterial ui (uiRadius ui u)))))
  have hcs : (uiAfterTimer ui u).mResetCS
      = (uiHash ui (uiMaterial ui (uiRadius ui u))).pass.mResetCS := by
    unfold uiAfterTimer
    rw [hA.1.resetCS, hI.1, hL.resetCS]
  have hpi : (uiAfterTimer ui u).mPhotonInfoFormatChanged
      = ((uiHash ui (uiMaterial ui (uiRadius ui u))).pass.mPhotonInfoFormatChanged
          || (Gui.dropdown kInfoTexDropdownList ui.infoTexFormat
            (uiLight ui (uiHash ui (uiMaterial ui (uiRadius ui u)))).pass.mInfoTexFormat).2) := by
    unfold uiAfterTimer
    rw [hA.1.infoFormat, hI.2.1, hL.infoFormat]
  have hpi2 : (uiHash ui (uiMaterial ui (uiRadius ui u))).pass.mPhotonInfoFormatChanged
      = u.pass.mPhotonInfoFormatChanged := by
    by_cases hg : ui.hashGroup = true
    · rw [(uiHash_open ui _ hg).2.2.2, hRM.infoFormat]
    · rw [uiHash_closed ui _ hg, hRM.infoFormat]
  refine ⟨?_, ?_, ?_, ?_⟩
  · rw [hcs]
    by_cases hg : ui.hashGroup = true
    · rw [(uiHash_open ui _ hg).1, hRM.resetCS]
      simp only [Bool.or_eq_true, isSome_eq_true_iff_ne_none]
      constructor
      · rintro ((h | h) | h)
        · exact Or.inl h
        · exact Or.inr ⟨hg, Or.inl h⟩
        · exact Or.inr ⟨hg, Or.inr h⟩
      · rintro (h | ⟨_, h | h⟩)
        · exact Or.inl (Or.inl h)
        · exact Or.inl (Or.inr h)
        · exact Or.inr h
    · rw [uiHash_closed ui _ hg, hRM.resetCS]
      constructor
      · exact fun h => Or.inl h
      · rintro (h | ⟨h, _⟩)
        · exact h
        · exact absurd h hg
  · rw [hpi, hpi2, Bool.or_eq_true, Gui.dropdown_snd]
  · intro hg hedit
    unfold uiAfterTimer
    apply (uiAfterHash_kept ui _).2
    rw [(uiHash_open ui _ hg).2.1]
    simp only [Bool.or_eq_true, isSome_eq_true_iff_ne_none]
    rcases hedit with h | h | h
    · exact Or.inl (Or.inr h)
    · exact Or.inr (Or.inl (Or.inr h))
    · exact Or.inr (Or.inr h)
  · intro hedit
    unfold uiAfterTimer
    apply hA.2
    rw [hI.2.2]
    exact or_keep_right _ (or_keep_right _ ((Gui.dropdown_snd _ _ _).2 hedit))

/-- C13 as stated fails: no request is pending, the user sets the probe
iteration bound to 5 and touches nothing else.  The call completes with
`mOptionsChanged` set (the iteration and radius reset), but neither grid
rebuild request is raised. -/
theorem renderUI_probe_edit_requests_no_rebuild :
    settledPass.mResetCS = false ∧ settledPass.mPhotonInfoFormatChanged = false ∧
    (settledPass.renderUI probeEdit readOnlyFiles).raised = none ∧
    (settledPass.renderUI probeEdit readOnlyFiles).pass.mQuadraticProbeIterations = 5 ∧
    (settledPass.renderUI probeEdit readOnlyFiles).pass.mOptionsChanged = true ∧
    (settledPass.renderUI probeEdit readOnlyFiles).pass.mResetCS = false ∧
    (settledPass.renderUI probeEdit readOnlyFiles).pass.mPhotonInfoFormatChanged = false := by
  decide

/-- C13 as amended: in a `renderUI` call that completes, a change reported by
the sliders "Bucket size (bits)" or "Num Photons per bucket" leaves
`mOptionsChanged` and the grid request `mResetCS` set, and a change reported
by the dropdown "Photon Info size" leaves `mOptionsChanged` and the grid
request `mPhotonInfoFormatChanged` set.  A change reported by "Quadradic Probe
Iterations" leaves `mOptionsChanged` set and requests no grid rebuild:
`mResetCS` is set after the call exactly when it was set before, or the
checkbox "Use Photon Face Normal Rejection" or one of the two sliders reported
a change, and `mPhotonInfoFormatChanged` exactly when it was set before or the
dropdown reported a change. -/
theorem renderUI_structural_change (ui : UIInput) (fs : FileSystem) (s : RTPM)
    (hdone : (s.renderUI ui fs).raised = none) :
    (ui.hashGroup = true → (ui.bucketBits ≠ none ∨ ui.photonsPerBucket ≠ none) →
      (s.renderUI ui fs).pass.mOptionsChanged = true ∧
      (s.renderUI ui fs).pass.mResetCS = true) ∧
    ((∃ v, v ∈ kInfoTexDropdownList ∧ ui.infoTexFormat = some v) →
      (s.renderUI ui fs).pass.mOptionsChanged = true ∧
      (s.renderUI ui fs).pass.mPhotonInfoFormatChanged = true) ∧
    (ui.hashGroup = true → ui.probeIterations ≠ none →
      (s.renderUI ui fs).pass.mOptionsChanged = true) ∧
    ((s.renderUI ui fs).pass.mResetCS = true ↔
      s.mResetCS = true ∨ ui.faceNormalRejection ≠ none ∨
        (ui.hashGroup = true ∧ (ui.photonsPerBucket ≠ none ∨ ui.bucketBits ≠ none))) ∧
    ((s.renderUI ui fs).pass.mPhotonInfoFormatChanged = true ↔
      s.mPhotonInfoFormatChanged = true ∨
        ∃ v, v ∈ kInfoTexDropdownList ∧ ui.infoTexFormat = some v) := by
  rw [renderUI_raised] at hdone
  rw [(renderUI_cases ui fs s).1 hdone]
  have hB := uiBeforeTimer_grid ui s
  have hT := uiTimer_grid ui fs (uiBeforeTimer ui s)
  have hA := uiAfterTimer_grid ui (uiTimer ui fs (uiBeforeTimer ui s)).step
  have hcs : (uiTimer ui fs (uiBeforeTimer ui s)).step.pass.mResetCS = true ↔
      s.mResetCS = true ∨ ui.faceNormalRejection ≠ none := by
    rw [hT.resetCS, hB.1, Bool.or_eq_true, isSome_eq_true_iff_ne_none]
  have hpi : (uiTimer ui fs (uiBeforeTimer ui s)).step.pass.mPhotonInfoFormatChanged
      = s.mPhotonInfoFormatChanged := by
    rw [hT.infoFormat, hB.2]
  refine ⟨?_, ?_, ?_, ?_, ?_⟩
  · intro hg hedit
    refine ⟨hA.2.2.1 hg ?_, hA.1.2 (Or.inr ⟨hg, hedit.symm⟩)⟩
    rcases hedit with h | h
    · exact Or.inr (Or.inr h)
    · exact Or.inr (Or.inl h)
  · intro hedit
    exact ⟨hA.2.2.2 hedit, hA.2.1.2 (Or.inr hedit)⟩
  · intro hg hedit
    exact hA.2.2.1 hg (Or.inl hedit)
  · show (uiAfterTimer ui (uiTimer ui fs (uiBeforeTimer ui s)).step).mResetCS = true ↔ _
    rw [hA.1, hcs]
    constructor
    · rintro ((h | h) | h)
      · exact Or.inl h
      · exact Or.inr (Or.inl h)
      · exact Or.inr (Or.inr h)
    · rintro (h | h | h)
      · exact Or.inl (Or.inl h)
      · exact Or.inl (Or.inr h)
      · exact Or.inr h
  · show (uiAfterTimer ui (uiTimer ui fs (uiBeforeTimer ui s)).step).mPhotonInfoFormatChanged
        = true ↔ _
    rw [hA.2.1, hpi]

/-- C13 as amended, at the frame in which only the probe iteration bound is
edited: the call completes and `mOptionsChanged` is set. -/
theorem renderUI_structural_change_witness :
    (settledPass.renderUI probeEdit readOnlyFiles).raised = none ∧
    (settledPass.renderUI probeEdit readOnlyFiles).pass.mOptionsChanged = true :=
  ⟨by decide,
    (renderUI_structural_change probeEdit readOnlyFiles settledPass (by decide)).2.2.1
      (by decide) (by decide)⟩

/-! ### `renderUI`: the buffer requests -/

/-- C14: after every `renderUI` call, however it ends, `mFitBuffersToPhotonShot`
being set implies `mNumPhotonsChanged` is set; and a press of "Fit Buffers"
leaves both set. -/
theorem renderUI_fit_raises_photon_change (ui : UIInput) (fs : FileSystem) (s : RTPM) :
    ((s.renderUI ui fs).pass.mFitBuffersToPhotonShot = true →
      (s.renderUI ui fs).pass.mNumPhotonsChanged = true) ∧
    (ui.fitBuffers = true →
      (s.renderUI ui fs).pass.mFitBuffersToPhotonShot = true ∧
      (s.renderUI ui fs).pass.mNumPhotonsChanged = true) := by
  have h := (renderUI_kept ui fs s).2.1
  have hfit : (s.renderUI ui fs).pass.mFitBuffersToPhotonShot
      = (s.mFitBuffersToPhotonShot || ui.fitBuffers) := h.fitBuffers
  have hnum : (s.renderUI ui fs).pass.mNumPhotonsChanged
      = ((s.mNumPhotonsChanged || ui.apply) || (s.mFitBuffersToPhotonShot || ui.fitBuffers)) :=
    h.photonsChanged
  rw [hfit, hnum]
  exact ⟨fun h => or_keep_right _ h,
    fun h => ⟨or_keep_right _ h, or_keep_right _ (or_keep_right _ h)⟩⟩

/-- C14 at the frame in which "Fit Buffers" is pressed on a pass with no
request pending. -/
theorem renderUI_fit_raises_photon_change_witness :
    (settledPass.renderUI fitPress readOnlyFiles).pass.mFitBuffersToPhotonShot = true ∧
    (settledPass.renderUI fitPress readOnlyFiles).pass.mNumPhotonsChanged = true :=
  (renderUI_fit_raises_photon_change fitPress readOnlyFiles settledPass).2 (by decide)

/-- C15: whatever the widgets report and however the call ends, `renderUI`
leaves the runtime photon count `mNumPhotons` and the `maxSize` of both photon
buffers unchanged.  The photon number and buffer size widgets and the two
buttons write `mNumPhotonsUI`, `mCausticBufferSizeUI`, `mGlobalBufferSizeUI`,
`mNumPhotonsChanged` and `mFitBuffersToPhotonShot` and no other member, and
the rest of the call leaves these five as the widgets set them. -/
theorem renderUI_defers_resize (ui : UIInput) (fs : FileSystem) (s : RTPM) :
    (s.renderUI ui fs).pass.mNumPhotons = s.mNumPhotons ∧
    (s.renderUI ui fs).pass.mGlobalBuffersMaxSize = s.mGlobalBuffersMaxSize ∧
    (s.renderUI ui fs).pass.mCausticBuffersMaxSize = s.mCausticBuffersMaxSize ∧
    (uiBuffers ui s).withoutBufferEdits = s.withoutBufferEdits ∧
    (s.renderUI ui fs).pass.mNumPhotonsUI
      = (Gui.var ui.numPhotons s.mNumPhotonsUI 1000 UINT_MAX).1 ∧
    (s.renderUI ui fs).pass.mCausticBufferSizeUI
      = (Gui.var ui.causticBufferSize s.mCausticBufferSizeUI 1000 UINT_MAX).1 ∧
    (s.renderUI ui fs).pass.mGlobalBufferSizeUI
      = (Gui.var ui.globalBufferSize s.mGlobalBufferSizeUI 1000 UINT_MAX).1 ∧
    (s.renderUI ui fs).pass.mNumPhotonsChanged
      = ((s.mNumPhotonsChanged || ui.apply) || (s.mFitBuffersToPhotonShot || ui.fitBuffers)) ∧
    (s.renderUI ui fs).pass.mFitBuffersToPhotonShot
      = (s.mFitBuffersToPhotonShot || ui.fitBuffers) := by
  have h := renderUI_kept ui fs s
  exact ⟨h.1.numPhotons, h.1.globalMax, h.1.causticMax, Eq.refl _, h.2.1.numPhotonsUI,
    h.2.1.causticUI, h.2.1.globalUI, h.2.1.photonsChanged, h.2.1.fitBuffers⟩

/-- C20: whatever the widgets report and however the call ends, each of the
eight request flags that is set before a `renderUI` call is set after it. -/
theorem renderUI_keeps_requests (ui : UIInput) (fs : FileSystem) (s : RTPM) :
    (s.mNumPhotonsChanged = true → (s.renderUI ui fs).pass.mNumPhotonsChanged = true) ∧
    (s.mFitBuffersToPhotonShot = true →
      (s.renderUI ui fs).pass.mFitBuffersToPhotonShot = true) ∧
    (s.mResetCS = true → (s.renderUI ui fs).pass.mResetCS = true) ∧
    (s.mResetTimer = true → (s.renderUI ui fs).pass.mResetTimer = true) ∧
    (s.mRebuildLightTex = true → (s.renderUI ui fs).pass.mRebuildLightTex = true) ∧
    (s.mPhotonInfoFormatChanged = true →
      (s.renderUI ui fs).pass.mPhotonInfoFormatChanged = true) ∧
    (s.mResetIterations = true → (s.renderUI ui fs).pass.mResetIterations = true) ∧
    (s.mOptionsChanged = true → (s.renderUI ui fs).pass.mOptionsChanged = true) := by
  have h := (renderUI_kept ui fs s).1
  exact ⟨h.photonsChanged, h.fitBuffers, h.resetCS, h.resetTimer, h.rebuildLightTex,
    h.infoFormat, h.resetIterations, h.optionsChanged⟩

/-- C20 at a pass with every request queued, in a frame in which the user
touches nothing but unfolds every group. -/
theorem renderUI_keeps_requests_witness :
    (queuedPass.renderUI unfoldedFrame readOnlyFiles).pass.mNumPhotonsChanged = true ∧
    (queuedPass.renderUI unfoldedFrame readOnlyFiles).pass.mResetTimer = true ∧
    (queuedPass.renderUI unfoldedFrame readOnlyFiles).pass.mOptionsChanged = true :=
  ⟨(renderUI_keeps_requests unfoldedFrame readOnlyFiles queuedPass).1 (by decide),
    (renderUI_keeps_requests unfoldedFrame readOnlyFiles queuedPass).2.2.2.1 (by decide),
    (renderUI_keeps_requests unfoldedFrame readOnlyFiles queuedPass).2.2.2.2.2.2.2 (by decide)⟩

/-! ### `renderUI`: the admitted values -/

theorem clamp_bounds {α : Type} [LinearOrder α] (v lo hi : α) (h : lo ≤ hi) :
    lo ≤ max lo (min v hi) ∧ max lo (min v hi) ≤ hi :=
  ⟨le_max_left _ _, max_le h (min_le_right _ _)⟩

theorem clamp_inside {α : Type} [LinearOrder α] (v lo hi : α) (h1 : lo ≤ v) (h2 : v ≤ hi) :
    max lo (min v hi) = v := by
  rw [min_eq_left h2, max_eq_right h1]

/-- The alphas after the block `// Progressive PM`. -/
theorem uiProgressive_alpha (ui : UIInput) (u : UIStep) :
    ((Gui.checkbox ui.useSPPM u.pass.mUseStatisticProgressivePM).1 = true →
      (uiProgressive ui u).pass.mSPPMAlphaGlobal
        = (Gui.var ui.globalAlpha u.pass.mSPPMAlphaGlobal (1 / 10) 1).1 ∧
      (uiProgressive ui u).pass.mSPPMAlphaCaustic
        = (Gui.var ui.causticAlpha u.pass.mSPPMAlphaCaustic (1 / 10) 1).1) ∧
    ((Gui.checkbox ui.useSPPM u.pass.mUseStatisticProgressivePM).1 = false →
      (uiProgressive ui u).pass.mSPPMAlphaGlobal = u.pass.mSPPMAlphaGlobal ∧
      (uiProgressive ui u).pass.mSPPMAlphaCaustic = u.pass.mSPPMAlphaCaustic) := by
  unfold uiProgressive
  constructor
  · intro h
    rw [if_pos h]
    exact ⟨Eq.refl _, Eq.refl _⟩
  · intro h
    rw [if_neg (by simp [h])]
    exact ⟨Eq.refl _, Eq.refl _⟩

/-- The alphas after `renderUI` while "Use SPPM" is ticked. -/
theorem renderUI_alpha (ui : UIInput) (fs : FileSystem) (s : RTPM)
    (hshown : (Gui.checkbox ui.useSPPM s.mUseStatisticProgressivePM).1 = true) :
    (s.renderUI ui fs).pass.mSPPMAlphaGlobal
      = (Gui.var ui.globalAlpha s.mSPPMAlphaGlobal (1 / 10) 1).1 ∧
    (s.renderUI ui fs).pass.mSPPMAlphaCaustic
      = (Gui.var ui.causticAlpha s.mSPPMAlphaCaustic (1 / 10) 1).1 := by
  have h := (renderUI_kept ui fs s).2.2
  have hp := (uiProgressive_alpha ui { pass := uiBuffers ui s, dirty := false }).1 hshown
  exact ⟨h.alphaGlobal.trans hp.1, h.alphaCaustic.trans hp.2⟩

/-- C18 as stated fails: the user drags "Global Alpha" to 1; the widget keeps
the value, and 1 is not inside the open interval `(0, 1)`. -/
theorem renderUI_admits_alpha_one :
    (Gui.checkbox alphaEdit.useSPPM ({} : RTPM).mUseStatisticProgressivePM).1 = true ∧
    (({} : RTPM).renderUI alphaEdit readOnlyFiles).pass.mSPPMAlphaGlobal = 1 ∧
    ¬ ((({} : RTPM).renderUI alphaEdit readOnlyFiles).pass.mSPPMAlphaGlobal < 1) := by
  have h := (renderUI_alpha alphaEdit readOnlyFiles {} (by decide)).1
  have hv : (({} : RTPM).renderUI alphaEdit readOnlyFiles).pass.mSPPMAlphaGlobal = 1 := by
    rw [h]
    show max (1 / 10 : ℚ) (min 1 1) = 1
    norm_num
  refine ⟨by decide, hv, ?_⟩
  rw [hv]
  norm_num

/-- C18 as amended: both alphas have the default 0.7, and the values the
widgets "Global Alpha" and "Caustic Alpha" admit are those of the closed
interval `[0.1, 1]`: while "Use SPPM" is ticked, an edit to `v` leaves the
alpha at `v` brought into `[0.1, 1]`, so at least 0.1 (above 0) and at most 1,
and every `v` of `[0.1, 1]`, the end point 1 included, is kept as it is. -/
theorem renderUI_alpha_range (ui : UIInput) (fs : FileSystem) (s : RTPM) :
    ({} : RTPM).mSPPMAlphaGlobal = 7 / 10 ∧ ({} : RTPM).mSPPMAlphaCaustic = 7 / 10 ∧
    ((Gui.checkbox ui.useSPPM s.mUseStatisticProgressivePM).1 = true →
      (∀ v, ui.globalAlpha = some v →
        (s.renderUI ui fs).pass.mSPPMAlphaGlobal = max (1 / 10) (min v 1) ∧
        0 < (s.renderUI ui fs).pass.mSPPMAlphaGlobal ∧
        1 / 10 ≤ (s.renderUI ui fs).pass.mSPPMAlphaGlobal ∧
        (s.renderUI ui fs).pass.mSPPMAlphaGlobal ≤ 1 ∧
        (1 / 10 ≤ v → v ≤ 1 → (s.renderUI ui fs).pass.mSPPMAlphaGlobal = v)) ∧
      (∀ v, ui.causticAlpha = some v →
        (s.renderUI ui fs).pass.mSPPMAlphaCaustic = max (1 / 10) (min v 1) ∧
        0 < (s.renderUI ui fs).pass.mSPPMAlphaCaustic ∧
        1 / 10 ≤ (s.renderUI ui fs).pass.mSPPMAlphaCaustic ∧
        (s.renderUI ui fs).pass.mSPPMAlphaCaustic ≤ 1 ∧
        (1 / 10 ≤ v → v ≤ 1 → (s.renderUI ui fs).pass.mSPPMAlphaCaustic = v))) := by
  refine ⟨rfl, rfl, ?_⟩
  intro hshown
  have h := renderUI_alpha ui fs s hshown
  have hb : ∀ v : ℚ, (1 / 10 : ℚ) ≤ max (1 / 10) (min v 1) ∧ max (1 / 10) (min v 1) ≤ 1 :=
    fun v => clamp_bounds v (1 / 10) 1 (by norm_num)
  constructor
  · intro v hv
    rw [h.1, hv, Gui.var_some]
    exact ⟨rfl, lt_of_lt_of_le (by norm_num) (hb v).1, (hb v).1, (hb v).2,
      fun h1 h2 => clamp_inside v _ _ h1 h2⟩
  · intro v hv
    rw [h.2, hv, Gui.var_some]
    exact ⟨rfl, lt_of_lt_of_le (by norm_num) (hb v).1, (hb v).1, (hb v).2,
      fun h1 h2 => clamp_inside v _ _ h1 h2⟩

/-- C18 as amended, at the frame in which "Global Alpha" is dragged to 1 on
the default pass. -/
theorem renderUI_alpha_range_witness :
    (({} : RTPM).renderUI alphaEdit readOnlyFiles).pass.mSPPMAlphaGlobal
        = max (1 / 10) (min 1 1) ∧
    (({} : RTPM).renderUI alphaEdit readOnlyFiles).pass.mSPPMAlphaGlobal ≤ 1 :=
  ⟨(((renderUI_alpha_range alphaEdit readOnlyFiles {}).2.2 (by decide)).1 1 rfl).1,
    (((renderUI_alpha_range alphaEdit readOnlyFiles {}).2.2 (by decide)).1 1 rfl).2.2.2.1⟩

/-- The bucket-bit count after a `renderUI` call that completes with the group
"Hash Options" unfolded and the slider "Bucket size (bits)" dragged to `v`. -/
theorem renderUI_bucket_bits (ui : UIInput) (fs : FileSystem) (s : RTPM) (v : Nat)
    (hdone : (s.renderUI ui fs).raised = none) (hg : ui.hashGroup = true)
    (hv : ui.bucketBits = some v) :
    (s.renderUI ui fs).pass.mNumBucketBits = max 2 (min v 32) := by
  rw [renderUI_raised] at hdone
  rw [(renderUI_cases ui fs s).1 hdone]
  show (uiAfterTimer ui (uiTimer ui fs (uiBeforeTimer ui s)).step).mNumBucketBits = _
  unfold uiAfterTimer
  rw [(uiAfterHash_kept ui _).1.bucketBits, (uiHash_open ui _ hg).2.2.1, hv, Gui.var_some]

/-- C19 fails on the code: the slider "Bucket size (bits)" admits the values
2 to 32.  For a count below 32 the bucket count `2^b` is positive and fits the
32-bit member, but the right end 32 is admitted as well: the default pass
keeps the edit to 32, and `2^32` is `0` in the 32-bit member `mNumBuckets`. -/
theorem bucket_bits_slider_admits_32 :
    (∀ (ui : UIInput) (fs : FileSystem) (s : RTPM) (v : Nat),
      (s.renderUI ui fs).raised = none → ui.hashGroup = true → ui.bucketBits = some v →
      2 ≤ (s.renderUI ui fs).pass.mNumBucketBits ∧
      (s.renderUI ui fs).pass.mNumBucketBits ≤ 32) ∧
    (∀ s : RTPM, s.mNumBucketBits < 32 →
      s.numBuckets32 = 2 ^ s.mNumBucketBits ∧ 0 < s.numBuckets32) ∧
    (({} : RTPM).renderUI bitsEdit readOnlyFiles).raised = none ∧
    (({} : RTPM).renderUI bitsEdit readOnlyFiles).pass.mNumBucketBits = 32 ∧
    (({} : RTPM).renderUI bitsEdit readOnlyFiles).pass.numBuckets32 = 0 := by
  have h32 : (({} : RTPM).renderUI bitsEdit readOnlyFiles).pass.mNumBucketBits = 32 := by
    decide
  refine ⟨?_, ?_, by decide, h32, ?_⟩
  · intro ui fs s v hdone hg hv
    rw [renderUI_bucket_bits ui fs s v hdone hg hv]
    exact clamp_bounds v 2 32 (by decide)
  · intro s hlt
    have hfit : 2 ^ s.mNumBucketBits < 2 ^ 32 := Nat.pow_lt_pow_right (by decide) hlt
    have hval : s.numBuckets32 = 2 ^ s.mNumBucketBits := Nat.mod_eq_of_lt hfit
    rw [hval]
    exact ⟨rfl, Nat.pos_pow_of_pos _ (by decide)⟩
  · show 2 ^ (({} : RTPM).renderUI bitsEdit readOnlyFiles).pass.mNumBucketBits % 2 ^ 32 = 0
    rw [h32]
    norm_num

/-! ### Serving an auto-fit request -/

theorem autoFitSize_bounds (n : Nat) :
    10 * autoFitSize n ≤ 11 * n ∧ 11 * n < 10 * (autoFitSize n + 1) := by
  unfold autoFitSize
  omega

/-- An iteration boundary with an auto-fit request pending. -/
theorem iterationBoundary_fit (s : RTPM) (hnum : s.mNumPhotonsChanged = true)
    (hfit : s.mFitBuffersToPhotonShot = true) :
    s.iterationBoundary.mGlobalBuffersMaxSize = autoFitSize (s.mPhotonCount.getD 1 0) ∧
    s.iterationBoundary.mCausticBuffersMaxSize = autoFitSize (s.mPhotonCount.getD 0 0) ∧
    s.iterationBoundary.mNumPhotonsChanged = false ∧
    s.iterationBoundary.mFitBuffersToPhotonShot = false := by
  unfold RTPM.iterationBoundary
  rw [if_pos hnum, if_pos hfit]
  exact ⟨Eq.refl _, Eq.refl _, Eq.refl _, Eq.refl _⟩

/-- C16: a frame in which "Fit Buffers" is pressed leaves the sizes of both
photon buffers as they are, whatever else the widgets report and however the
call ends; the iteration boundary that follows puts into effect, for the
global map, the global photon count of the last iteration `mPhotonCount[1]`
times 1.1 and, for the caustic map, the caustic count `mPhotonCount[0]` times
1.1, each product cut to a whole number of photons (exact when the count is a
multiple of 10).  The global size is the same whatever the caustic count is,
and the other way round. -/
theorem autoFit_sizes (ui : UIInput) (fs : FileSystem) (s : RTPM)
    (hpress : ui.fitBuffers = true) :
    (s.renderUI ui fs).pass.mGlobalBuffersMaxSize = s.mGlobalBuffersMaxSize ∧
    (s.renderUI ui fs).pass.mCausticBuffersMaxSize = s.mCausticBuffersMaxSize ∧
    (s.renderUI ui fs).pass.iterationBoundary.mGlobalBuffersMaxSize
      = autoFitSize (s.mPhotonCount.getD 1 0) ∧
    (s.renderUI ui fs).pass.iterationBoundary.mCausticBuffersMaxSize
      = autoFitSize (s.mPhotonCount.getD 0 0) ∧
    (∀ n : Nat, ((autoFitSize n : Nat) : ℚ) ≤ (n : ℚ) * (11 / 10) ∧
      (n : ℚ) * (11 / 10) < ((autoFitSize n : Nat) : ℚ) + 1 ∧
      (n % 10 = 0 → ((autoFitSize n : Nat) : ℚ) = (n : ℚ) * (11 / 10))) ∧
    (∀ caustic caustic' global : Nat,
      ((s.renderUI ui fs).pass.withPhotonCount caustic global).iterationBoundary.mGlobalBuffersMaxSize
        = ((s.renderUI ui fs).pass.withPhotonCount caustic'
            global).iterationBoundary.mGlobalBuffersMaxSize) ∧
    (∀ caustic global global' : Nat,
      ((s.renderUI ui fs).pass.withPhotonCount caustic global).iterationBoundary.mCausticBuffersMaxSize
        = ((s.renderUI ui fs).pass.withPhotonCount caustic
            global').iterationBoundary.mCausticBuffersMaxSize) := by
  have hk := (renderUI_kept ui fs s).1
  have he := (renderUI_kept ui fs s).2.1
  have hfit : (s.renderUI ui fs).pass.mFitBuffersToPhotonShot = true := by
    rw [he.fitBuffers]
    exact or_keep_right _ hpress
  have hnum : (s.renderUI ui fs).pass.mNumPhotonsChanged = true := by
    rw [he.photonsChanged]
    exact or_keep_right _ (or_keep_right _ hpress)
  have hb := iterationBoundary_fit (s.renderUI ui fs).pass hnum hfit
  refine ⟨hk.globalMax, hk.causticMax, ?_, ?_, ?_, ?_, ?_⟩
  · rw [hb.1, hk.photonCount]
  · rw [hb.2.1, hk.photonCount]
  · intro n
    have h := autoFitSize_bounds n
    have h1 : ((10 * autoFitSize n : Nat) : ℚ) ≤ ((11 * n : Nat) : ℚ) := by exact_mod_cast h.1
    have h2 : ((11 * n : Nat) : ℚ) < ((10 * (autoFitSize n + 1) : Nat) : ℚ) := by
      exact_mod_cast h.2
    push_cast at h1 h2
    refine ⟨by linarith, by linarith, ?_⟩
    intro hn
    have h3 : 10 * autoFitSize n = 11 * n := by
      unfold autoFitSize
      omega
    have h4 : ((10 * autoFitSize n : Nat) : ℚ) = ((11 * n : Nat) : ℚ) := by exact_mod_cast h3
    push_cast at h4
    linarith
  · intro c c' g
    rw [(iterationBoundary_fit ((s.renderUI ui fs).pass.withPhotonCount c g) hnum hfit).1,
      (iterationBoundary_fit ((s.renderUI ui fs).pass.withPhotonCount c' g) hnum hfit).1]
    rfl
  · intro c g g'
    rw [(iterationBoundary_fit ((s.renderUI ui fs).pass.withPhotonCount c g) hnum hfit).2.1,
      (iterationBoundary_fit ((s.renderUI ui fs).pass.withPhotonCount c g') hnum hfit).2.1]
    rfl

/-- C16 at a pass with buffers of 1000000 and 500000 photons that shot 1234
caustic and 56780 global photons: after the frame with the press the sizes are
as before, after the iteration boundary they are 62458 and 1357. -/
theorem autoFit_sizes_witness :
    (runningPass.renderUI fitPress readOnlyFiles).pass.mGlobalBuffersMaxSize = 1000000 ∧
    (runningPass.renderUI fitPress readOnlyFiles).pass.mCausticBuffersMaxSize = 500000 ∧
    (runningPass.renderUI fitPress readOnlyFiles).pass.iterationBoundary.mGlobalBuffersMaxSize
      = 62458 ∧
    (runningPass.renderUI fitPress readOnlyFiles).pass.iterationBoundary.mCausticBuffersMaxSize
      = 1357 :=
  ⟨(autoFit_sizes fitPress readOnlyFiles runningPass rfl).1,
    (autoFit_sizes fitPress readOnlyFiles runningPass rfl).2.1,
    (autoFit_sizes fitPress readOnlyFiles runningPass rfl).2.2.1,
    (autoFit_sizes fitPress readOnlyFiles runningPass rfl).2.2.2.1⟩

/-! ### `RTPM::reflect` -/

/-- C17: for every pass and every compile data, `RTPM::reflect` declares
exactly four inputs, `vbuffer`, `viewW`, `thp` and `emissive`, none of them
optional, and exactly one output, `PhotonImage`, not optional, with the format
`RGBA32Float` (four channels of 32-bit floating point numbers); it declares
nothing else. -/
theorem reflect_channels (s : RTPM) (compileData : CompileData) :
    (inputsOf (s.reflect compileData)).map (fun f => f.name)
      = ["vbuffer", "viewW", "thp", "emissive"] ∧
    (inputsOf (s.reflect compileData)).length = 4 ∧
    (∀ f ∈ inputsOf (s.reflect compileData), f.optional = false) ∧
    outputsOf (s.reflect compileData)
      = [ { name := "PhotonImage",
            desc := "An image that shows the caustics and indirect light from global photons",
            visibility := FieldVisibility.Output, optional := false,
            format := ResourceFormat.RGBA32Float } ] ∧
    (s.reflect compileData).length = 5 ∧
    ResourceFormat.RGBA32Float.channelCount = 4 ∧
    ResourceFormat.RGBA32Float.channelBits = 32 ∧
    ResourceFormat.RGBA32Float.isFloat = true := by
  refine ⟨rfl, rfl, ?_, rfl, rfl, rfl, rfl, rfl⟩
  intro f hf
  have h : inputsOf (s.reflect compileData)
      = (kInputChannels.map fun ch =>
          ({ name := ch.name, desc := ch.desc, visibility := FieldVisibility.Input,
             optional := ch.optional, format := ch.format } : ReflectionField)) := rfl
  rw [h] at hf
  simp only [kInputChannels, List.map_cons, List.map_nil, List.mem_cons,
    List.mem_singleton, List.not_mem_nil, or_false] at hf
  rcases hf with rfl | rfl | rfl | rfl <;> rfl

/-! ### `checkTimer`: the branches that return at once -/

theorem checkTimer_disabled (now : ℚ) (s : RTPM) (hUse : s.mUseTimer = false) :
    s.checkTimer now = s := by
  unfold RTPM.checkTimer
  rw [if_pos hUse]

theorem checkTimer_stopped (now : ℚ) (s : RTPM) (hUse : s.mUseTimer = true)
    (hReset : s.mResetTimer = false) (hStop : s.mTimerStopRenderer = true) :
    s.checkTimer now = s := by
  unfold RTPM.checkTimer
  rw [if_neg (by rw [hUse]; decide), if_neg (by rw [hReset]; decide), if_pos hStop]

theorem checkTimer_reset (now : ℚ) (s : RTPM) (hUse : s.mUseTimer = true)
    (hReset : s.mResetTimer = true) :
    s.checkTimer now = s.resetTimer now := by
  unfold RTPM.checkTimer
  rw [if_neg (by rw [hUse]; decide), if_pos hReset]

theorem checkTimerAt_stopped (nows : List ℚ) (s : RTPM)
    (h : s.mUseTimer = false ∨
      (s.mUseTimer = true ∧ s.mResetTimer = false ∧ s.mTimerStopRenderer = true)) :
    s.checkTimerAt nows = s := by
  induction nows with
  | nil => rfl
  | cons now rest ih =>
    have h1 : s.checkTimer now = s := by
      rcases h with h | ⟨h1, h2, h3⟩
      · exact checkTimer_disabled now s h
      · exact checkTimer_stopped now s h1 h2 h3
    show (s.checkTimer now).checkTimerAt rest = s
    rw [h1]
    exact ih

/-- C21: `checkTimer` returns the pass as it is, every member, when the timer
is disabled, and when the timer is enabled, the renderer already stopped and
no reset pending.  So after any number of `checkTimer` calls at any clock
readings a stopped pass with no reset pending is the same pass: the stop flag
is still set and the list of recorded times is the one at the stop. -/
theorem checkTimer_stopped_is_idle (now : ℚ) (nows : List ℚ) (s : RTPM) :
    (s.mUseTimer = false → s.checkTimer now = s) ∧
    (s.mUseTimer = true → s.mResetTimer = false → s.mTimerStopRenderer = true →
      s.checkTimer now = s ∧
      s.checkTimerAt nows = s ∧
      (s.checkTimerAt nows).mTimerStopRenderer = true ∧
      (s.checkTimerAt nows).mTimesList = s.mTimesList) ∧
    (s.mUseTimer = false → s.checkTimerAt nows = s) := by
  refine ⟨checkTimer_disabled now s, ?_, fun h => checkTimerAt_stopped nows s (Or.inl h)⟩
  intro hUse hReset hStop
  have h := checkTimerAt_stopped nows s (Or.inr ⟨hUse, hReset, hStop⟩)
  refine ⟨checkTimer_stopped now s hUse hReset hStop, h, ?_, ?_⟩
  · rw [h]; exact hStop
  · rw [h]

/-- C21 at a pass stopped at clock reading 75 with three times recorded:
checked again at 80, 90 and 1000 it is the same pass. -/
theorem checkTimer_stopped_is_idle_witness :
    stoppedPass.checkTimer 80 = stoppedPass ∧
    stoppedPass.checkTimerAt [80, 90, 1000] = stoppedPass ∧
    (stoppedPass.checkTimerAt [80, 90, 1000]).mTimerStopRenderer = true ∧
    (stoppedPass.checkTimerAt [80, 90, 1000]).mTimesList = stoppedPass.mTimesList :=
  (checkTimer_stopped_is_idle 80 [80, 90, 1000] stoppedPass).2.1 rfl rfl rfl

theorem resetTimer_fields (now : ℚ) (s : RTPM) :
    (s.resetTimer now).mCurrentElapsedTime = 0 ∧
    (s.resetTimer now).mTimerStartTime = now ∧
    (s.resetTimer now).mTimerStopRenderer = false ∧
    (s.resetTimer now).mResetTimer = false ∧
    (s.resetTimer now).mTimesList = (if s.mTimerRecordTimes = true then [] else s.mTimesList) ∧
    (s.resetTimer now).withoutTimerState = s.withoutTimerState :=
  ⟨Eq.refl _, Eq.refl _, Eq.refl _, Eq.refl _, Eq.refl _, Eq.refl _⟩

/-- C22: with the timer enabled and a reset pending, `checkTimer` at clock
reading `now` leaves the elapsed time 0, the start time `now`, the stop flag
and the reset flag clear, and the list of recorded times empty when recording
is enabled and as it was otherwise.  Whatever the duration limit, the
iteration limit and the frame count are, no time is appended and the stop
flag is not set in this call; no other member changes. -/
theorem checkTimer_reset_branch (now : ℚ) (s : RTPM)
    (hUse : s.mUseTimer = true) (hReset : s.mResetTimer = true) :
    (s.checkTimer now).mCurrentElapsedTime = 0 ∧
    (s.checkTimer now).mTimerStartTime = now ∧
    (s.checkTimer now).mTimerStopRenderer = false ∧
    (s.checkTimer now).mResetTimer = false ∧
    (s.mTimerRecordTimes = true → (s.checkTimer now).mTimesList = []) ∧
    (s.mTimerRecordTimes = false → (s.checkTimer now).mTimesList = s.mTimesList) ∧
    (s.checkTimer now).mTimesList.length ≤ s.mTimesList.length ∧
    (s.checkTimer now).withoutTimerState = s.withoutTimerState := by
  rw [checkTimer_reset now s hUse hReset]
  obtain ⟨h1, h2, h3, h4, h5, h6⟩ := resetTimer_fields now s
  refine ⟨h1, h2, h3, h4, ?_, ?_, ?_, h6⟩
  · intro h; rw [h5, if_pos h]
  · intro h; rw [h5, if_neg (by rw [h]; decide)]
  · rw [h5]
    by_cases h : s.mTimerRecordTimes = true
    · rw [if_pos h]; exact Nat.zero_le _
    · rw [if_neg h]

/-- C22 at a pass with a reset pending whose duration limit (60 seconds since
clock reading 10) and iteration limit (2, at frame 3) are both exceeded at
clock reading 1000: the stop flag ends clear and the list empty. -/
theorem checkTimer_reset_branch_witness :
    (resetPendingPass.checkTimer 1000).mCurrentElapsedTime = 0 ∧
    (resetPendingPass.checkTimer 1000).mTimerStartTime = 1000 ∧
    (resetPendingPass.checkTimer 1000).mTimerStopRenderer = false ∧
    (resetPendingPass.checkTimer 1000).mResetTimer = false ∧
    (resetPendingPass.checkTimer 1000).mTimesList = [] :=
  ⟨(checkTimer_reset_branch 1000 resetPendingPass rfl rfl).1,
    (checkTimer_reset_branch 1000 resetPendingPass rfl rfl).2.1,
    (checkTimer_reset_branch 1000 resetPendingPass rfl rfl).2.2.1,
    (checkTimer_reset_branch 1000 resetPendingPass rfl rfl).2.2.2.1,
    (checkTimer_reset_branch 1000 resetPendingPass rfl rfl).2.2.2.2.1 rfl⟩

/-! ### `VBufferSC`: the round trip of the properties -/

/-- What `parseProperties` makes of the options of `d` when it parses the
properties of `s`. -/
theorem parse_getProperties (s d : VBufferSC) :
    (VBufferSC.parseProperties s.getProperties d).mOutputSizeSelection
      = s.mOutputSizeSelection ∧
    (VBufferSC.parseProperties s.getProperties d).mFixedOutputSize
      = (if s.mOutputSizeSelection = IOSize.Fixed then s.mFixedOutputSize
         else d.mFixedOutputSize) ∧
    (VBufferSC.parseProperties s.getProperties d).mSamplePattern = s.mSamplePattern ∧
    (VBufferSC.parseProperties s.getProperties d).mSampleCount = s.mSampleCount ∧
    (VBufferSC.parseProperties s.getProperties d).mUseAlphaTest = s.mUseAlphaTest ∧
    (VBufferSC.parseProperties s.getProperties d).mAdjustShadingNormals
      = s.mAdjustShadingNormals ∧
    (VBufferSC.parseProperties s.getProperties d).mForceCullMode = s.mForceCullMode ∧
    (VBufferSC.parseProperties s.getProperties d).mCullMode = s.mCullMode ∧
    (VBufferSC.parseProperties s.getProperties d).mUseTraceRayInline = s.mUseTraceRayInline ∧
    (VBufferSC.parseProperties s.getProperties d).mUseDOF = s.mUseDOF := by
  unfold VBufferSC.getProperties
  by_cases h : s.mOutputSizeSelection = IOSize.Fixed
  · rw [if_pos h, if_pos h]
    simp only [VBufferSC.parseProperties, List.foldl_cons, List.foldl_nil, List.cons_append,
      List.nil_append, parseBaseEntry, parseTracingEntry, parseDeprecated, findDisableAlphaTest,
      List.findSome?]
    and_intros <;> trivial
  · rw [if_neg h, if_neg h]
    simp only [VBufferSC.parseProperties, List.foldl_cons, List.foldl_nil, List.cons_append,
      List.nil_append, parseBaseEntry, parseTracingEntry, parseDeprecated, findDisableAlphaTest,
      List.findSome?]
    and_intros <;> trivial

/-- Two passes that agree on the options `getProperties` writes have the same
properties. -/
theorem getProperties_congr (a b : VBufferSC)
    (h1 : a.mOutputSizeSelection = b.mOutputSizeSelection)
    (h2 : b.mOutputSizeSelection = IOSize.Fixed → a.mFixedOutputSize = b.mFixedOutputSize)
    (h3 : a.mSamplePattern = b.mSamplePattern) (h4 : a.mSampleCount = b.mSampleCount)
    (h5 : a.mUseAlphaTest = b.mUseAlphaTest)
    (h6 : a.mAdjustShadingNormals = b.mAdjustShadingNormals)
    (h7 : a.mForceCullMode = b.mForceCullMode) (h8 : a.mCullMode = b.mCullMode)
    (h9 : a.mUseTraceRayInline = b.mUseTraceRayInline) (h10 : a.mUseDOF = b.mUseDOF) :
    a.getProperties = b.getProperties := by
  unfold VBufferSC.getProperties
  rw [h1, h3, h4, h5, h6, h7, h8, h9, h10]
  by_cases h : b.mOutputSizeSelection = IOSize.Fixed
  · rw [if_pos h, if_pos h, h2 h]
  · rw [if_neg h, if_neg h]

/-! ### `VBufferSC`: `useAlphaTest` and the deprecated `disableAlphaTest` -/

theorem foldl_parseTracingEntry_alpha (props : Properties) :
    ∀ s : VBufferSC, (props.foldl parseTracingEntry s).mUseAlphaTest = s.mUseAlphaTest := by
  induction props with
  | nil => intro s; rfl
  | cons e rest ih =>
    intro s
    rw [List.foldl_cons, ih]
    cases e <;> rfl

theorem hasUseAlphaTest_cons (e : Property) (rest : Properties) :
    hasUseAlphaTest (e :: rest)
      = ((match e with | Property.useAlphaTest _ => true | _ => false)
          || hasUseAlphaTest rest) := rfl

theorem hasUseAlphaTest_eq_false (props : Properties) :
    hasUseAlphaTest props = false ↔ ∀ v, Property.useAlphaTest v ∉ props := by
  induction props with
  | nil => simp [hasUseAlphaTest]
  | cons e rest ih =>
    rw [hasUseAlphaTest_cons]
    cases e with
    | useAlphaTest w =>
      constructor
      · intro h; cases h
      · intro h; exact absurd (List.mem_cons_self _ _) (h w)
    | _ => simp [ih]

theorem findDisableAlphaTest_eq_none (props : Properties) :
    findDisableAlphaTest props = none ↔ ∀ d, Property.disableAlphaTest d ∉ props := by
  induction props with
  | nil => simp [findDisableAlphaTest]
  | cons e rest ih =>
    unfold findDisableAlphaTest at ih ⊢
    cases e with
    | disableAlphaTest w =>
      constructor
      · intro h; cases h
      · intro h; exact absurd (List.mem_cons_self _ _) (h w)
    | _ => simp [List.findSome?, ih]

theorem findDisableAlphaTest_eq_some (props : Properties) (d : Bool)
    (hmem : Property.disableAlphaTest d ∈ props)
    (hall : ∀ d', Property.disableAlphaTest d' ∈ props → d' = d) :
    findDisableAlphaTest props = some d := by
  cases h : findDisableAlphaTest props with
  | none => exact absurd hmem ((findDisableAlphaTest_eq_none props).1 h d)
  | some d' =>
    unfold findDisableAlphaTest at h
    obtain ⟨e, he, hd⟩ := List.exists_of_findSome?_eq_some h
    cases e <;> simp at hd
    subst hd
    rw [hall _ he]

/-- The value of `mUseAlphaTest` after the first loop of `parseProperties`
when every `useAlphaTest` entry carries `v`. -/
theorem foldl_parseBaseEntry_alpha (v : Bool) (props : Properties) :
    ∀ s : VBufferSC, (∀ v', Property.useAlphaTest v' ∈ props → v' = v) →
      (props.foldl parseBaseEntry s).mUseAlphaTest
        = (if hasUseAlphaTest props = true then v else s.mUseAlphaTest) := by
  induction props with
  | nil => intro s _; rfl
  | cons e rest ih =>
    intro s hall
    have hrest : ∀ v', Property.useAlphaTest v' ∈ rest → v' = v :=
      fun v' h => hall v' (List.mem_cons_of_mem _ h)
    rw [List.foldl_cons, ih _ hrest]
    rw [hasUseAlphaTest_cons]
    cases e with
    | useAlphaTest w =>
      have hw : w = v := hall w (List.mem_cons_self _ _)
      subst hw
      show (if hasUseAlphaTest rest = true then w else w)
        = (if (true || hasUseAlphaTest rest) = true then w else s.mUseAlphaTest)
      rw [if_pos (Bool.true_or _), ite_self]
    | _ => simp only [Bool.false_or]; rfl

/-- The value of `mUseAlphaTest` after `parseProperties`, in terms of the two
look-ups it makes. -/
theorem parseProperties_alpha (v : Bool) (props : Properties) (s : VBufferSC)
    (hall : ∀ v', Property.useAlphaTest v' ∈ props → v' = v) :
    (VBufferSC.parseProperties props s).mUseAlphaTest
      = (if hasUseAlphaTest props = true then v
         else match findDisableAlphaTest props with
           | some d => !d
           | none => s.mUseAlphaTest) := by
  unfold VBufferSC.parseProperties
  rw [foldl_parseTracingEntry_alpha]
  unfold parseDeprecated
  have hbase := foldl_parseBaseEntry_alpha v props s hall
  by_cases hu : hasUseAlphaTest props = true
  · rw [if_pos hu] at hbase ⊢
    cases findDisableAlphaTest props with
    | none => exact hbase
    | some d =>
      show (if hasUseAlphaTest props = false then _ else _ : VBufferSC).mUseAlphaTest = v
      rw [if_neg (by rw [hu]; decide)]
      exact hbase
  · rw [if_neg hu] at hbase ⊢
    cases findDisableAlphaTest props with
    | none => exact hbase
    | some d =>
      show (if hasUseAlphaTest props = false then _ else _ : VBufferSC).mUseAlphaTest = !d
      rw [if_pos (by simpa using hu)]

/-- C24: for every property set and every pass, after `parseProperties`:
when the set contains `useAlphaTest` (every entry under that key carrying the
value `v`, as in a dictionary), `mUseAlphaTest` is `v`, whatever entries
`disableAlphaTest` the set has; when it contains the deprecated
`disableAlphaTest` with the value `d` and no `useAlphaTest`, `mUseAlphaTest`
is the negation of `d`; when it contains neither, `mUseAlphaTest` is
unchanged. -/
theorem parseProperties_useAlphaTest (props : Properties) (s : VBufferSC) :
    (∀ v, Property.useAlphaTest v ∈ props →
      (∀ v', Property.useAlphaTest v' ∈ props → v' = v) →
      (VBufferSC.parseProperties props s).mUseAlphaTest = v) ∧
    (∀ d, (∀ v, Property.useAlphaTest v ∉ props) → Property.disableAlphaTest d ∈ props →
      (∀ d', Property.disableAlphaTest d' ∈ props → d' = d) →
      (VBufferSC.parseProperties props s).mUseAlphaTest = !d) ∧
    ((∀ v, Property.useAlphaTest v ∉ props) → (∀ d, Property.disableAlphaTest d ∉ props) →
      (VBufferSC.parseProperties props s).mUseAlphaTest = s.mUseAlphaTest) := by
  refine ⟨?_, ?_, ?_⟩
  · intro v hmem hall
    have hu : hasUseAlphaTest props = true := by
      cases h : hasUseAlphaTest props with
      | true => rfl
      | false => exact absurd hmem ((hasUseAlphaTest_eq_false props).1 h v)
    rw [parseProperties_alpha v props s hall, if_pos hu]
  · intro d hno hmem hall
    have hu : hasUseAlphaTest props = false := (hasUseAlphaTest_eq_false props).2 hno
    rw [parseProperties_alpha true props s (fun v' h => absurd h (hno v')),
      if_neg (by rw [hu]; decide), findDisableAlphaTest_eq_some props d hmem hall]
  · intro hno hnod
    have hu : hasUseAlphaTest props = false := (hasUseAlphaTest_eq_false props).2 hno
    rw [parseProperties_alpha true props s (fun v' h => absurd h (hno v')),
      if_neg (by rw [hu]; decide), (findDisableAlphaTest_eq_none props).2 hnod]

/-- C24 at a property set in which `disableAlphaTest = true` and
`useAlphaTest = true` disagree, and at one with `disableAlphaTest = true`
only, parsed into the custom pass (whose `mUseAlphaTest` is `false`): the
first ends with `mUseAlphaTest = true`, the second with `false`. -/
theorem parseProperties_useAlphaTest_witness :
    (VBufferSC.parseProperties bothAlphaProps customPass).mUseAlphaTest = true ∧
    (VBufferSC.parseProperties deprecatedAlphaProps customPass).mUseAlphaTest = !true :=
  ⟨(parseProperties_useAlphaTest bothAlphaProps customPass).1 true (by decide) (by decide),
    (parseProperties_useAlphaTest deprecatedAlphaProps customPass).2.1 true (by decide)
      (by decide) (by decide)⟩

/-! ### `VBufferSC::getShaderDefines`: the ray flags -/

theorem is_valid_ne_ray_flags (texname : String) : "is_valid_" ++ texname ≠ "RAY_FLAGS" := by
  intro h
  have hd := congrArg String.data h
  rw [String.data_append] at hd
  have h1 : ("is_valid_" : String).data = 'i' :: ("s_valid_" : String).data := rfl
  have h2 : ("RAY_FLAGS" : String).data = 'R' :: ("AY_FLAGS" : String).data := rfl
  rw [h1, h2, List.cons_append] at hd
  exact absurd (List.head_eq_of_cons_eq hd) (by decide)

theorem getValidResourceDefines_names (channels : List ChannelDesc) (renderData : RenderData) :
    ∀ d ∈ getValidResourceDefines channels renderData, d.1 ≠ "RAY_FLAGS" := by
  intro d hd
  unfold getValidResourceDefines at hd
  obtain ⟨ch, _, rfl⟩ := List.mem_map.mp hd
  exact is_valid_ne_ray_flags ch.texname

/-- The value `getShaderDefines` leaves under `RAY_FLAGS`. -/
theorem getShaderDefines_value (s : VBufferSC) (renderData : RenderData) :
    (s.getShaderDefines renderData).value "RAY_FLAGS" = some (toString s.rayFlags.toUInt32) := by
  have hnone : (getValidResourceDefines kVBufferExtraChannels renderData).reverse.find?
      (fun d => d.1 = "RAY_FLAGS") = none := by
    rw [List.find?_eq_none]
    intro d hd
    have := getValidResourceDefines_names kVBufferExtraChannels renderData d
      (List.mem_reverse.mp hd)
    simpa using this
  unfold DefineList.value VBufferSC.getShaderDefines
  rw [List.reverse_append, List.find?_append, hnone]
  rfl

theorem rayFlags_cases (s : VBufferSC) :
    (s.rayFlags = RayFlags.CullFrontFacingTriangles ↔
      s.mForceCullMode = true ∧ s.mCullMode = CullMode.Front) ∧
    (s.rayFlags = RayFlags.CullBackFacingTriangles ↔
      s.mForceCullMode = true ∧ s.mCullMode = CullMode.Back) ∧
    (s.rayFlags = RayFlags.None ↔
      s.mForceCullMode = false ∨ s.mCullMode = CullMode.None) := by
  unfold VBufferSC.rayFlags
  cases hf : s.mForceCullMode <;> cases hc : s.mCullMode <;> simp

/-- C26: `getShaderDefines` leaves under `RAY_FLAGS` the number of the ray
flags it set up, whatever the render data; the flags are
`CullFrontFacingTriangles` exactly when `mForceCullMode` is on and the cull
mode is `Front`, `CullBackFacingTriangles` exactly when `mForceCullMode` is on
and the cull mode is `Back`, and `None` exactly in the other cases, that is
when `mForceCullMode` is off or the cull mode is `None`: without the override
nothing is culled.  The three flags have three different numbers, so the same
holds of the text of the define. -/
theorem getShaderDefines_rayFlags (s : VBufferSC) (renderData : RenderData) :
    (s.getShaderDefines renderData).value "RAY_FLAGS" = some (toString s.rayFlags.toUInt32) ∧
    (s.rayFlags = RayFlags.CullFrontFacingTriangles ↔
      s.mForceCullMode = true ∧ s.mCullMode = CullMode.Front) ∧
    (s.rayFlags = RayFlags.CullBackFacingTriangles ↔
      s.mForceCullMode = true ∧ s.mCullMode = CullMode.Back) ∧
    (s.rayFlags = RayFlags.None ↔
      s.mForceCullMode = false ∨ s.mCullMode = CullMode.None) ∧
    (s.mForceCullMode = false → s.rayFlags = RayFlags.None) ∧
    ((s.getShaderDefines renderData).value "RAY_FLAGS"
        = some (toString RayFlags.CullFrontFacingTriangles.toUInt32) ↔
      s.mForceCullMode = true ∧ s.mCullMode = CullMode.Front) ∧
    ((s.getShaderDefines renderData).value "RAY_FLAGS"
        = some (toString RayFlags.CullBackFacingTriangles.toUInt32) ↔
      s.mForceCullMode = true ∧ s.mCullMode = CullMode.Back) ∧
    ((s.getShaderDefines renderData).value "RAY_FLAGS"
        = some (toString RayFlags.None.toUInt32) ↔
      s.mForceCullMode = false ∨ s.mCullMode = CullMode.None) := by
  obtain ⟨hF, hB, hN⟩ := rayFlags_cases s
  have hv := getShaderDefines_value s renderData
  have hinj : ∀ a b : RayFlags, some (toString a.toUInt32) = some (toString b.toUInt32) ↔ a = b := by
    intro a b
    cases a <;> cases b <;> decide
  refine ⟨hv, hF, hB, hN, fun h => hN.2 (Or.inl h), ?_, ?_, ?_⟩
  · rw [hv, hinj]; exact hF
  · rw [hv, hinj]; exact hB
  · rw [hv, hinj]; exact hN

/-! ### `VBufferSC`: the frame count -/

theorem publishOptions_fields (dict : Dictionary) (s : VBufferSC) :
    (s.publishOptions dict).1.mFrameCount = s.mFrameCount ∧
    (s.publishOptions dict).1.mHasScene = s.mHasScene ∧
    (s.publishOptions dict).1.mOptionsChanged = false := by
  unfold VBufferSC.publishOptions
  by_cases h : s.mOptionsChanged = true
  · rw [if_pos h]; exact ⟨rfl, rfl, rfl⟩
  · rw [if_neg h]; exact ⟨rfl, rfl, by simpa using h⟩

theorem updateFrameDim_ok (assertsEnabled : Bool) (frameDim : UInt2) (s framed : VBufferSC)
    (h : s.updateFrameDim assertsEnabled frameDim = Except.ok framed) :
    framed.mFrameCount = s.mFrameCount ∧ framed.mHasScene = s.mHasScene ∧
    framed.mOptionsChanged = s.mOptionsChanged ∧ framed.mFrameDim = frameDim := by
  unfold VBufferSC.updateFrameDim at h
  split at h
  · cases h
  · cases h; exact ⟨rfl, rfl, rfl, rfl⟩

/-- What `execute` does with a scene once the frame dimension is known. -/
theorem executeScene_fields (env : ExecuteEnv) (renderData : RenderData) (dict : Dictionary)
    (s : VBufferSC) :
    ((s.executeScene env renderData dict).raised = none →
      (s.executeScene env renderData dict).pass.mFrameCount = (s.mFrameCount + 1) % 2 ^ 32 ∧
      (s.executeScene env renderData dict).cleared = [] ∧
      (s.executeScene env renderData dict).dispatched ≠ none) ∧
    ((s.executeScene env renderData dict).raised ≠ none →
      (s.executeScene env renderData dict).pass.mFrameCount = s.mFrameCount) ∧
    (s.executeScene env renderData dict).pass.mHasScene = s.mHasScene ∧
    (s.executeScene env renderData dict).pass.mOptionsChanged = s.mOptionsChanged := by
  unfold VBufferSC.executeScene
  cases (if (s.configureDOF env.scene).mUseTraceRayInline = true then
      (s.configureDOF env.scene).executeCompute env renderData
    else (s.configureDOF env.scene).executeRaytrace env renderData) with
  | error e =>
    refine ⟨fun h => ?_, fun _ => rfl, rfl, rfl⟩
    cases h
  | ok d =>
    refine ⟨fun _ => ⟨rfl, rfl, ?_⟩, fun h => absurd rfl h, rfl, rfl⟩
    intro h; cases h

/-- What `execute` does once the frame dimension is known. -/
theorem executeFramed_fields (env : ExecuteEnv) (renderData : RenderData) (dict : Dictionary)
    (s : VBufferSC) :
    ((s.executeFramed env renderData dict).raised = none → s.mHasScene = true →
      (s.executeFramed env renderData dict).pass.mFrameCount = (s.mFrameCount + 1) % 2 ^ 32 ∧
      (s.executeFramed env renderData dict).cleared = [] ∧
      (s.executeFramed env renderData dict).dispatched ≠ none) ∧
    (s.mHasScene = false →
      (s.executeFramed env renderData dict).raised = none ∧
      (s.executeFramed env renderData dict).pass.mFrameCount = s.mFrameCount ∧
      (s.executeFramed env renderData dict).cleared
        = kVBufferName :: clearRenderPassChannels kVBufferExtraChannels renderData ∧
      (s.executeFramed env renderData dict).dispatched = none) ∧
    ((s.executeFramed env renderData dict).raised ≠ none →
      (s.executeFramed env renderData dict).pass.mFrameCount = s.mFrameCount) ∧
    (s.executeFramed env renderData dict).pass.mHasScene = s.mHasScene ∧
    (s.executeFramed env renderData dict).pass.mOptionsChanged = s.mOptionsChanged := by
  unfold VBufferSC.executeFramed
  by_cases hs : s.mHasScene = false
  · rw [if_pos hs]
    refine ⟨fun _ h => ?_, fun _ => ⟨rfl, rfl, rfl, rfl⟩, fun h => absurd rfl h, rfl, rfl⟩
    rw [hs] at h; cases h
  · rw [if_neg hs]
    obtain ⟨h1, h2, h3, h4⟩ := executeScene_fields env renderData dict s
    exact ⟨fun h _ => h1 h, fun h => absurd h hs, h2, h3, h4⟩

theorem execute_no_output (env : ExecuteEnv) (renderData : RenderData) (dict : Dictionary)
    (s : VBufferSC) (hget : renderData.getTexture kVBufferName = none) :
    s.execute env renderData dict =
      { pass := (s.publishOptions dict).1, dict := (s.publishOptions dict).2,
        cleared := [], recreatedPrograms := false, dispatched := none,
        raised := some (if env.assertsEnabled = true then PassError.assertion "pOutput"
          else PassError.runtime "pOutput is a null reference") } := by
  unfold VBufferSC.execute
  rw [hget]

theorem execute_bad_size (env : ExecuteEnv) (renderData : RenderData) (dict : Dictionary)
    (s : VBufferSC) (pOutput : Texture) (e : PassError)
    (hget : renderData.getTexture kVBufferName = some pOutput)
    (hu : (s.publishOptions dict).1.updateFrameDim env.assertsEnabled
      ⟨pOutput.width, pOutput.height⟩ = Except.error e) :
    s.execute env renderData dict =
      { pass := (s.publishOptions dict).1, dict := (s.publishOptions dict).2,
        cleared := [], recreatedPrograms := false, dispatched := none, raised := some e } := by
  unfold VBufferSC.execute
  simp only [hget, hu]

theorem execute_framed (env : ExecuteEnv) (renderData : RenderData) (dict : Dictionary)
    (s framed : VBufferSC) (pOutput : Texture)
    (hget : renderData.getTexture kVBufferName = some pOutput)
    (hu : (s.publishOptions dict).1.updateFrameDim env.assertsEnabled
      ⟨pOutput.width, pOutput.height⟩ = Except.ok framed) :
    s.execute env renderData dict
      = framed.executeFramed env renderData (s.publishOptions dict).2 := by
  unfold VBufferSC.execute
  simp only [hget, hu]

/-- What one `execute` call does to the frame count, the scene and the
options flag. -/
theorem execute_fields (env : ExecuteEnv) (renderData : RenderData) (dict : Dictionary)
    (s : VBufferSC) :
    ((s.execute env renderData dict).raised = none → s.mHasScene = true →
      (s.execute env renderData dict).pass.mFrameCount = (s.mFrameCount + 1) % 2 ^ 32 ∧
      (s.execute env renderData dict).cleared = [] ∧
      (s.execute env renderData dict).dispatched ≠ none) ∧
    ((s.execute env renderData dict).raised = none → s.mHasScene = false →
      (s.execute env renderData dict).pass.mFrameCount = s.mFrameCount ∧
      (s.execute env renderData dict).cleared
        = kVBufferName :: clearRenderPassChannels kVBufferExtraChannels renderData ∧
      (s.execute env renderData dict).dispatched = none) ∧
    ((s.execute env renderData dict).raised ≠ none →
      (s.execute env renderData dict).pass.mFrameCount = s.mFrameCount) ∧
    (s.execute env renderData dict).pass.mHasScene = s.mHasScene ∧
    (s.execute env renderData dict).pass.mOptionsChanged = false := by
  obtain ⟨p1, p2, p3⟩ := publishOptions_fields dict s
  cases hget : renderData.getTexture kVBufferName with
  | none =>
    rw [execute_no_output env renderData dict s hget]
    refine ⟨fun h => ?_, fun h => ?_, fun _ => p1, p2, p3⟩
    · cases h
    · cases h
  | some pOutput =>
    cases hu : (s.publishOptions dict).1.updateFrameDim env.assertsEnabled
        ⟨pOutput.width, pOutput.height⟩ with
    | error e =>
      rw [execute_bad_size env renderData dict s pOutput e hget hu]
      refine ⟨fun h => ?_, fun h => ?_, fun _ => p1, p2, p3⟩
      · cases h
      · cases h
    | ok framed =>
      rw [execute_framed env renderData dict s framed pOutput hget hu]
      obtain ⟨u1, u2, u3, _⟩ := updateFrameDim_ok _ _ _ _ hu
      obtain ⟨f1, f2, f3, f4, f5⟩ :=
        executeFramed_fields env renderData (s.publishOptions dict).2 framed
      refine ⟨?_, ?_, ?_, ?_, ?_⟩
      · intro h hs
        have := f1 h (by rw [u2, p2]; exact hs)
        rw [u1, p1] at this
        exact this
      · intro _ hs
        have := f2 (by rw [u2, p2]; exact hs)
        rw [u1, p1] at this
        exact this.2
      · intro h
        rw [f3 h, u1, p1]
      · rw [f4, u2, p2]
      · rw [f5, u3, p3]

theorem setScene_fields (getSampleCount : SamplePattern → Nat → Nat) (pScene : Option Scene)
    (s : VBufferSC) :
    (s.setScene getSampleCount pScene).mFrameCount = 0 ∧
    (s.setScene getSampleCount pScene).mHasScene = pScene.isSome := by
  unfold VBufferSC.setScene VBufferSC.updateSamplePattern
  split
  · exact ⟨rfl, rfl⟩
  · exact ⟨rfl, rfl⟩

/-- The frame count after a sequence of calls is the number of completed
frames with a scene since the last `setScene`, modulo `2^32`. -/
theorem run_frameCount (getSampleCount : SamplePattern → Nat → Nat) (calls : List PassCall) :
    ∀ (s : VBufferSC) (n : Nat), s.mFrameCount = n % 2 ^ 32 →
      (s.run getSampleCount calls).mFrameCount
        = framesSinceSetScene getSampleCount calls s n % 2 ^ 32 := by
  induction calls with
  | nil => intro s n h; exact h
  | cons c rest ih =>
    intro s n h
    cases c with
    | setScene pScene =>
      show ((s.setScene getSampleCount pScene).run getSampleCount rest).mFrameCount
        = framesSinceSetScene getSampleCount rest (s.setScene getSampleCount pScene) 0 % 2 ^ 32
      exact ih _ 0 (setScene_fields getSampleCount pScene s).1
    | execute env renderData dict =>
      show ((s.execute env renderData dict).pass.run getSampleCount rest).mFrameCount
        = framesSinceSetScene getSampleCount rest (s.execute env renderData dict).pass
            (if s.mHasScene = true ∧ (s.execute env renderData dict).raised = none then n + 1
             else n) % 2 ^ 32
      apply ih
      obtain ⟨e1, e2, e3, _, _⟩ := execute_fields env renderData dict s
      by_cases hc : s.mHasScene = true ∧ (s.execute env renderData dict).raised = none
      · rw [if_pos hc, (e1 hc.2 hc.1).1, h, Nat.add_mod, Nat.mod_mod, ← Nat.add_mod]
      · rw [if_neg hc]
        by_cases hr : (s.execute env renderData dict).raised = none
        · have hs : s.mHasScene = false := by
            cases hsc : s.mHasScene with
            | false => rfl
            | true => exact absurd ⟨hsc, hr⟩ hc
          rw [(e2 hr hs).1, h]
        · rw [e3 hr, h]

/-- C25: `setScene` leaves `mFrameCount` at 0; an `execute` call with a scene
that completes adds exactly 1 to it modulo `2^32` and makes a dispatch; an
`execute` call without a scene that completes clears the output `vbuffer` and
the extra channels the render data holds and leaves `mFrameCount` as it is; a
call that ends by an error leaves it as it is as well; after a completed call
`mOptionsChanged` is `false`.  So after any sequence of calls `mFrameCount` is
the number of `execute` calls that completed with a scene set since the last
`setScene`, modulo `2^32`. -/
theorem frameCount_counts_frames (getSampleCount : SamplePattern → Nat → Nat)
    (env : ExecuteEnv) (renderData : RenderData) (dict : Dictionary) (pScene : Option Scene)
    (calls : List PassCall) (s : VBufferSC) (n : Nat) :
    (s.setScene getSampleCount pScene).mFrameCount = 0 ∧
    ((s.execute env renderData dict).raised = none → s.mHasScene = true →
      (s.execute env renderData dict).pass.mFrameCount = (s.mFrameCount + 1) % 2 ^ 32 ∧
      (s.execute env renderData dict).dispatched ≠ none) ∧
    ((s.execute env renderData dict).raised = none → s.mHasScene = false →
      (s.execute env renderData dict).pass.mFrameCount = s.mFrameCount ∧
      (s.execute env renderData dict).cleared
        = kVBufferName :: clearRenderPassChannels kVBufferExtraChannels renderData ∧
      (s.execute env renderData dict).dispatched = none) ∧
    ((s.execute env renderData dict).raised ≠ none →
      (s.execute env renderData dict).pass.mFrameCount = s.mFrameCount) ∧
    ((s.execute env renderData dict).raised = none →
      (s.execute env renderData dict).pass.mOptionsChanged = false) ∧
    ((s.setScene getSampleCount pScene).run getSampleCount calls).mFrameCount
      = framesSinceSetScene getSampleCount calls (s.setScene getSampleCount pScene) 0 % 2 ^ 32 ∧
    (s.mFrameCount = n % 2 ^ 32 →
      (s.run getSampleCount calls).mFrameCount
        = framesSinceSetScene getSampleCount calls s n % 2 ^ 32) := by
  obtain ⟨e1, e2, e3, _, e5⟩ := execute_fields env renderData dict s
  refine ⟨(setScene_fields getSampleCount pScene s).1, fun h hs => ⟨(e1 h hs).1, (e1 h hs).2.2⟩,
    e2, e3, fun _ => e5, ?_, run_frameCount getSampleCount calls s n⟩
  exact run_frameCount getSampleCount calls _ 0 (setScene_fields getSampleCount pScene s).1

/-- C25 at a run on a new pass: a frame without a scene, a scene is set, a
frame, a frame that ends by an error (the `depth` output has another size),
and a frame.  Two frames completed with the scene, and `mFrameCount` is 2. -/
theorem frameCount_counts_frames_witness :
    framesSinceSetScene keepSampleCount sampleRun (VBufferSC.fresh ⟨true, true⟩) 0 = 2 ∧
    ((VBufferSC.fresh ⟨true, true⟩).run keepSampleCount sampleRun).mFrameCount = 2 % 2 ^ 32 := by
  have hn : framesSinceSetScene keepSampleCount sampleRun (VBufferSC.fresh ⟨true, true⟩) 0 = 2 := by
    decide
  refine ⟨hn, ?_⟩
  rw [← hn]
  exact (frameCount_counts_frames keepSampleCount quietEnv sizedRenderData {} none sampleRun
    (VBufferSC.fresh ⟨true, true⟩) 0).2.2.2.2.2.2 rfl

/-! ### `VBufferSC`: the round trip does not depend on the order of the entries -/

/-- A loop over the entries in which an entry either sets a member or leaves
it: when every entry that sets it carries `v`, the member ends as `v` if some
entry sets it and as it was if none does. -/
theorem foldl_sets {α : Type} (step : VBufferSC → Property → VBufferSC) (get : VBufferSC → α)
    (extract : Property → Option α)
    (hstep : ∀ s e, get (step s e) = (extract e).getD (get s)) (v : α) :
    ∀ (props : Properties) (s : VBufferSC),
      (∀ e ∈ props, ∀ v', extract e = some v' → v' = v) →
      get (props.foldl step s)
        = (if (props.any fun e => (extract e).isSome) = true then v else get s) := by
  intro props
  induction props with
  | nil => intro s _; rfl
  | cons e rest ih =>
    intro s hall
    have hrest : ∀ e' ∈ rest, ∀ v', extract e' = some v' → v' = v :=
      fun e' h => hall e' (List.mem_cons_of_mem _ h)
    rw [List.foldl_cons, ih _ hrest, hstep, List.any_cons]
    cases he : extract e with
    | none => simp
    | some w =>
      have hw : w = v := hall e (List.mem_cons_self _ _) w he
      subst hw
      simp

/-- A loop over the entries keeps a member no entry sets. -/
theorem foldl_keeps {α : Type} (step : VBufferSC → Property → VBufferSC) (get : VBufferSC → α)
    (hstep : ∀ s e, get (step s e) = get s) :
    ∀ (props : Properties) (s : VBufferSC), get (props.foldl step s) = get s := by
  intro props
  induction props with
  | nil => intro s; rfl
  | cons e rest ih => intro s; rw [List.foldl_cons, ih, hstep]

theorem parseDeprecated_keeps (props : Properties) (s : VBufferSC) :
    (parseDeprecated props s).mOutputSizeSelection = s.mOutputSizeSelection ∧
    (parseDeprecated props s).mFixedOutputSize = s.mFixedOutputSize ∧
    (parseDeprecated props s).mSamplePattern = s.mSamplePattern ∧
    (parseDeprecated props s).mSampleCount = s.mSampleCount ∧
    (parseDeprecated props s).mAdjustShadingNormals = s.mAdjustShadingNormals ∧
    (parseDeprecated props s).mForceCullMode = s.mForceCullMode ∧
    (parseDeprecated props s).mCullMode = s.mCullMode ∧
    (parseDeprecated props s).mUseTraceRayInline = s.mUseTraceRayInline ∧
    (parseDeprecated props s).mUseDOF = s.mUseDOF := by
  unfold parseDeprecated
  cases findDisableAlphaTest props with
  | none => exact ⟨rfl, rfl, rfl, rfl, rfl, rfl, rfl, rfl, rfl⟩
  | some d =>
    by_cases h : hasUseAlphaTest props = false
    · simp only [if_pos h]; and_intros <;> trivial
    · simp only [if_neg h]; and_intros <;> trivial

/-- The entries of the properties of a pass. -/
theorem mem_getProperties (s : VBufferSC) (e : Property) :
    e ∈ s.getProperties ↔
      e = Property.outputSize s.mOutputSizeSelection ∨
      (s.mOutputSizeSelection = IOSize.Fixed ∧ e = Property.fixedOutputSize s.mFixedOutputSize) ∨
      e = Property.samplePattern s.mSamplePattern ∨
      e = Property.sampleCount s.mSampleCount ∨
      e = Property.useAlphaTest s.mUseAlphaTest ∨
      e = Property.adjustShadingNormals s.mAdjustShadingNormals ∨
      e = Property.forceCullMode s.mForceCullMode ∨
      e = Property.cull s.mCullMode ∨
      e = Property.useTraceRayInline s.mUseTraceRayInline ∨
      e = Property.useDOF s.mUseDOF := by
  unfold VBufferSC.getProperties
  by_cases h : s.mOutputSizeSelection = IOSize.Fixed
  · rw [if_pos h]; simp [h]
  · rw [if_neg h]; simp [h]

/-- An option the first loop of `parseProperties` sets. -/
theorem parse_base_option {α : Type} (get : VBufferSC → α) (extract : Property → Option α)
    (hbase : ∀ s e, get (parseBaseEntry s e) = (extract e).getD (get s))
    (htracing : ∀ s e, get (parseTracingEntry s e) = get s)
    (hdeprecated : ∀ props s, get (parseDeprecated props s) = get s)
    (v : α) (props : Properties) (d : VBufferSC)
    (hall : ∀ e ∈ props, ∀ v', extract e = some v' → v' = v) :
    get (VBufferSC.parseProperties props d)
      = (if (props.any fun e => (extract e).isSome) = true then v else get d) := by
  unfold VBufferSC.parseProperties
  rw [foldl_keeps parseTracingEntry get htracing, hdeprecated,
    foldl_sets parseBaseEntry get extract hbase v props d hall]

/-- An option the second loop of `parseProperties` sets. -/
theorem parse_tracing_option {α : Type} (get : VBufferSC → α) (extract : Property → Option α)
    (hbase : ∀ s e, get (parseBaseEntry s e) = get s)
    (htracing : ∀ s e, get (parseTracingEntry s e) = (extract e).getD (get s))
    (hdeprecated : ∀ props s, get (parseDeprecated props s) = get s)
    (v : α) (props : Properties) (d : VBufferSC)
    (hall : ∀ e ∈ props, ∀ v', extract e = some v' → v' = v) :
    get (VBufferSC.parseProperties props d)
      = (if (props.any fun e => (extract e).isSome) = true then v else get d) := by
  unfold VBufferSC.parseProperties
  rw [foldl_sets parseTracingEntry get extract htracing v props _ hall, hdeprecated,
    foldl_keeps parseBaseEntry get hbase]

/-- What `parseProperties` makes of the options of `d` when it parses the
entries of the properties of `s` in any order. -/
theorem parse_perm_getProperties (s d : VBufferSC) (props : Properties)
    (hperm : props.Perm s.getProperties) :
    (VBufferSC.parseProperties props d).mOutputSizeSelection = s.mOutputSizeSelection ∧
    (VBufferSC.parseProperties props d).mFixedOutputSize
      = (if s.mOutputSizeSelection = IOSize.Fixed then s.mFixedOutputSize
         else d.mFixedOutputSize) ∧
    (VBufferSC.parseProperties props d).mSamplePattern = s.mSamplePattern ∧
    (VBufferSC.parseProperties props d).mSampleCount = s.mSampleCount ∧
    (VBufferSC.parseProperties props d).mUseAlphaTest = s.mUseAlphaTest ∧
    (VBufferSC.parseProperties props d).mAdjustShadingNormals = s.mAdjustShadingNormals ∧
    (VBufferSC.parseProperties props d).mForceCullMode = s.mForceCullMode ∧
    (VBufferSC.parseProperties props d).mCullMode = s.mCullMode ∧
    (VBufferSC.parseProperties props d).mUseTraceRayInline = s.mUseTraceRayInline ∧
    (VBufferSC.parseProperties props d).mUseDOF = s.mUseDOF := by
  have hmem : ∀ e, e ∈ props ↔ _ := fun e => (hperm.mem_iff).trans (mem_getProperties s e)
  have hdep := parseDeprecated_keeps
  refine ⟨?_, ?_, ?_, ?_, ?_, ?_, ?_, ?_, ?_, ?_⟩
  · rw [parse_base_option (fun p => p.mOutputSizeSelection) Property.outputSize?
      (fun s e => by cases e <;> rfl) (fun s e => by cases e <;> rfl)
      (fun props s => (hdep props s).1) s.mOutputSizeSelection props d ?_]
    · rw [if_pos (List.any_eq_true.2 ⟨_, (hmem _).2 (Or.inl rfl), rfl⟩)]
    · intro e he v' hv
      rcases (hmem e).1 he with rfl | ⟨_, rfl⟩ | rfl | rfl | rfl | rfl | rfl | rfl | rfl | rfl <;>
        first | exact (Option.some.inj hv).symm | exact Option.noConfusion hv
  · by_cases hfix : s.mOutputSizeSelection = IOSize.Fixed
    · rw [if_pos hfix, parse_base_option (fun p => p.mFixedOutputSize) Property.fixedOutputSize?
        (fun s e => by cases e <;> rfl) (fun s e => by cases e <;> rfl)
        (fun props s => (hdep props s).2.1) s.mFixedOutputSize props d ?_]
      · rw [if_pos (List.any_eq_true.2 ⟨_, (hmem _).2 (Or.inr (Or.inl ⟨hfix, rfl⟩)), rfl⟩)]
      · intro e he v' hv
        rcases (hmem e).1 he with
          rfl | ⟨_, rfl⟩ | rfl | rfl | rfl | rfl | rfl | rfl | rfl | rfl <;>
          first | exact (Option.some.inj hv).symm | exact Option.noConfusion hv
    · rw [if_neg hfix, parse_base_option (fun p => p.mFixedOutputSize) Property.fixedOutputSize?
        (fun s e => by cases e <;> rfl) (fun s e => by cases e <;> rfl)
        (fun props s => (hdep props s).2.1) s.mFixedOutputSize props d ?_]
      · rw [if_neg]
        intro hany
        obtain ⟨e, he, hs⟩ := List.any_eq_true.1 hany
        rcases (hmem e).1 he with
          rfl | ⟨h, _⟩ | rfl | rfl | rfl | rfl | rfl | rfl | rfl | rfl <;>
          first | exact hfix h | exact Bool.noConfusion hs
      · intro e he v' hv
        rcases (hmem e).1 he with
          rfl | ⟨h, _⟩ | rfl | rfl | rfl | rfl | rfl | rfl | rfl | rfl <;>
          first | exact absurd h hfix | exact Option.noConfusion hv
  · rw [parse_base_option (fun p => p.mSamplePattern) Property.samplePattern?
      (fun s e => by cases e <;> rfl) (fun s e => by cases e <;> rfl)
      (fun props s => (hdep props s).2.2.1) s.mSamplePattern props d ?_]
    · rw [if_pos (List.any_eq_true.2 ⟨_, (hmem _).2 (Or.inr (Or.inr (Or.inl rfl))), rfl⟩)]
    · intro e he v' hv
      rcases (hmem e).1 he with rfl | ⟨_, rfl⟩ | rfl | rfl | rfl | rfl | rfl | rfl | rfl | rfl <;>
        first | exact (Option.some.inj hv).symm | exact Option.noConfusion hv
  · rw [parse_base_option (fun p => p.mSampleCount) Property.sampleCount?
      (fun s e => by cases e <;> rfl) (fun s e => by cases e <;> rfl)
      (fun props s => (hdep props s).2.2.2.1) s.mSampleCount props d ?_]
    · rw [if_pos (List.any_eq_true.2
        ⟨_, (hmem _).2 (Or.inr (Or.inr (Or.inr (Or.inl rfl)))), rfl⟩)]
    · intro e he v' hv
      rcases (hmem e).1 he with rfl | ⟨_, rfl⟩ | rfl | rfl | rfl | rfl | rfl | rfl | rfl | rfl <;>
        first | exact (Option.some.inj hv).symm | exact Option.noConfusion hv
  · have hall : ∀ v', Property.useAlphaTest v' ∈ props → v' = s.mUseAlphaTest := by
      intro v' he
      rcases (hmem _).1 he with h | ⟨_, h⟩ | h | h | h | h | h | h | h | h <;>
        first | exact Property.useAlphaTest.inj h | exact Property.noConfusion h
    have hhas : hasUseAlphaTest props = true := by
      cases h : hasUseAlphaTest props with
      | true => rfl
      | false =>
        exact absurd ((hmem (Property.useAlphaTest s.mUseAlphaTest)).2
          (Or.inr (Or.inr (Or.inr (Or.inr (Or.inl rfl))))))
          ((hasUseAlphaTest_eq_false props).1 h _)
    rw [parseProperties_alpha s.mUseAlphaTest props d hall, if_pos hhas]
  · rw [parse_base_option (fun p => p.mAdjustShadingNormals) Property.adjustShadingNormals?
      (fun s e => by cases e <;> rfl) (fun s e => by cases e <;> rfl)
      (fun props s => (hdep props s).2.2.2.2.1) s.mAdjustShadingNormals props d ?_]
    · rw [if_pos (List.any_eq_true.2
        ⟨_, (hmem _).2 (Or.inr (Or.inr (Or.inr (Or.inr (Or.inr (Or.inl rfl)))))), rfl⟩)]
    · intro e he v' hv
      rcases (hmem e).1 he with rfl | ⟨_, rfl⟩ | rfl | rfl | rfl | rfl | rfl | rfl | rfl | rfl <;>
        first | exact (Option.some.inj hv).symm | exact Option.noConfusion hv
  · rw [parse_base_option (fun p => p.mForceCullMode) Property.forceCullMode?
      (fun s e => by cases e <;> rfl) (fun s e => by cases e <;> rfl)
      (fun props s => (hdep props s).2.2.2.2.2.1) s.mForceCullMode props d ?_]
    · rw [if_pos (List.any_eq_true.2
        ⟨_, (hmem _).2 (Or.inr (Or.inr (Or.inr (Or.inr (Or.inr (Or.inr (Or.inl rfl))))))),
          rfl⟩)]
    · intro e he v' hv
      rcases (hmem e).1 he with rfl | ⟨_, rfl⟩ | rfl | rfl | rfl | rfl | rfl | rfl | rfl | rfl <;>
        first | exact (Option.some.inj hv).symm | exact Option.noConfusion hv
  · rw [parse_base_option (fun p => p.mCullMode) Property.cull?
      (fun s e => by cases e <;> rfl) (fun s e => by cases e <;> rfl)
      (fun props s => (hdep props s).2.2.2.2.2.2.1) s.mCullMode props d ?_]
    · rw [if_pos (List.any_eq_true.2
        ⟨_, (hmem _).2
          (Or.inr (Or.inr (Or.inr (Or.inr (Or.inr (Or.inr (Or.inr (Or.inl rfl)))))))), rfl⟩)]
    · intro e he v' hv
      rcases (hmem e).1 he with rfl | ⟨_, rfl⟩ | rfl | rfl | rfl | rfl | rfl | rfl | rfl | rfl <;>
        first | exact (Option.some.inj hv).symm | exact Option.noConfusion hv
  · rw [parse_tracing_option (fun p => p.mUseTraceRayInline) Property.useTraceRayInline?
      (fun s e => by cases e <;> rfl) (fun s e => by cases e <;> rfl)
      (fun props s => (hdep props s).2.2.2.2.2.2.2.1) s.mUseTraceRayInline props d ?_]
    · rw [if_pos (List.any_eq_true.2
        ⟨_, (hmem _).2
          (Or.inr (Or.inr (Or.inr (Or.inr (Or.inr (Or.inr (Or.inr (Or.inr (Or.inl rfl))))))))),
          rfl⟩)]
    · intro e he v' hv
      rcases (hmem e).1 he with rfl | ⟨_, rfl⟩ | rfl | rfl | rfl | rfl | rfl | rfl | rfl | rfl <;>
        first | exact (Option.some.inj hv).symm | exact Option.noConfusion hv
  · rw [parse_tracing_option (fun p => p.mUseDOF) Property.useDOF?
      (fun s e => by cases e <;> rfl) (fun s e => by cases e <;> rfl)
      (fun props s => (hdep props s).2.2.2.2.2.2.2.2) s.mUseDOF props d ?_]
    · rw [if_pos (List.any_eq_true.2
        ⟨_, (hmem _).2
          (Or.inr (Or.inr (Or.inr (Or.inr (Or.inr (Or.inr (Or.inr (Or.inr (Or.inr rfl))))))))),
          rfl⟩)]
    · intro e he v' hv
      rcases (hmem e).1 he with rfl | ⟨_, rfl⟩ | rfl | rfl | rfl | rfl | rfl | rfl | rfl | rfl <;>
        first | exact (Option.some.inj hv).symm | exact Option.noConfusion hv

/-- C23: for every pass `s`, parsing the entries of `s.getProperties`, in
whatever order the dictionary hands them out, into a pass with the default
options restores `outputSize`, `samplePattern`, `sampleCount`, `useAlphaTest`,
`adjustShadingNormals`, `forceCullMode`, `cullMode`, `useTraceRayInline` and
`useDOF` to their values in `s`; `fixedOutputSize` is restored when the output
size selection of `s` is `Fixed` and is the default 512 by 512 when not.  The
restored pass has the same properties as `s`, and so has the pass the
constructor builds from them on a device it accepts. -/
theorem properties_round_trip (s : VBufferSC) (pDevice : Device) (props : Properties)
    (hperm : props.Perm s.getProperties) :
    (VBufferSC.parseProperties props (VBufferSC.fresh pDevice)).mOutputSizeSelection
      = s.mOutputSizeSelection ∧
    (VBufferSC.parseProperties props (VBufferSC.fresh pDevice)).mSamplePattern
      = s.mSamplePattern ∧
    (VBufferSC.parseProperties props (VBufferSC.fresh pDevice)).mSampleCount
      = s.mSampleCount ∧
    (VBufferSC.parseProperties props (VBufferSC.fresh pDevice)).mUseAlphaTest
      = s.mUseAlphaTest ∧
    (VBufferSC.parseProperties props (VBufferSC.fresh pDevice)).mAdjustShadingNormals
      = s.mAdjustShadingNormals ∧
    (VBufferSC.parseProperties props (VBufferSC.fresh pDevice)).mForceCullMode
      = s.mForceCullMode ∧
    (VBufferSC.parseProperties props (VBufferSC.fresh pDevice)).mCullMode = s.mCullMode ∧
    (VBufferSC.parseProperties props (VBufferSC.fresh pDevice)).mUseTraceRayInline
      = s.mUseTraceRayInline ∧
    (VBufferSC.parseProperties props (VBufferSC.fresh pDevice)).mUseDOF = s.mUseDOF ∧
    (s.mOutputSizeSelection = IOSize.Fixed →
      (VBufferSC.parseProperties props (VBufferSC.fresh pDevice)).mFixedOutputSize
        = s.mFixedOutputSize) ∧
    (s.mOutputSizeSelection ≠ IOSize.Fixed →
      (VBufferSC.parseProperties props (VBufferSC.fresh pDevice)).mFixedOutputSize
        = ⟨512, 512⟩) ∧
    (VBufferSC.parseProperties props (VBufferSC.fresh pDevice)).getProperties
      = s.getProperties ∧
    (pDevice.supportsSM6_5 = true → pDevice.supportsRaytracingTier1_1 = true →
      ∃ q, (VBufferSC.new pDevice props).result = Except.ok q ∧
        q.getProperties = s.getProperties) := by
  obtain ⟨h1, h2, h3, h4, h5, h6, h7, h8, h9, h10⟩ :=
    parse_perm_getProperties s (VBufferSC.fresh pDevice) props hperm
  have hfix : s.mOutputSizeSelection = IOSize.Fixed →
      (VBufferSC.parseProperties props (VBufferSC.fresh pDevice)).mFixedOutputSize
        = s.mFixedOutputSize := by
    intro h; rw [h2, if_pos h]
  have hprops : (VBufferSC.parseProperties props (VBufferSC.fresh pDevice)).getProperties
      = s.getProperties :=
    getProperties_congr _ s h1 hfix h3 h4 h5 h6 h7 h8 h9 h10
  refine ⟨h1, h3, h4, h5, h6, h7, h8, h9, h10, hfix, ?_, hprops, ?_⟩
  · intro h; rw [h2, if_neg h]; rfl
  · intro hsm hrt
    refine ⟨{ VBufferSC.parseProperties props (VBufferSC.fresh pDevice) with
      mHasSampleGenerator := true }, ?_, ?_⟩
    · unfold VBufferSC.new
      rw [if_neg (by rw [hsm]; decide), if_neg (by rw [hrt]; decide)]
      rfl
    · exact hprops

/-- C23 at a pass with every option away from its default and the output
size selection `Fixed`, its properties handed out in reverse order: the fixed
output size 800 by 600 is restored too. -/
theorem properties_round_trip_witness :
    (VBufferSC.parseProperties customPass.getProperties.reverse
        (VBufferSC.fresh ⟨true, true⟩)).mFixedOutputSize = ⟨800, 600⟩ ∧
    (VBufferSC.parseProperties customPass.getProperties.reverse
        (VBufferSC.fresh ⟨true, true⟩)).getProperties = customPass.getProperties :=
  ⟨(properties_round_trip customPass ⟨true, true⟩ customPass.getProperties.reverse
      (List.reverse_perm _)).2.2.2.2.2.2.2.2.2.1 rfl,
    (properties_round_trip customPass ⟨true, true⟩ customPass.getProperties.reverse
      (List.reverse_perm _)).2.2.2.2.2.2.2.2.2.2.2.1⟩

end Falcor
